import Mathlib

/-!
# Leoncast: encoder supervision, preview multiplexing and socket fan-out

A shallow embedding of the streaming orchestration code of the repository:

* `apps/server/domain/entities/Channel.js`
* `apps/server/infrastructure/streaming/StreamingService.js`
* `apps/server/application/use-cases/ChannelUseCases.js` (status query, start
  and stop of a channel stream)
* `apps/server/application/use-cases/ScenarioUseCases.js` (`activateScenario`)
* `apps/server/infrastructure/database/ScenarioRepository.js` and the channel
  repository, as tables of records
* `apps/server/infrastructure/config/index.js`
* `apps/server/presentation/controllers/ChannelController.js` (status query)
* `backend/src/services/ffmpeg.service.js`
* `_legacy_backup/apps/server/index.js` (the endpoints `/ws/monitor` and `/ws`)

The service objects are mutable JavaScript objects; here every method takes the
state of the object and returns its result together with the state it leaves
behind.  Effects on collaborators (processes spawned, signals sent, messages
published on the bus) are kept as logs inside the state, in call order.
A method that throws returns `Except.error` with the message of the `Error`.
Console output is not modelled.

The ffmpeg wrapper is not part of the repository.  Of it the model keeps what
the service relies on: which chainable methods a command has, and that a
process reports its exit once, through `error` or through `end`.
-/

namespace Leoncast

/-! ## JavaScript `Map` -/

/-- A JavaScript `Map`: its entries in insertion order. -/
structure JsMap (K V : Type) where
  entries : List (K × V)
deriving DecidableEq, Repr

namespace JsMap

variable {K V : Type} [DecidableEq K]

/-- The value of `new Map()`. -/
def empty : JsMap K V := ⟨[]⟩

/-- The method `Map.prototype.has`. -/
def has (m : JsMap K V) (k : K) : Bool :=
  m.entries.any (fun e => decide (e.1 = k))

/-- The method `Map.prototype.get`; `none` stands for `undefined`. -/
def get (m : JsMap K V) (k : K) : Option V :=
  (m.entries.find? (fun e => decide (e.1 = k))).map Prod.snd

/-- The method `Map.prototype.set`: an existing key keeps its position. -/
def set (m : JsMap K V) (k : K) (v : V) : JsMap K V :=
  if m.has k then ⟨m.entries.map (fun e => if e.1 = k then (k, v) else e)⟩
  else ⟨m.entries ++ [(k, v)]⟩

/-- The method `Map.prototype.delete` (its boolean result is never used). -/
def delete (m : JsMap K V) (k : K) : JsMap K V :=
  ⟨m.entries.filter (fun e => !decide (e.1 = k))⟩

/-- The keys of `Map.prototype.keys`, in order. -/
def keys (m : JsMap K V) : List K := m.entries.map Prod.fst

/-- The number of entries stored under a key. -/
def count (m : JsMap K V) (k : K) : Nat :=
  (m.entries.filter (fun e => decide (e.1 = k))).length

end JsMap

/-! ## Channel entity (`domain/entities/Channel.js`) -/

/-- The fields of a scenario object that the streaming code reads. -/
structure Scenario where
  id : String
  isActive : Bool
deriving DecidableEq, Repr

/-- The class `Channel`. -/
structure Channel where
  id : String
  name : String
  streamKey : String
  rtmpUrl : String
  status : String
  scenarios : List Scenario
deriving DecidableEq, Repr

/-- The getter `activeScenario`: `this.scenarios.find(s => s.isActive) || null`. -/
def Channel.activeScenario (c : Channel) : Option Scenario :=
  c.scenarios.find? (fun s => s.isActive)

/-! ## StreamingService (`infrastructure/streaming/StreamingService.js`) -/

/-- A JavaScript value as it is found in one field of a progress report of the
ffmpeg wrapper (which fills the numeric fields with `parseInt` and
`parseFloat`) or in a field of the configuration. -/
inductive JsValue where
  | undefined
  | null
  | nan
  | infinity
  | negInfinity
  | number (q : Rat)
  | string (s : String)
deriving DecidableEq, Repr

/-- What `JSON.stringify` writes for one field of an object. -/
inductive JsonValue where
  /-- The field is left out of the text. -/
  | absent
  | null
  | number (q : Rat)
  | string (s : String)
deriving DecidableEq, Repr

/-- The text that `JSON.stringify` writes for the value of a field of an
object: a field whose value is `undefined` is left out, and a number that is
not finite (`NaN`, `Infinity`, `-Infinity`) is written `null`. -/
def JsValue.toJson : JsValue → JsonValue
  | .undefined => .absent
  | .null => .null
  | .nan => .null
  | .infinity => .null
  | .negInfinity => .null
  | .number q => .number q
  | .string s => .string s

/-- The value that a subscriber reads in a field of the parsed payload. -/
def JsonValue.read : JsonValue → JsValue
  | .absent => .undefined
  | .null => .null
  | .number q => .number q
  | .string s => .string s

/-- Whether the value is a number that is not finite. -/
def JsValue.nonFinite : JsValue → Bool
  | .nan => true
  | .infinity => true
  | .negInfinity => true
  | _ => false

/-- The fields of a progress report that the progress observer reads. -/
structure Progress where
  frames : JsValue
  currentFps : JsValue
  currentKbps : JsValue
  targetSize : JsValue
  timemark : JsValue
deriving DecidableEq, Repr

/-- The `metrics` object of a `STREAM_PROGRESS` payload. -/
structure Metrics where
  frames : JsonValue
  fps : JsonValue
  kbps : JsonValue
  targetSize : JsonValue
  timemark : JsonValue
deriving DecidableEq, Repr

/-- The payload of a `pub.publish` call: the text that `JSON.stringify` writes
for the object literal at the call, given by the fields the text holds.  The
ids and the error message are strings, which the text holds as they are. -/
inductive Message where
  | streamStarted (channelId : String)
  | streamError (channelId : String) (error : String)
  | streamEnded (channelId : String)
  | streamProgress (channelId : String) (metrics : Metrics)
deriving DecidableEq, Repr

/-- The `type` field of a message. -/
def Message.type : Message → String
  | .streamStarted _ => "STREAM_STARTED"
  | .streamError _ _ => "STREAM_ERROR"
  | .streamEnded _ => "STREAM_ENDED"
  | .streamProgress _ _ => "STREAM_PROGRESS"

/-- The `channelId` field of a message. -/
def Message.channelId : Message → String
  | .streamStarted c => c
  | .streamError c _ => c
  | .streamEnded c => c
  | .streamProgress c _ => c

/-- An `Error` object, of which only `message` is read. -/
structure JsError where
  message : String
deriving DecidableEq, Repr

/-- The ffmpeg command that `startStream` builds and runs.  `channelId` is the
`channel.id` captured by the four observers registered on the command. -/
structure Command where
  channelId : String
  input : String
  inputFormat : String
  videoCodec : String
  audioCodec : String
  outputOptions : List String
  output : String
deriving DecidableEq, Repr

/-- An entry of `activePreviews`. -/
structure PreviewSession where
  command : Nat
  emitter : Nat
  clientCount : Int
deriving DecidableEq, Repr

/-- A chunk of bytes that a preview process writes to its output pipe. -/
abbrev Chunk := List Nat

/-- An `EventEmitter` made by `createPreviewProcess`: its listeners, in
registration order.  A `data` listener is the `onFrame` of a monitor socket and
is named by that socket; of the `error` listeners only the number is kept. -/
structure Emitter where
  dataListeners : List Nat
  errorListeners : Nat
deriving DecidableEq, Repr

/-- The ffmpeg command that `createPreviewProcess` builds and starts with
`pipe()`.  `scenarioId` and `emitter` are the variables captured by the
observers registered on the command and on its output stream. -/
structure PreviewCommand where
  scenarioId : String
  emitter : Nat
  input : String
  inputFormat : String
  outputOptions : List String
  format : String
  vcodec : String
deriving DecidableEq, Repr

/-- The state of the `StreamingService` singleton and of its collaborators.
A command is referred to by its handle, its index in `commands`. -/
structure State where
  /-- The field `this.activeStreams`: channel id to command handle. -/
  activeStreams : JsMap String Nat
  /-- The field `this.activePreviews`. -/
  activePreviews : JsMap String PreviewSession
  /-- Every command on which `startStream` called `run()`, oldest first. -/
  commands : List Command
  /-- Every `command.kill(signal)` call: handle and signal, oldest first. -/
  kills : List (Nat × String)
  /-- Every `pub.publish(topic, payload)` call, oldest first. -/
  published : List (String × Message)
  /-- Every command on which `createPreviewProcess` called `pipe()`, oldest
  first; a preview command is referred to by its index in this list. -/
  previewCommands : List PreviewCommand
  /-- Every `preview.command.kill(signal)` call: handle and signal. -/
  previewKills : List (Nat × String)
  /-- Every emitter made by `createPreviewProcess`; an emitter is referred to
  by its index in this list. -/
  emitters : List Emitter
deriving DecidableEq, Repr

/-- The constructor of `StreamingService`, with nothing spawned or published. -/
def State.new : State :=
  { activeStreams := JsMap.empty, activePreviews := JsMap.empty,
    commands := [], kills := [], published := [],
    previewCommands := [], previewKills := [], emitters := [] }

/-- A call `pub.publish(topic, JSON.stringify(msg))`. -/
def State.publish (s : State) (topic : String) (msg : Message) : State :=
  { s with published := s.published ++ [(topic, msg)] }

/-- The topic of a channel. -/
def channelTopic (channelId : String) : String := "channel:" ++ channelId

/-- The object returned by a successful `startStream`. -/
structure StreamStarted where
  channelId : String
  status : String
  destination : String
deriving DecidableEq, Repr

/-- The method `startStream(channel, rtmpDestination)`; `rendererUrl` is
`config.rendererUrl`.  The call `command.run()` records the command; what the
process emits arrives later, through `deliver`. -/
def startStream (rendererUrl : String) (s : State) (channel : Channel)
    (rtmpDestination : String) : Except String StreamStarted × State :=
  if s.activeStreams.has channel.id then
    (.error ("Stream already running for channel " ++ channel.id), s)
  else
    match channel.activeScenario with
    | none => (.error ("No active scenario found for channel " ++ channel.id), s)
    | some scenario =>
      let streamUrl := rtmpDestination ++ "/" ++ channel.streamKey
      let command : Command :=
        { channelId := channel.id
          input := rendererUrl ++ "/render/" ++ scenario.id
          inputFormat := "mjpeg"
          videoCodec := "libx264"
          audioCodec := "aac"
          outputOptions := ["-preset veryfast", "-tune zerolatency", "-f flv"]
          output := streamUrl }
      let handle := s.commands.length
      (.ok { channelId := channel.id, status := "RUNNING", destination := streamUrl },
       { s with commands := s.commands ++ [command]
                activeStreams := s.activeStreams.set channel.id handle })

/-- The observer of `start` registered by `startStream` for `channelId`. -/
def startObserver (channelId : String) (s : State) : State :=
  s.publish (channelTopic channelId) (.streamStarted channelId)

/-- The observer of `error` registered by `startStream` for `channelId`. -/
def errorObserver (channelId : String) (s : State) (err : JsError) : State :=
  State.publish { s with activeStreams := s.activeStreams.delete channelId }
    (channelTopic channelId) (.streamError channelId err.message)

/-- The observer of `end` registered by `startStream` for `channelId`. -/
def endObserver (channelId : String) (s : State) : State :=
  State.publish { s with activeStreams := s.activeStreams.delete channelId }
    (channelTopic channelId) (.streamEnded channelId)

/-- The observer of `progress` registered by `startStream` for `channelId`:
the five values go through `JSON.stringify` with the rest of the message. -/
def progressObserver (channelId : String) (s : State) (progress : Progress) : State :=
  s.publish (channelTopic channelId)
    (.streamProgress channelId
      { frames := progress.frames.toJson, fps := progress.currentFps.toJson,
        kbps := progress.currentKbps.toJson, targetSize := progress.targetSize.toJson,
        timemark := progress.timemark.toJson })

/-- The object returned by `stopStream`. -/
inductive StopResult where
  | notFound (message : String)
  | stopped (channelId : String)
deriving DecidableEq, Repr

/-- The `success` field of the result of `stopStream`. -/
def StopResult.success : StopResult → Bool
  | .notFound _ => false
  | .stopped _ => true

/-- The method `stopStream(channelId)`. -/
def stopStream (s : State) (channelId : String) : StopResult × State :=
  match s.activeStreams.get channelId with
  | none => (.notFound "No active stream found", s)
  | some command =>
    (.stopped channelId,
     { s with kills := s.kills ++ [(command, "SIGTERM")]
              activeStreams := s.activeStreams.delete channelId })

/-- The object returned by `getStreamInfo` when a stream is stored. -/
structure StreamInfo where
  channelId : String
  status : String
deriving DecidableEq, Repr

/-- The method `getStreamInfo(channelId)`; `none` stands for `null`. -/
def getStreamInfo (s : State) (channelId : String) : Option StreamInfo :=
  if s.activeStreams.has channelId then some { channelId := channelId, status := "RUNNING" }
  else none

/-- The method `getAllActiveStreams()`. -/
def getAllActiveStreams (s : State) : List StreamInfo :=
  s.activeStreams.keys.map (fun channelId => { channelId := channelId, status := "RUNNING" })

/-! ### The ffmpeg wrapper

The wrapper `fluent-ffmpeg` is not part of the repository.  Of its command
object the service uses the chainable methods below. -/

/-- The chainable methods of a command of the wrapper, among the names that the
service calls on one.  The wrapper sets the video codec with `videoCodec`; it
has no method `vcodec`. -/
def FluentCommand.methods : List String :=
  ["input", "inputFormat", "videoCodec", "audioCodec", "outputOptions", "output", "format"]

/-- A chain of calls on a command, `callee` being the text of the expression so
far: a method of the wrapper configures the command and returns it; a name
that is no method is `undefined`, and calling it throws a `TypeError`. -/
def FluentCommand.chain (callee : String) : List String → Except JsError Unit
  | [] => .ok ()
  | name :: rest =>
    if name ∈ FluentCommand.methods then
      FluentCommand.chain (callee ++ "." ++ name ++ "(...)") rest
    else .error { message := callee ++ "." ++ name ++ " is not a function" }

/-! ### Preview multiplexing -/

/-- The method `createPreviewProcess(scenarioId)`; the result is the emitter,
or the error thrown.  An entry of `activePreviews` is always an object, so
`has` holds exactly when `get` finds one.  With no entry, the emitter is made
first, then the command is built by the chain of calls that ends in `vcodec`,
and only then come `pipe()`, the observers and the `set`. -/
def createPreviewProcess (rendererUrl : String) (s : State) (scenarioId : String) :
    Except JsError Nat × State :=
  match s.activePreviews.get scenarioId with
  | some preview =>
    (.ok preview.emitter,
     { s with activePreviews :=
        s.activePreviews.set scenarioId { preview with clientCount := preview.clientCount + 1 } })
  | none =>
    let emitter := s.emitters.length
    let made : State :=
      { s with emitters := s.emitters ++ [{ dataListeners := [], errorListeners := 0 }] }
    match FluentCommand.chain "ffmpeg(...)"
        ["input", "inputFormat", "outputOptions", "format", "vcodec"] with
    | .error err => (.error err, made)
    | .ok () =>
      let command : PreviewCommand :=
        { scenarioId := scenarioId
          emitter := emitter
          input := rendererUrl ++ "/render/" ++ scenarioId
          inputFormat := "mjpeg"
          outputOptions := ["-vf scale=640:-1", "-r 15", "-q:v 5"]
          format := "image2pipe"
          vcodec := "mjpeg" }
      let handle := s.previewCommands.length
      (.ok emitter,
       { made with previewCommands := s.previewCommands ++ [command]
                   activePreviews := s.activePreviews.set scenarioId
                     { command := handle, emitter := emitter, clientCount := 1 } })

/-- The method `stopPreviewProcess(scenarioId, emitter)`; the second argument
is not read. -/
def stopPreviewProcess (s : State) (scenarioId : String) (_emitter : Option Nat) : State :=
  match s.activePreviews.get scenarioId with
  | none => s
  | some preview =>
    if preview.clientCount - 1 ≤ 0 then
      { s with previewKills := s.previewKills ++ [(preview.command, "SIGTERM")]
               activePreviews := s.activePreviews.delete scenarioId }
    else
      { s with activePreviews :=
          s.activePreviews.set scenarioId { preview with clientCount := preview.clientCount - 1 } }

/-- The number of `error` listeners of an emitter. -/
def State.errorListenerCount (s : State) (emitter : Nat) : Nat :=
  match s.emitters.get? emitter with
  | some e => e.errorListeners
  | none => 0

/-- The observer of `error` registered by `createPreviewProcess`.  The call
`emitter.emit('error', err)` throws `err` when the emitter has no `error`
listener, and the statements after it do not run. -/
def previewErrorObserver (scenarioId : String) (emitter : Nat) (s : State) (err : JsError) :
    Except String Unit × State :=
  if s.errorListenerCount emitter = 0 then (.error err.message, s)
  else (.ok (), { s with activePreviews := s.activePreviews.delete scenarioId })

/-- The observer of `end` registered by `createPreviewProcess`. -/
def previewEndObserver (scenarioId : String) (s : State) : State :=
  { s with activePreviews := s.activePreviews.delete scenarioId }

/-- The method `emitter.on('data', onFrame)`, with `onFrame` that of `socket`. -/
def State.onData (s : State) (emitter socket : Nat) : State :=
  { s with emitters :=
            List.modify (fun e => { e with dataListeners := e.dataListeners ++ [socket] })
              emitter s.emitters }

/-- The method `emitter.on('error', listener)`. -/
def State.onError (s : State) (emitter : Nat) : State :=
  { s with emitters :=
            List.modify (fun e => { e with errorListeners := e.errorListeners + 1 })
              emitter s.emitters }

/-- Remove the most recently added instance of a listener, as
`EventEmitter.prototype.removeListener` does. -/
def removeLast (l : List Nat) (socket : Nat) : List Nat :=
  (l.reverse.erase socket).reverse

/-- The method `emitter.removeListener('data', onFrame)`. -/
def State.removeDataListener (s : State) (emitter socket : Nat) : State :=
  { s with emitters :=
            List.modify (fun e => { e with dataListeners := removeLast e.dataListeners socket })
              emitter s.emitters }

/-- The `data` listeners of an emitter. -/
def State.dataListeners (s : State) (emitter : Nat) : List Nat :=
  match s.emitters.get? emitter with
  | some e => e.dataListeners
  | none => []

/-! ## Status query (`ChannelUseCases.js`, `ChannelController.js`) -/

/-- The method `ChannelUseCases.getChannelStreamStatus(id)`. -/
def getChannelStreamStatus (s : State) (id : String) : Option StreamInfo :=
  getStreamInfo s id

/-- The body sent by `ChannelController.getStatus`: either the stream info or
the object with the single field `status`. -/
structure StatusBody where
  channelId : Option String
  status : String
deriving DecidableEq, Repr

/-- The method `ChannelController.getStatus`: `reply.send(status || { status: 'IDLE' })`. -/
def getStatus (s : State) (id : String) : StatusBody :=
  match getChannelStreamStatus s id with
  | some info => { channelId := some info.channelId, status := info.status }
  | none => { channelId := none, status := "IDLE" }

/-! ## The processes as environment

The observers run when the ffmpeg wrapper emits an event on a command.  The
wrapper reports the exit of a process once, through `error` or through `end`.
The world below adds, to the state of the service, the record of which
commands have already reported their exit, and lets a command emit only while
it has not. -/

/-- An event that a running command emits to its observers. -/
inductive Callback where
  | start (commandLine : String)
  | progress (progress : Progress)
  | error (err : JsError)
  | end_
deriving DecidableEq, Repr

/-- Whether the callback reports the exit of the process. -/
def Callback.terminal : Callback → Bool
  | .error _ => true
  | .end_ => true
  | _ => false

/-- The command with handle `handle` emits `cb`: the observer that
`startStream` registered on that command for this event runs. -/
def deliver (s : State) (handle : Nat) (cb : Callback) : State :=
  match s.commands.get? handle with
  | none => s
  | some command =>
    match cb with
    | .start _ => startObserver command.channelId s
    | .progress p => progressObserver command.channelId s p
    | .error err => errorObserver command.channelId s err
    | .end_ => endObserver command.channelId s

/-- The messages published on the topic of `channelId` that report the end of
a process: `STREAM_ERROR` and `STREAM_ENDED`. -/
def terminalEvents (s : State) (channelId : String) : List Message :=
  (s.published.filter (fun p => decide (p.1 = channelTopic channelId) &&
    (decide (p.2.type = "STREAM_ERROR") || decide (p.2.type = "STREAM_ENDED")))).map Prod.snd

/-- The message that the observer of a terminal callback publishes. -/
def terminalMessage (channelId : String) : Callback → Option Message
  | .error err => some (.streamError channelId err.message)
  | .end_ => some (.streamEnded channelId)
  | _ => none

/-- The service together with the commands that have reported their exit. -/
structure World where
  service : State
  /-- Handles of the commands that emitted `error` or `end`, oldest first. -/
  reported : List Nat
deriving DecidableEq, Repr

/-- The world at server start. -/
def World.init : World := { service := State.new, reported := [] }

/-- One step of the system: a method call or an event of a command. -/
inductive Action where
  | startStream (channel : Channel) (rtmpDestination : String)
  | stopStream (channelId : String)
  | callback (handle : Nat) (cb : Callback)
deriving DecidableEq, Repr

/-- An action can happen: a callback comes from a command that was spawned and
has not yet reported its exit. -/
def World.enabled (w : World) : Action → Bool
  | .callback handle _ => decide (handle < w.service.commands.length) && !(w.reported.contains handle)
  | _ => true

/-- The effect of one action. -/
def World.step (rendererUrl : String) (w : World) : Action → World
  | .startStream channel rtmpDestination =>
    { w with service := (startStream rendererUrl w.service channel rtmpDestination).2 }
  | .stopStream channelId => { w with service := (stopStream w.service channelId).2 }
  | .callback handle cb =>
    { service := deliver w.service handle cb
      reported := if cb.terminal then w.reported ++ [handle] else w.reported }

/-- Run a trace; `none` when some action of it is not enabled. -/
def World.run (rendererUrl : String) (w : World) : List Action → Option World
  | [] => some w
  | a :: rest => if w.enabled a then World.run rendererUrl (w.step rendererUrl a) rest else none

/-- The handles of the live encoder processes of a channel: spawned for it,
never sent a signal, exit not yet reported. -/
def World.live (w : World) (channelId : String) : List Nat :=
  (List.range w.service.commands.length).filter (fun handle =>
    ((w.service.commands.get? handle).any (fun c => decide (c.channelId = channelId))) &&
    !((w.service.kills.map Prod.fst).contains handle) &&
    !(w.reported.contains handle))

/-! ## FfmpegService (`backend/src/services/ffmpeg.service.js`) -/

namespace FfmpegService

/-- A row of the table `channels`, with `loop` standing for `config?.loop || false`. -/
structure ChannelRow where
  id : Nat
  name : String
  input_url : String
  output_url : String
  loop : Bool
deriving DecidableEq, Repr

/-- The ffmpeg command that `startStream` builds and runs; `id` is the channel
id captured by its observers. -/
structure Command where
  id : Nat
  input : String
  inputOptions : List String
  outputOptions : List String
  output : String
deriving DecidableEq, Repr

/-- An entry of `this.streams` (time stamps left out). -/
structure StreamStatus where
  state : String
  error : Option String
deriving DecidableEq, Repr

/-- The state of the `FfmpegService` singleton and of its collaborators. -/
structure State where
  /-- The field `this.processes`: channel id to command handle. -/
  processes : JsMap Nat Nat
  /-- The field `this.streams`. -/
  streams : JsMap Nat StreamStatus
  /-- Every command on which `run()` was called, oldest first. -/
  commands : List Command
  /-- Every `fastify.redis.hset(key, fields)` call: key and `state` field. -/
  hsets : List (String × String)
deriving DecidableEq, Repr

/-- The constructor of `FfmpegService`. -/
def State.new : State :=
  { processes := JsMap.empty, streams := JsMap.empty, commands := [], hsets := [] }

/-- Where one call of the async method `startStream` stands. -/
inductive Call where
  /-- The call has not been made yet. -/
  | pending (channel : ChannelRow)
  /-- The call is suspended at `await fastify.redis.hset(...)`. -/
  | awaitingHset (channel : ChannelRow)
  /-- The promise of the call was rejected with this message. -/
  | rejected (message : String)
  /-- The promise of the call was fulfilled. -/
  | resolved
deriving DecidableEq, Repr

/-- The code of `startStream` from its entry to the first `await`. -/
def startStreamEnter (s : State) (channel : ChannelRow) : Call × State :=
  if s.processes.has channel.id then
    (.rejected "Stream already running for this channel", s)
  else
    (.awaitingHset channel,
     { s with hsets := s.hsets ++ [("channel:" ++ toString channel.id ++ ":status", "starting")] })

/-- The code of `startStream` after the `await`, resumed with the outcome of
the awaited `hset`. -/
def startStreamResume (s : State) (channel : ChannelRow) (hset : Except String Unit) :
    Call × State :=
  match hset with
  | .error message => (.rejected message, s)
  | .ok _ =>
    let command : Command :=
      { id := channel.id
        input := channel.input_url
        inputOptions := if channel.loop then ["-stream_loop -1"] else []
        outputOptions := ["-c:v libx264", "-preset veryfast", "-b:v 3000k", "-maxrate 3000k",
          "-bufsize 6000k", "-pix_fmt yuv420p", "-g 50", "-c:a aac", "-b:a 128k", "-ar 44100",
          "-f flv"]
        output := channel.output_url }
    let handle := s.commands.length
    (.resolved,
     { s with commands := s.commands ++ [command]
              processes := s.processes.set channel.id handle })

/-- Run the next atomic segment of a call: the code up to the next suspension
point.  `hset` is the outcome of the redis call a suspended call waits for. -/
def Call.step (s : State) (hset : Except String Unit) : Call → Call × State
  | .pending channel => startStreamEnter s channel
  | .awaitingHset channel => startStreamResume s channel hset
  | .rejected message => (.rejected message, s)
  | .resolved => (.resolved, s)

/-- Whether a call has run to its end. -/
def Call.finished : Call → Bool
  | .rejected _ => true
  | .resolved => true
  | _ => false

/-- Two calls of `startStream` in flight on one service. -/
structure Race where
  service : State
  first : Call
  second : Call
deriving DecidableEq, Repr

/-- The event loop runs the next segment of the first (`false`) or second
(`true`) call. -/
def Race.step (r : Race) (pick : Bool) (hset : Except String Unit) : Race :=
  if pick then
    let (c, s) := r.second.step r.service hset
    { r with service := s, second := c }
  else
    let (c, s) := r.first.step r.service hset
    { r with service := s, first := c }

/-- Run an interleaving of the two calls; every redis call succeeds. -/
def Race.run (r : Race) (schedule : List Bool) : Race :=
  schedule.foldl (fun r pick => r.step pick (.ok ())) r

end FfmpegService

/-! ## Monitor endpoint (`/ws/monitor` in `_legacy_backup/apps/server/index.js`) -/

/-- A monitor socket: what the handler and the transport have done with it. -/
structure MonitorSocket where
  /-- The property `readyState`; 1 is OPEN. -/
  readyState : Nat
  /-- Every `socket.send(data)` call, oldest first. -/
  sent : List Chunk
  /-- Every `socket.close(code, reason)` call, oldest first. -/
  closes : List (Nat × String)
  /-- The `scenario.id` and the `previewProcess` captured by the `close` and
  `error` listeners of the socket, once the handler has registered them. -/
  attached : Option (String × Nat)
  /-- Whether the transport has delivered `error` or `close` for the socket. -/
  disconnected : Bool
deriving DecidableEq, Repr

/-- The streaming service together with the monitor sockets; a socket is
referred to by its index in `sockets`. -/
structure Monitor where
  service : State
  sockets : List MonitorSocket
deriving DecidableEq, Repr

/-- The server at start, with no monitor socket. -/
def Monitor.init : Monitor := { service := State.new, sockets := [] }

/-- The listener `onFrame` of `socket`: send the data when the socket is OPEN. -/
def onFrame (sockets : List MonitorSocket) (socket : Nat) (data : Chunk) :
    List MonitorSocket :=
  List.modify (fun k => if k.readyState = 1 then { k with sent := k.sent ++ [data] } else k)
    socket sockets

/-- The call `emitter.emit('data', chunk)`: every `data` listener runs once, in
registration order. -/
def emitData (m : Monitor) (emitter : Nat) (chunk : Chunk) : Monitor :=
  let sockets :=
    (m.service.dataListeners emitter).foldl (fun sockets socket => onFrame sockets socket chunk)
      m.sockets
  { m with sockets := sockets }

/-- The output stream of the preview command `handle` produces a chunk: the
listener registered by `createPreviewProcess` emits it on the emitter of that
command. -/
def previewData (m : Monitor) (handle : Nat) (chunk : Chunk) : Monitor :=
  match m.service.previewCommands.get? handle with
  | none => m
  | some command => emitData m command.emitter chunk

/-- The preview command `handle` produces the chunks `chunks` in order. -/
def previewDataAll (m : Monitor) (handle : Nat) (chunks : List Chunk) : Monitor :=
  chunks.foldl (fun m chunk => previewData m handle chunk) m

/-- A call `socket.close(code, reason)`. -/
def Monitor.close (m : Monitor) (socket code : Nat) (reason : String) : Monitor :=
  let sockets :=
    List.modify (fun k => { k with closes := k.closes ++ [(code, reason)] }) socket m.sockets
  { m with sockets := sockets }

/-- The handler of `/ws/monitor` for the connection `socket`.  `channelId` is
the query parameter and `lookup` the outcome of the awaited
`scenarioRepository.findActiveByChannelId(channelId)`: an exception, or the id
of the scenario found.  What the lookup or `createPreviewProcess` throws is
caught: the socket is closed with code 1011 and no listener is registered. -/
def monitorHandler (rendererUrl : String) (m : Monitor) (socket : Nat)
    (channelId : Option String) (lookup : Except String (Option String)) : Monitor :=
  if channelId.getD "" = "" then m.close socket 1008 "Missing channelId"
  else
    match lookup with
    | .error message => m.close socket 1011 message
    | .ok none => m.close socket 1008 "No active scenario found for this channel"
    | .ok (some scenarioId) =>
      match createPreviewProcess rendererUrl m.service scenarioId with
      | (.error err, service) => Monitor.close { m with service := service } socket 1011 err.message
      | (.ok previewProcess, service) =>
        let sockets :=
          List.modify (fun k => { k with attached := some (scenarioId, previewProcess) }) socket
            m.sockets
        { service := service.onData previewProcess socket, sockets := sockets }

/-- The variables captured by the `close` and `error` listeners of a socket. -/
def Monitor.attachedOf (m : Monitor) (socket : Nat) : Option (String × Nat) :=
  (m.sockets.get? socket).bind (fun k => k.attached)

/-- The listener of `close` registered by the handler on `socket`. -/
def monitorOnClose (m : Monitor) (socket : Nat) : Monitor :=
  match m.attachedOf socket with
  | none => m
  | some (scenarioId, previewProcess) =>
    let service :=
      stopPreviewProcess (m.service.removeDataListener previewProcess socket) scenarioId
        (some previewProcess)
    { m with service := service }

/-- The listener of `error` registered by the handler on `socket`. -/
def monitorOnError (m : Monitor) (socket : Nat) : Monitor :=
  match m.attachedOf socket with
  | none => m
  | some (scenarioId, previewProcess) =>
    let service :=
      stopPreviewProcess (m.service.removeDataListener previewProcess socket) scenarioId
        (some previewProcess)
    { m with service := service }

/-- An event that the transport delivers on a socket. -/
inductive TransportEvent where
  | error
  | close
deriving DecidableEq, Repr

/-- One step of the monitor endpoint and of its environment. -/
inductive MonitorAction where
  /-- A client connects: a new OPEN socket is handed to the handler. -/
  | connect (channelId : Option String) (lookup : Except String (Option String))
  /-- The transport delivers `error` or `close` on a socket. -/
  | transport (socket : Nat) (event : TransportEvent)
  /-- The output stream of a preview command produces a chunk. -/
  | chunk (handle : Nat) (data : Chunk)
  /-- A preview command emits `error`. -/
  | processError (handle : Nat) (err : JsError)
  /-- A preview command emits `end`. -/
  | processEnd (handle : Nat)

/-- The transport marks the socket before it emits the event: CLOSING (2) for
`error`, CLOSED (3) for `close`. -/
def Monitor.mark (m : Monitor) (socket : Nat) (event : TransportEvent) : Monitor :=
  let readyState : Nat :=
    match event with
    | .error => 2
    | .close => 3
  let sockets :=
    List.modify (fun k => { k with disconnected := true, readyState := readyState }) socket
      m.sockets
  { m with sockets := sockets }

/-- The effect of one action. -/
def Monitor.step (rendererUrl : String) (m : Monitor) : MonitorAction → Monitor
  | .connect channelId lookup =>
    let socket : MonitorSocket :=
      { readyState := 1, sent := [], closes := [], attached := none, disconnected := false }
    monitorHandler rendererUrl { m with sockets := m.sockets ++ [socket] } m.sockets.length
      channelId lookup
  | .transport socket .error => monitorOnError (m.mark socket .error) socket
  | .transport socket .close => monitorOnClose (m.mark socket .close) socket
  | .chunk handle data => previewData m handle data
  | .processError handle err =>
    match m.service.previewCommands.get? handle with
    | none => m
    | some command =>
      let outcome := previewErrorObserver command.scenarioId command.emitter m.service err
      { m with service := outcome.2 }
  | .processEnd handle =>
    match m.service.previewCommands.get? handle with
    | none => m
    | some command => { m with service := previewEndObserver command.scenarioId m.service }

/-- Run a trace of the monitor endpoint. -/
def Monitor.run (rendererUrl : String) (m : Monitor) (actions : List MonitorAction) : Monitor :=
  actions.foldl (Monitor.step rendererUrl) m

/-- The number of sockets that attached to the feed `emitter` and on which the
transport has delivered neither `error` nor `close`. -/
def Monitor.attachedTo (m : Monitor) (emitter : Nat) : Nat :=
  (m.sockets.filter (fun k =>
    (k.attached.any (fun a => decide (a.2 = emitter))) && !k.disconnected)).length

/-- The `clientCount` of the session stored for a scenario. -/
def State.clientCount (s : State) (scenarioId : String) : Option Int :=
  (s.activePreviews.get scenarioId).map (fun preview => preview.clientCount)

/-- One step of the preview multiplexer and of its environment. -/
inductive PreviewAction where
  /-- A call of `createPreviewProcess`. -/
  | create (scenarioId : String)
  /-- A call of `stopPreviewProcess`. -/
  | stop (scenarioId : String) (emitter : Option Nat)
  /-- A preview command emits `error`. -/
  | processError (handle : Nat) (err : JsError)
  /-- A preview command emits `end`. -/
  | processEnd (handle : Nat)
  /-- A consumer registers a `data` listener on a feed. -/
  | onData (emitter socket : Nat)
  /-- A consumer removes a `data` listener from a feed. -/
  | removeData (emitter socket : Nat)
  /-- A consumer registers an `error` listener on a feed. -/
  | onError (emitter : Nat)
deriving DecidableEq, Repr

/-- The effect of one action on the service. -/
def previewStep (rendererUrl : String) (s : State) : PreviewAction → State
  | .create scenarioId => (createPreviewProcess rendererUrl s scenarioId).2
  | .stop scenarioId emitter => stopPreviewProcess s scenarioId emitter
  | .processError handle err =>
    match s.previewCommands.get? handle with
    | none => s
    | some command => (previewErrorObserver command.scenarioId command.emitter s err).2
  | .processEnd handle =>
    match s.previewCommands.get? handle with
    | none => s
    | some command => previewEndObserver command.scenarioId s
  | .onData emitter socket => s.onData emitter socket
  | .removeData emitter socket => s.removeDataListener emitter socket
  | .onError emitter => s.onError emitter

/-- Run a trace of the preview multiplexer. -/
def previewRun (rendererUrl : String) (s : State) (actions : List PreviewAction) : State :=
  actions.foldl (previewStep rendererUrl) s

/-- What holds of the preview bookkeeping in every state the service reaches. -/
structure PreviewInv (s : State) : Prop where
  /-- Every stored session counts at least one client. -/
  count_pos : ∀ e ∈ s.activePreviews.entries, 1 ≤ e.2.clientCount
  /-- The command of a stored session was spawned for the key of the entry. -/
  command_owner : ∀ e ∈ s.activePreviews.entries,
    ∃ c, s.previewCommands.get? e.2.command = some c ∧ c.scenarioId = e.1
  /-- The command of a stored session has not been sent a signal. -/
  not_killed : ∀ e ∈ s.activePreviews.entries, e.2.command ∉ s.previewKills.map Prod.fst
  /-- No command has been sent a signal twice. -/
  kills_nodup : (s.previewKills.map Prod.fst).Nodup
  /-- Signals go to spawned commands only. -/
  kills_spawned : ∀ h ∈ s.previewKills.map Prod.fst, h < s.previewCommands.length

/-- What holds of the feeds and the monitor sockets in every state the monitor
endpoint reaches. -/
structure MonitorInv (m : Monitor) : Prop where
  /-- No socket has two `data` listeners on one feed. -/
  listeners_nodup : ∀ e, (m.service.dataListeners e).Nodup
  /-- A `data` listener on a feed belongs to a socket that attached to that
  feed and for which the transport has delivered neither `error` nor `close`. -/
  listeners_attached : ∀ e i, i ∈ m.service.dataListeners e →
    ∃ k, m.sockets.get? i = some k ∧ (∃ sid, k.attached = some (sid, e)) ∧
      k.disconnected = false

/-- Call `createPreviewProcess` for a scenario `n` times in a row; what a call
throws is caught by its caller and the next call follows. -/
def attachN (rendererUrl scenarioId : String) : Nat → State → State
  | 0, s => s
  | n + 1, s => attachN rendererUrl scenarioId n (createPreviewProcess rendererUrl s scenarioId).2

/-- Call `stopPreviewProcess` for a scenario `n` times in a row. -/
def detachN (scenarioId : String) : Nat → State → State
  | 0, s => s
  | n + 1, s => detachN scenarioId n (stopPreviewProcess s scenarioId none)

/-! ## Socket fan-out (`/ws` in `_legacy_backup/apps/server/index.js`) -/

/-- A JavaScript `Set`: its elements in insertion order. -/
structure JsSet (A : Type) where
  elems : List A
deriving DecidableEq, Repr

namespace JsSet

variable {A : Type} [DecidableEq A]

/-- The value of `new Set()`. -/
def empty : JsSet A := ⟨[]⟩

/-- The method `Set.prototype.has`. -/
def has (s : JsSet A) (a : A) : Bool := s.elems.contains a

/-- The method `Set.prototype.add`: an element already present is not added. -/
def add (s : JsSet A) (a : A) : JsSet A :=
  if s.has a then s else ⟨s.elems ++ [a]⟩

/-- The method `Set.prototype.delete`. -/
def delete (s : JsSet A) (a : A) : JsSet A := ⟨s.elems.filter (fun b => !decide (b = a))⟩

/-- The property `size`. -/
def size (s : JsSet A) : Nat := s.elems.length

end JsSet

/-- A socket of the `/ws` endpoint: what has been done with it. -/
structure WsSocket where
  /-- The property `readyState`; 1 is OPEN. -/
  readyState : Nat
  /-- Every `socket.send(message)` call, oldest first. -/
  sent : List String
  /-- Every `socket.close(code, reason)` call, oldest first. -/
  closes : List (Nat × String)
  /-- The variable `channelId` captured by the `message` and `close` listeners
  that the `/ws` handler registered on the socket; `none` while it has
  registered none. -/
  listening : Option String := none
  /-- Whether the handler opened an upstream socket to the Vite server for
  this socket. -/
  proxied : Bool := false
  /-- Whether the transport has delivered `close` for the socket. -/
  closed : Bool := false
deriving DecidableEq, Repr

/-- A call on the redis clients `sub` and `pub`. -/
inductive BusCall where
  | subscribe (topic : String)
  | unsubscribe (topic : String)
  | publish (topic payload : String)
deriving DecidableEq, Repr

/-- The registry of the `/ws` endpoint and its collaborators; a socket is
referred to by its index in `sockets`. -/
structure Registry where
  /-- The map `channelSockets`: channel id to the set of its sockets. -/
  channelSockets : JsMap String (JsSet Nat)
  sockets : List WsSocket
  /-- Every call on `sub` and `pub`, oldest first. -/
  bus : List BusCall
deriving DecidableEq, Repr

/-- The registry at server start, over the given sockets. -/
def Registry.init (sockets : List WsSocket) : Registry :=
  { channelSockets := JsMap.empty, sockets := sockets, bus := [] }

/-- The method `split(sep)` for a separator of one character, on the
characters of the string. -/
def jsSplit (sep : Char) : List Char → List (List Char)
  | [] => [[]]
  | c :: cs =>
    if c = sep then [] :: jsSplit sep cs
    else
      match jsSplit sep cs with
      | [] => [[c]]
      | w :: ws => (c :: w) :: ws

/-- The channel id that the fan-out handler reads from a topic:
`channel.split(':')[1]`, under the guard `channel.startsWith('channel:')`. -/
def topicChannelId (channel : String) : Option String :=
  if "channel:".data.isPrefixOf channel.data then
    ((jsSplit ':' channel.data).get? 1).map String.mk
  else none

/-- The body of the fan-out loop for one socket: `socket.send(message)` when
`readyState` is 1. -/
def sendIfOpen (sockets : List WsSocket) (socket : Nat) (message : String) : List WsSocket :=
  List.modify (fun k => if k.readyState = 1 then { k with sent := k.sent ++ [message] } else k)
    socket sockets

/-- The handler `sub.on('message', (channel, message) => ...)`. -/
def onBusMessage (r : Registry) (channel message : String) : Registry :=
  match topicChannelId channel with
  | none => r
  | some channelId =>
    match r.channelSockets.get channelId with
    | none => r
    | some sockets =>
      let updated :=
        sockets.elems.foldl (fun all socket => sendIfOpen all socket message) r.sockets
      { r with sockets := updated }

/-- The registration of `socket` under a non-empty `channelId` by the `/ws`
handler: the branch `if (channelId) { ... }`. -/
def registerSocket (r : Registry) (channelId : String) (socket : Nat) : Registry :=
  let r1 : Registry :=
    if r.channelSockets.has channelId then r
    else
      { r with channelSockets := r.channelSockets.set channelId JsSet.empty
               bus := r.bus ++ [.subscribe ("channel:" ++ channelId)] }
  match r1.channelSockets.get channelId with
  | none => r1
  | some sockets =>
    { r1 with channelSockets := r1.channelSockets.set channelId (sockets.add socket) }

/-- An OPEN socket to which nothing has been sent. -/
def WsSocket.fresh : WsSocket := { readyState := 1, sent := [], closes := [] }

/-- A registry with socket 0 registered under `a:b` and socket 1 under `a`. -/
def colonRegistry : Registry :=
  registerSocket (registerSocket (Registry.init [WsSocket.fresh, WsSocket.fresh]) "a:b" 0) "a" 1

/-- A registry with sockets 0, 1 and 2 registered under `c1`, socket 1 CLOSING,
and socket 3 registered under `c2`. -/
def mixedRegistry : Registry :=
  registerSocket
    (registerSocket
      (registerSocket
        (registerSocket
          (Registry.init
            [WsSocket.fresh, { readyState := 2, sent := [], closes := [] }, WsSocket.fresh,
             WsSocket.fresh])
          "c1" 0)
        "c1" 1)
      "c1" 2)
    "c2" 3

/-- A registry with the OPEN socket 0 and the CLOSING socket 1 registered
under `a:b`. -/
def colonMixedRegistry : Registry :=
  registerSocket
    (registerSocket
      (Registry.init [WsSocket.fresh, { readyState := 2, sent := [], closes := [] }]) "a:b" 0)
    "a:b" 1

/-! ## Channel entity: life cycle (`domain/entities/Channel.js`) -/

/-- The method `canStart()`. -/
def Channel.canStart (c : Channel) : Bool :=
  decide (c.status = "IDLE") || decide (c.status = "STOPPED")

/-- The method `canStop()`. -/
def Channel.canStop (c : Channel) : Bool :=
  decide (c.status = "RUNNING")

/-- The method `start()`: its outcome and the object after the call. -/
def Channel.start (c : Channel) : Except String Unit × Channel :=
  if !c.canStart then (.error ("Cannot start channel in " ++ c.status ++ " state"), c)
  else (.ok (), { c with status := "RUNNING" })

/-- The method `stop()`: its outcome and the object after the call. -/
def Channel.stop (c : Channel) : Except String Unit × Channel :=
  if !c.canStop then (.error ("Cannot stop channel in " ++ c.status ++ " state"), c)
  else (.ok (), { c with status := "STOPPED" })

/-! ## The preview processes as environment -/

/-- The service together with the preview commands that have reported their
exit (through `error` or `end`). -/
structure PreviewWorld where
  service : State
  /-- Handles of the preview commands that emitted `error` or `end`. -/
  reported : List Nat
deriving DecidableEq, Repr

/-- The world at server start. -/
def PreviewWorld.init : PreviewWorld := { service := State.new, reported := [] }

/-- An action can happen: an exit callback comes from a preview command that
was spawned and has not yet reported its exit. -/
def PreviewWorld.enabled (w : PreviewWorld) : PreviewAction → Bool
  | .processError handle _ =>
    decide (handle < w.service.previewCommands.length) && !(w.reported.contains handle)
  | .processEnd handle =>
    decide (handle < w.service.previewCommands.length) && !(w.reported.contains handle)
  | _ => true

/-- The effect of one action. -/
def PreviewWorld.step (rendererUrl : String) (w : PreviewWorld) (a : PreviewAction) :
    PreviewWorld :=
  { service := previewStep rendererUrl w.service a
    reported :=
      match a with
      | .processError handle _ => w.reported ++ [handle]
      | .processEnd handle => w.reported ++ [handle]
      | _ => w.reported }

/-- Run a trace; `none` when some action of it is not enabled. -/
def PreviewWorld.run (rendererUrl : String) (w : PreviewWorld) :
    List PreviewAction → Option PreviewWorld
  | [] => some w
  | a :: rest =>
    if w.enabled a then PreviewWorld.run rendererUrl (w.step rendererUrl a) rest else none

/-- The handles of the live preview processes of a scenario: spawned for it,
never sent a signal, exit not yet reported. -/
def PreviewWorld.live (w : PreviewWorld) (scenarioId : String) : List Nat :=
  (List.range w.service.previewCommands.length).filter (fun handle =>
    ((w.service.previewCommands.get? handle).any (fun c => decide (c.scenarioId = scenarioId))) &&
    !((w.service.previewKills.map Prod.fst).contains handle) &&
    !(w.reported.contains handle))

/-- The command of the session stored for a scenario. -/
def State.sessionCommand (s : State) (scenarioId : String) : Option Nat :=
  (s.activePreviews.get scenarioId).map (fun preview => preview.command)

/-! ## Configuration (`infrastructure/config/index.js`) -/

/-- The variables of `process.env` that the configuration reads, as they are
after `dotenv` has run; `none` stands for a variable that is not set. -/
structure Env where
  PORT : Option String
  HOST : Option String
  NODE_ENV : Option String
  DATABASE_URL : Option String
  REDIS_URL : Option String
  REDIS_HOST : Option String
  RESTREAMER_URL : Option String
  RENDERER_URL : Option String
  JWT_SECRET : Option String
  COOKIE_SECRET : Option String
  ADMIN_EMAIL : Option String
  ADMIN_PASSW : Option String
  CORS_ORIGIN : Option String
  LOG_LEVEL : Option String
  SCENARIOS_PATH : Option String
  ENABLE_WEBSOCKET : Option String
  ENABLE_METRICS : Option String
deriving DecidableEq, Repr

/-- The expression `value || fallback` on an environment variable: a variable
that is not set or is empty gives the fallback. -/
def orDefault (value : Option String) (fallback : String) : String :=
  match value with
  | none => fallback
  | some v => if v = "" then fallback else v

/-- The data fields of the object `config`, `redisPort` left out (it is the
`parseInt` of a string and is not read by `validate`). -/
structure Config where
  port : JsValue
  host : String
  nodeEnv : String
  databaseUrl : Option String
  redisUrl : Option String
  redisHost : String
  restreamerUrl : String
  rendererUrl : String
  jwtSecret : String
  cookieSecret : String
  adminEmail : String
  adminPassword : String
  corsOrigin : String
  logLevel : String
  scenariosPath : String
  enableWebSocket : Bool
  enableMetrics : Bool
deriving DecidableEq, Repr

/-- The object literal `config`, evaluated in an environment. -/
def Config.ofEnv (env : Env) : Config :=
  { port :=
      match env.PORT with
      | none => .number 3000
      | some v => if v = "" then .number 3000 else .string v
    host := orDefault env.HOST "0.0.0.0"
    nodeEnv := orDefault env.NODE_ENV "development"
    databaseUrl := env.DATABASE_URL
    redisUrl := env.REDIS_URL
    redisHost := orDefault env.REDIS_HOST "localhost"
    restreamerUrl := orDefault env.RESTREAMER_URL "rtmp://localhost/live"
    rendererUrl := orDefault env.RENDERER_URL "http://localhost:5000"
    jwtSecret := orDefault env.JWT_SECRET "change-this-in-production"
    cookieSecret := orDefault env.COOKIE_SECRET "change-this-in-production"
    adminEmail := orDefault env.ADMIN_EMAIL "admin@leoncast.com"
    adminPassword := orDefault env.ADMIN_PASSW "admin"
    corsOrigin := orDefault env.CORS_ORIGIN "*"
    logLevel := orDefault env.LOG_LEVEL "info"
    scenariosPath := orDefault env.SCENARIOS_PATH "./apps/scenarios"
    enableWebSocket := !decide (env.ENABLE_WEBSOCKET = some "false")
    enableMetrics := decide (env.ENABLE_METRICS = some "true") }

/-- The list `required.filter(key => !this[key])` of `validate`, where
`required` is `['databaseUrl']`. -/
def Config.missing (c : Config) : List String :=
  ["databaseUrl"].filter (fun _ => decide (c.databaseUrl.getD "" = ""))

/-- The method `validate()`. -/
def Config.validate (c : Config) : Except String Unit :=
  if 0 < c.missing.length then
    .error ("Missing required environment variables: " ++ ", ".intercalate c.missing)
  else if c.nodeEnv = "production" then
    if c.jwtSecret = "change-this-in-production" then
      .error "JWT_SECRET must be set in production"
    else if c.cookieSecret = "change-this-in-production" then
      .error "COOKIE_SECRET must be set in production"
    else .ok ()
  else .ok ()

/-- Loading the module: the object is built, `config.validate()` runs, and the
object is exported when it did not throw. -/
def loadConfig (env : Env) : Except String Config :=
  match (Config.ofEnv env).validate with
  | .error message => .error message
  | .ok _ => .ok (Config.ofEnv env)

/-- An environment in which no variable is set. -/
def Env.empty : Env :=
  { PORT := none, HOST := none, NODE_ENV := none, DATABASE_URL := none, REDIS_URL := none,
    REDIS_HOST := none, RESTREAMER_URL := none, RENDERER_URL := none, JWT_SECRET := none,
    COOKIE_SECRET := none, ADMIN_EMAIL := none, ADMIN_PASSW := none, CORS_ORIGIN := none,
    LOG_LEVEL := none, SCENARIOS_PATH := none, ENABLE_WEBSOCKET := none,
    ENABLE_METRICS := none }

/-- The environments in which, by the comments and messages of `validate`,
the configuration is complete. -/
def Env.complete (env : Env) : Prop :=
  env.DATABASE_URL.getD "" ≠ "" ∧
  (env.NODE_ENV = some "production" →
    (Config.ofEnv env).jwtSecret ≠ "change-this-in-production" ∧
    (Config.ofEnv env).cookieSecret ≠ "change-this-in-production")

/-! ## Persistence and use cases (`ChannelUseCases.js`, `ScenarioUseCases.js`,
`ScenarioRepository.js`, `ChannelRepository.js`) -/

/-- A row of the table of channels, with the fields the use cases read. -/
structure ChannelRecord where
  id : String
  name : String
  streamKey : String
  rtmpUrl : String
  status : String
deriving DecidableEq, Repr

/-- A row of the table of scenarios, with the fields the use cases read. -/
structure ScenarioRecord where
  id : String
  channelId : String
  isActive : Bool
deriving DecidableEq, Repr

/-- The persisted state behind the two repositories. -/
structure Database where
  channels : List ChannelRecord
  scenarios : List ScenarioRecord
deriving DecidableEq, Repr

/-- The method `ChannelRepository.findById(id)`: the row with its scenarios
(`include: { scenarios: true }`), as a `Channel`; `none` stands for `null`. -/
def Database.findChannelById (db : Database) (id : String) : Option Channel :=
  (db.channels.find? (fun r => decide (r.id = id))).map (fun r =>
    { id := r.id, name := r.name, streamKey := r.streamKey, rtmpUrl := r.rtmpUrl,
      status := r.status,
      scenarios := (db.scenarios.filter (fun s => decide (s.channelId = r.id))).map
        (fun s => { id := s.id, isActive := s.isActive }) })

/-- The call `channelRepository.update(id, { status })`. -/
def Database.updateChannelStatus (db : Database) (id status : String) : Database :=
  { db with channels :=
              db.channels.map (fun r => if r.id = id then { r with status := status } else r) }

/-- The persisted status of a channel. -/
def Database.channelStatus (db : Database) (id : String) : Option String :=
  (db.channels.find? (fun r => decide (r.id = id))).map (fun r => r.status)

/-- The method `ScenarioRepository.findById(id)`; `none` stands for `null`. -/
def Database.findScenarioById (db : Database) (id : String) : Option ScenarioRecord :=
  db.scenarios.find? (fun s => decide (s.id = id))

/-- The method `ScenarioRepository.deactivateAllByChannel(channelId)`. -/
def Database.deactivateAllByChannel (db : Database) (channelId : String) : Database :=
  { db with scenarios :=
              db.scenarios.map (fun s =>
                if s.channelId = channelId then { s with isActive := false } else s) }

/-- The call `scenarioRepository.update(id, { isActive })`. -/
def Database.updateScenarioActive (db : Database) (id : String) (isActive : Bool) : Database :=
  { db with scenarios :=
              db.scenarios.map (fun s => if s.id = id then { s with isActive := isActive } else s) }

/-- The method `ScenarioUseCases.activateScenario(id)`: the scenario it returns
and the database it leaves. -/
def activateScenario (db : Database) (id : String) : Except String ScenarioRecord × Database :=
  match db.findScenarioById id with
  | none => (.error "Scenario not found", db)
  | some scenario =>
    let db1 := db.deactivateAllByChannel scenario.channelId
    let db2 := db1.updateScenarioActive id true
    match db2.findScenarioById id with
    | none => (.error "Scenario not found", db2)
    | some updated => (.ok updated, db2)

/-- The application: the database and the streaming service. -/
structure App where
  db : Database
  service : State
deriving DecidableEq, Repr

/-- The method `ChannelUseCases.startChannelStream(id, rtmpDestination)`. -/
def startChannelStream (rendererUrl : String) (app : App) (id rtmpDestination : String) :
    Except String StreamStarted × App :=
  match app.db.findChannelById id with
  | none => (.error "Channel not found", app)
  | some channel =>
    if !channel.canStart then
      (.error ("Channel cannot be started in " ++ channel.status ++ " state"), app)
    else
      match channel.start with
      | (.error message, _) => (.error message, app)
      | (.ok _, running) =>
        let db := app.db.updateChannelStatus id "RUNNING"
        let result := startStream rendererUrl app.service running rtmpDestination
        (result.1, { db := db, service := result.2 })

/-- The method `ChannelUseCases.stopChannelStream(id)`. -/
def stopChannelStream (app : App) (id : String) : Except String StopResult × App :=
  match app.db.findChannelById id with
  | none => (.error "Channel not found", app)
  | some channel =>
    if !channel.canStop then
      (.error ("Channel cannot be stopped in " ++ channel.status ++ " state"), app)
    else
      let result := stopStream app.service id
      match channel.stop with
      | (.error message, _) => (.error message, { app with service := result.2 })
      | (.ok _, _) =>
        let db := (app.db.deactivateAllByChannel id).updateChannelStatus id "STOPPED"
        (.ok result.1, { db := db, service := result.2 })

/-! ## The handler of `/ws` (`_legacy_backup/apps/server/index.js`) -/

/-- The query parameters of a `/ws` connection; `none` stands for a parameter
that is not given. -/
structure WsQuery where
  channelId : Option String
  scenarioId : Option String
deriving DecidableEq, Repr

/-- The built-in functions `JSON.parse` and `JSON.stringify` over the parsed
values; `parse` gives `none` where `JSON.parse` throws. -/
structure Json where
  Value : Type
  parse : String → Option Value
  stringify : Value → String

/-- Where the first part of the handler leaves the variable `channelId`. -/
inductive Resolved where
  /-- The handler goes on with this value of `channelId` (empty when falsy). -/
  | channel (channelId : String)
  /-- The handler closed the socket and returned. -/
  | rejected (code : Nat) (reason : String)
deriving DecidableEq, Repr

/-- The first part of the handler: `channelId` is resolved from `scenarioId`
when it is missing.  `lookup` is the outcome of the awaited
`scenarioRepository.findById(scenarioId)`: an exception, or the `channelId` of
the scenario found. -/
def resolveChannelId (query : WsQuery) (lookup : Except String (Option String)) : Resolved :=
  if query.channelId.getD "" = "" ∧ query.scenarioId.getD "" ≠ "" then
    match lookup with
    | .ok (some channelId) => .channel channelId
    | .ok none => .rejected 1008 "Scenario not found"
    | .error _ => .rejected 1011 "Internal server error resolving scenario"
  else .channel (query.channelId.getD "")

/-- A call `socket.close(code, reason)`. -/
def Registry.closeSocket (r : Registry) (socket code : Nat) (reason : String) : Registry :=
  let sockets :=
    List.modify (fun k => { k with closes := k.closes ++ [(code, reason)] }) socket r.sockets
  { r with sockets := sockets }

/-- The handler registers its `message`, `close` and `error` listeners on the
socket; they capture `channelId`. -/
def Registry.listen (r : Registry) (socket : Nat) (channelId : String) : Registry :=
  let sockets := List.modify (fun k => { k with listening := some channelId }) socket r.sockets
  { r with sockets := sockets }

/-- The development branch of the handler: an upstream socket to the Vite
server is opened and wired to the socket. -/
def Registry.proxy (r : Registry) (socket : Nat) : Registry :=
  let sockets := List.modify (fun k => { k with proxied := true }) socket r.sockets
  { r with sockets := sockets }

/-- The handler of `/ws` for the connection `socket`; `nodeEnv` is
`container.config.nodeEnv`. -/
def wsHandler (nodeEnv : String) (r : Registry) (socket : Nat) (query : WsQuery)
    (lookup : Except String (Option String)) : Registry :=
  match resolveChannelId query lookup with
  | .rejected code reason => r.closeSocket socket code reason
  | .channel channelId =>
    if channelId ≠ "" then (registerSocket r channelId socket).listen socket channelId
    else if nodeEnv = "development" then r.proxy socket
    else r.closeSocket socket 1008 "Missing channelId or scenarioId"

/-- The variable `channelId` captured by the listeners of a socket. -/
def Registry.listeningOf (r : Registry) (socket : Nat) : Option String :=
  (r.sockets.get? socket).bind (fun k => k.listening)

/-- The listener of `message` registered by the handler on `socket`.  A
message that does not parse is logged and dropped. -/
def wsOnMessage (json : Json) (r : Registry) (socket : Nat) (message : String) : Registry :=
  match r.listeningOf socket with
  | none => r
  | some channelId =>
    match json.parse message with
    | none => r
    | some data =>
      if channelId ≠ "" then
        { r with bus := r.bus ++ [.publish ("channel:" ++ channelId) (json.stringify data)] }
      else r

/-- The listener of `close` registered by the handler on `socket`. -/
def wsOnClose (r : Registry) (socket : Nat) : Registry :=
  match r.listeningOf socket with
  | none => r
  | some channelId =>
    if channelId ≠ "" ∧ r.channelSockets.has channelId = true then
      match r.channelSockets.get channelId with
      | none => r
      | some sockets =>
        if (sockets.delete socket).size = 0 then
          { r with channelSockets := r.channelSockets.delete channelId
                   bus := r.bus ++ [.unsubscribe ("channel:" ++ channelId)] }
        else
          { r with channelSockets := r.channelSockets.set channelId (sockets.delete socket) }
    else r

/-- One step of the `/ws` endpoint and of its environment. -/
inductive WsAction where
  /-- A client connects: a new OPEN socket is handed to the handler. -/
  | connect (query : WsQuery) (lookup : Except String (Option String))
  /-- The transport delivers `close` on a socket. -/
  | close (socket : Nat)

/-- The transport marks a socket CLOSED (3) before it emits `close`. -/
def Registry.markClosed (r : Registry) (socket : Nat) : Registry :=
  let sockets := List.modify (fun k => { k with closed := true, readyState := 3 }) socket r.sockets
  { r with sockets := sockets }

/-- The effect of one action. -/
def wsStep (nodeEnv : String) (r : Registry) : WsAction → Registry
  | .connect query lookup =>
    wsHandler nodeEnv { r with sockets := r.sockets ++ [WsSocket.fresh] } r.sockets.length query
      lookup
  | .close socket => wsOnClose (r.markClosed socket) socket

/-- Run a trace of the `/ws` endpoint. -/
def wsRun (nodeEnv : String) (r : Registry) (actions : List WsAction) : Registry :=
  actions.foldl (wsStep nodeEnv) r

/-- The number of `sub.subscribe` calls for the topic of a channel id. -/
def Registry.subscribes (r : Registry) (channelId : String) : Nat :=
  (r.bus.filter (fun c => decide (c = .subscribe ("channel:" ++ channelId)))).length

/-- The number of `sub.unsubscribe` calls for the topic of a channel id. -/
def Registry.unsubscribes (r : Registry) (channelId : String) : Nat :=
  (r.bus.filter (fun c => decide (c = .unsubscribe ("channel:" ++ channelId)))).length

/-- The sockets stored under a channel id. -/
def Registry.socketsOf (r : Registry) (channelId : String) : List Nat :=
  match r.channelSockets.get channelId with
  | none => []
  | some sockets => sockets.elems

/-- A socket is registered under a channel id: the handler registered its
listeners with that id and the transport has not delivered `close`. -/
def Registry.registered (r : Registry) (channelId : String) (socket : Nat) : Prop :=
  ∃ k, r.sockets.get? socket = some k ∧ k.listening = some channelId ∧ k.closed = false

/-- What holds of the registry in every state the `/ws` endpoint reaches. -/
structure RegistryInv (r : Registry) : Prop where
  /-- No stored set is empty. -/
  sets_nonempty : ∀ e ∈ r.channelSockets.entries, e.2.elems ≠ []
  /-- The subscribes of a topic outnumber its unsubscribes by one when the
  channel id has an entry, and equal them otherwise. -/
  balance : ∀ channelId, r.subscribes channelId =
    r.unsubscribes channelId + (if r.channelSockets.has channelId then 1 else 0)
  /-- The set stored under a channel id holds the sockets registered under it. -/
  members : ∀ channelId socket,
    socket ∈ r.socketsOf channelId ↔ r.registered channelId socket
  /-- Listeners are registered with a non-empty channel id only. -/
  listening_nonempty : ∀ socket, r.listeningOf socket ≠ some ""

/-- A stand-in for `JSON` in the examples: it parses the texts that start with
a brace and serialises them back unchanged. -/
def Json.braces : Json :=
  { Value := String
    parse := fun text => if text.data.head? = some '{' then some text else none
    stringify := fun value => value }

/-- The terminal events that the observers of the command `handle`, registered
for `channelId`, publish along a trace: one for every `error` or `end` that the
command delivers. -/
def exitEvents (channelId : String) (handle : Nat) (trace : List Action) : List Message :=
  trace.filterMap (fun a =>
    match a with
    | .callback h cb => if h = handle then terminalMessage channelId cb else none
    | _ => none)

/-- The terminal events that the observers of the commands of a channel publish
along a trace, in delivery order; `w` is the world in which the trace ends. -/
def World.exitEventsOn (w : World) (channelId : String) (trace : List Action) :
    List Message :=
  trace.filterMap (fun a =>
    match a with
    | .callback h cb =>
      match w.service.commands.get? h with
      | some command =>
        if command.channelId = channelId then terminalMessage channelId cb else none
      | none => none
    | _ => none)

/-- The `TypeError` that the call of `vcodec` in `createPreviewProcess` throws. -/
def vcodecError : JsError :=
  { message :=
      "ffmpeg(...).input(...).inputFormat(...).outputOptions(...).format(...).vcodec" ++
        " is not a function" }

/-- No preview process has been spawned or signalled and no session is stored. -/
structure NoPreview (s : State) : Prop where
  sessions : s.activePreviews.entries = []
  commands : s.previewCommands = []
  kills : s.previewKills = []

/-- No preview exists, no monitor socket has attached to a feed or been sent a
chunk, and no feed has a `data` listener. -/
structure Unattached (m : Monitor) : Prop where
  service : NoPreview m.service
  sockets : ∀ k ∈ m.sockets, k.attached = none ∧ k.sent = []
  listeners : ∀ e, m.service.dataListeners e = []

/-! ## States and channels used in the examples -/

/-- A channel used in the examples: one active scenario. -/
def demoChannel : Channel :=
  { id := "c1", name := "Main", streamKey := "key", rtmpUrl := "rtmp://localhost/live",
    status := "IDLE", scenarios := [{ id := "s1", isActive := true }] }

/-- A channel used in the examples: no active scenario. -/
def idleChannel : Channel :=
  { id := "c2", name := "Side", streamKey := "key2", rtmpUrl := "rtmp://localhost/live",
    status := "IDLE", scenarios := [{ id := "s2", isActive := false }] }

/-- The state after `demoChannel` was started on a fresh service. -/
def demoRunning : State :=
  (startStream "http://localhost:5000" State.new demoChannel "rtmp://localhost/live").2

/-- The message with which the ffmpeg wrapper reports a process killed by SIGTERM. -/
def killedBySigterm : JsError := { message := "ffmpeg was killed with signal SIGTERM" }

/-- Stop requested by the operator, then the killed process reports its exit. -/
def operatorStopTrace : List Action :=
  [.startStream demoChannel "rtmp://localhost/live",
   .stopStream "c1",
   .callback 0 (.error killedBySigterm)]

/-- Stop and restart of a channel; the process killed by the stop reports its
exit only after the restart; then the channel is stopped and started again. -/
def staleExitTrace : List Action :=
  [.startStream demoChannel "rtmp://localhost/live",
   .stopStream "c1",
   .startStream demoChannel "rtmp://localhost/live",
   .callback 0 (.error killedBySigterm),
   .stopStream "c1",
   .startStream demoChannel "rtmp://localhost/live"]

/-- A row of the table `channels` used in the examples. -/
def FfmpegService.demoRow : FfmpegService.ChannelRow :=
  { id := 1, name := "Main", input_url := "/media/loop.mp4",
    output_url := "rtmp://localhost/live/key", loop := false }

/-- Two requests to start the same channel arrive on a fresh service. -/
def FfmpegService.demoRace : FfmpegService.Race :=
  { service := FfmpegService.State.new
    first := .pending FfmpegService.demoRow
    second := .pending FfmpegService.demoRow }

/-- The state after one call `createPreviewProcess('s1')` on a fresh service. -/
def demoPreview : State := (createPreviewProcess "http://localhost:5000" State.new "s1").2

/-- A progress report used in the examples. -/
def demoProgress : Progress :=
  { frames := .number 120, currentFps := .number 30, currentKbps := .nan,
    targetSize := .number 512, timemark := .string "00:00:04.00" }

/-- Three monitor sockets connect for a channel whose active scenario is `s1`;
then the transport of the first fails and delivers `error` followed by
`close`. -/
def doubleDetachTrace : List MonitorAction :=
  [.connect (some "c1") (.ok (some "s1")),
   .connect (some "c1") (.ok (some "s1")),
   .connect (some "c1") (.ok (some "s1")),
   .transport 0 .error,
   .transport 0 .close]

/-- Two monitor sockets connect for a channel whose active scenario is `s1`;
then the first one closes. -/
def broadcastTrace : List MonitorAction :=
  [.connect (some "c1") (.ok (some "s1")),
   .connect (some "c1") (.ok (some "s1")),
   .transport 0 .close]

/-- Stop and restart of a channel; then the process killed by the stop reports
its exit. -/
def lateExitTrace (cb : Callback) : List Action :=
  [.startStream demoChannel "rtmp://localhost/live",
   .stopStream "c1",
   .startStream demoChannel "rtmp://localhost/live",
   .callback 0 cb]

/-- A call of `createPreviewProcess`, a call of `stopPreviewProcess` and a
second call of `createPreviewProcess` for scenario `s1`. -/
def reattachTrace : List PreviewAction :=
  [.create "s1", .stop "s1" (some 0), .create "s1"]

/-- An environment that sets only the database URL. -/
def devEnv : Env := { Env.empty with DATABASE_URL := some "postgresql://db/leoncast" }

/-- A production environment that sets the database URL and no secret. -/
def prodEnvNoSecrets : Env := { devEnv with NODE_ENV := some "production" }

/-- A database with an idle channel `c2` whose only scenario is inactive, and
a channel `c1` with scenarios `s1` (active) and `s3`, on a fresh service. -/
def demoApp : App :=
  { db :=
      { channels :=
          [{ id := "c1", name := "Main", streamKey := "key", rtmpUrl := "rtmp://localhost/live",
             status := "IDLE" },
           { id := "c2", name := "Side", streamKey := "key2", rtmpUrl := "rtmp://localhost/live",
             status := "IDLE" }]
        scenarios :=
          [{ id := "s1", channelId := "c1", isActive := true },
           { id := "s2", channelId := "c2", isActive := false },
           { id := "s3", channelId := "c1", isActive := false }] }
    service := State.new }

/-- Sockets 0 and 2 connect to `/ws` with channel id `a:b` and socket 1 with
channel id `a`. -/
def colonClients : Registry :=
  wsRun "production" (Registry.init [])
    [.connect { channelId := some "a:b", scenarioId := none } (.ok none),
     .connect { channelId := some "a", scenarioId := none } (.ok none),
     .connect { channelId := some "a:b", scenarioId := none } (.ok none)]

/-- The text of a JSON message, an object with the one field `type`, that a
client sends in the examples. -/
def eventMessage : String := "\x7b\"type\":\"EVENT_1\"\x7d"

/-- A registry with one OPEN socket that the handler has not seen yet. -/
def oneSocket : Registry := Registry.init [WsSocket.fresh]

/-- Two sockets connect to `/ws` with channel id `c1`, and the first closes. -/
def twoClientsTrace : List WsAction :=
  [.connect { channelId := some "c1", scenarioId := none } (.ok none),
   .connect { channelId := some "c1", scenarioId := none } (.ok none),
   .close 0]

end Leoncast

/-! # Theorems -/

namespace Leoncast

/-! ## Facts about `JsMap` -/

namespace JsMap

variable {K V : Type} [DecidableEq K]

theorem get_eq_none_of_has_false (m : JsMap K V) (k : K) (h : m.has k = false) :
    m.get k = none := by
  unfold has at h
  unfold get
  rw [List.any_eq_false] at h
  have : m.entries.find? (fun e => decide (e.1 = k)) = none := by
    rw [List.find?_eq_none]
    intro e he
    exact h e he
  rw [this]; rfl

theorem has_false_of_get_eq_none (m : JsMap K V) (k : K) (h : m.get k = none) :
    m.has k = false := by
  unfold get at h
  unfold has
  rw [Option.map_eq_none', List.find?_eq_none] at h
  rw [List.any_eq_false]
  intro e he
  exact h e he

theorem has_true_of_get_eq_some (m : JsMap K V) (k : K) (v : V) (h : m.get k = some v) :
    m.has k = true := by
  cases hh : m.has k with
  | true => rfl
  | false => rw [get_eq_none_of_has_false m k hh] at h; cases h

theorem has_delete_self (m : JsMap K V) (k : K) : (m.delete k).has k = false := by
  unfold has delete
  rw [List.any_eq_false]
  intro e he
  simp only [List.mem_filter] at he
  simpa using he.2

theorem get_delete_self (m : JsMap K V) (k : K) : (m.delete k).get k = none :=
  get_eq_none_of_has_false _ _ (has_delete_self m k)

theorem get_delete_ne (m : JsMap K V) (k k' : K) (h : k' ≠ k) :
    (m.delete k).get k' = m.get k' := by
  unfold get delete
  congr 1
  show List.find? _ (List.filter _ m.entries) = _
  induction m.entries with
  | nil => rfl
  | cons e es ih =>
    by_cases hk : e.1 = k
    · have hk' : ¬ e.1 = k' := fun h' => h (h'.symm.trans hk)
      rw [List.filter_cons_of_neg (by simpa using hk), List.find?_cons_of_neg _ (by simpa using hk')]
      exact ih
    · rw [List.filter_cons_of_pos (by simpa using hk)]
      by_cases hk' : e.1 = k'
      · rw [List.find?_cons_of_pos _ (by simpa using hk'),
          List.find?_cons_of_pos _ (by simpa using hk')]
      · rw [List.find?_cons_of_neg _ (by simpa using hk'),
          List.find?_cons_of_neg _ (by simpa using hk')]
        exact ih

theorem count_eq_zero_of_has_false (m : JsMap K V) (k : K) (h : m.has k = false) :
    m.count k = 0 := by
  unfold has at h
  unfold count
  rw [List.any_eq_false] at h
  rw [List.length_eq_zero, List.filter_eq_nil_iff]
  intro e he
  exact h e he

theorem set_of_has_false (m : JsMap K V) (k : K) (v : V) (h : m.has k = false) :
    m.set k v = ⟨m.entries ++ [(k, v)]⟩ := by
  unfold set
  simp [h]

theorem has_set_self (m : JsMap K V) (k : K) (v : V) : (m.set k v).has k = true := by
  unfold set
  cases h : m.has k with
  | false => simp [has]
  | true =>
    unfold has at h ⊢
    rw [List.any_eq_true] at h ⊢
    obtain ⟨e, he, hk⟩ := h
    refine ⟨(k, v), ?_, by simp⟩
    simp only [if_true, List.mem_map]
    have hk' : e.1 = k := by simpa using hk
    exact ⟨e, he, by simp [hk']⟩

theorem count_set_of_has_false (m : JsMap K V) (k : K) (v : V) (h : m.has k = false) :
    (m.set k v).count k = 1 := by
  have h0 := count_eq_zero_of_has_false m k h
  rw [set_of_has_false m k v h]
  unfold count at h0 ⊢
  simp [List.filter_append, h0]

theorem get_set_of_has_false (m : JsMap K V) (k : K) (v : V) (h : m.has k = false) :
    (m.set k v).get k = some v := by
  rw [set_of_has_false m k v h]
  unfold has at h
  rw [List.any_eq_false] at h
  unfold get
  have : m.entries.find? (fun e => decide (e.1 = k)) = none := by
    rw [List.find?_eq_none]
    intro e he
    exact h e he
  simp [List.find?_append, this]

theorem mem_of_get_eq_some (m : JsMap K V) (k : K) (v : V) (h : m.get k = some v) :
    (k, v) ∈ m.entries := by
  unfold get at h
  rw [Option.map_eq_some'] at h
  obtain ⟨e, he, hv⟩ := h
  have hk := List.find?_some he
  have hmem := List.mem_of_find?_eq_some he
  have hk' : e.1 = k := by simpa using hk
  have : e = (k, v) := by
    cases e
    simp only at hk' hv
    rw [hk', hv]
  rw [← this]
  exact hmem

theorem find_map_replace (l : List (K × V)) (k : K) (v : V)
    (h : l.any (fun e => decide (e.1 = k)) = true) :
    Option.map Prod.snd
      (List.find? (fun e => decide (e.1 = k))
        (l.map (fun e => if e.1 = k then (k, v) else e))) = some v := by
  induction l with
  | nil => simp at h
  | cons e es ih =>
    by_cases hk : e.1 = k
    · simp [List.find?_cons, hk]
    · have h' : es.any (fun e => decide (e.1 = k)) = true := by
        simpa [List.any_cons, hk] using h
      simp only [List.map_cons, hk, if_false]
      rw [List.find?_cons_of_neg _ (by simpa using hk)]
      exact ih h'

theorem get_set_self (m : JsMap K V) (k : K) (v : V) : (m.set k v).get k = some v := by
  cases h : m.has k with
  | false => exact get_set_of_has_false m k v h
  | true =>
    unfold set
    rw [if_pos h]
    exact find_map_replace m.entries k v h

theorem get_set_ne (m : JsMap K V) (k k' : K) (v : V) (h : k' ≠ k) :
    (m.set k v).get k' = m.get k' := by
  unfold set
  by_cases hh : m.has k = true
  · rw [if_pos hh]
    unfold get
    congr 1
    show List.find? _ (List.map _ m.entries) = _
    induction m.entries with
    | nil => rfl
    | cons e es ih =>
      by_cases hk : e.1 = k
      · have hk' : ¬ e.1 = k' := fun h' => h (h'.symm.trans hk)
        have hk2 : ¬ k = k' := fun h' => h h'.symm
        simp only [List.map_cons, hk, if_true]
        rw [List.find?_cons_of_neg _ (by simpa using hk2),
          List.find?_cons_of_neg _ (by simpa using hk')]
        exact ih
      · simp only [List.map_cons, hk, if_false]
        by_cases hk' : e.1 = k'
        · rw [List.find?_cons_of_pos _ (by simpa using hk'),
            List.find?_cons_of_pos _ (by simpa using hk')]
        · rw [List.find?_cons_of_neg _ (by simpa using hk'),
            List.find?_cons_of_neg _ (by simpa using hk')]
          exact ih
  · rw [if_neg hh]
    unfold get
    congr 1
    show List.find? _ (m.entries ++ [(k, v)]) = _
    have hk2 : ¬ k = k' := fun h' => h h'.symm
    rw [List.find?_append]
    cases hf : List.find? (fun e => decide (e.1 = k')) m.entries with
    | some e => rfl
    | none => simp [hk2]

theorem mem_delete (m : JsMap K V) (k : K) (e : K × V) (h : e ∈ (m.delete k).entries) :
    e ∈ m.entries ∧ e.1 ≠ k := by
  unfold delete at h
  simp only [List.mem_filter] at h
  exact ⟨h.1, by simpa using h.2⟩

theorem mem_set (m : JsMap K V) (k : K) (v : V) (e : K × V) (h : e ∈ (m.set k v).entries) :
    e = (k, v) ∨ (e ∈ m.entries ∧ e.1 ≠ k) := by
  unfold set at h
  by_cases hh : m.has k = true
  · rw [if_pos hh] at h
    simp only [List.mem_map] at h
    obtain ⟨e0, he0, rfl⟩ := h
    by_cases hk : e0.1 = k
    · left; simp [hk]
    · right; simp [hk, he0]
  · rw [if_neg hh] at h
    simp only [List.mem_append, List.mem_singleton] at h
    rcases h with h | h
    · right
      refine ⟨h, fun hk => hh ?_⟩
      unfold has
      rw [List.any_eq_true]
      exact ⟨e, h, by simpa using hk⟩
    · left; exact h

end JsMap

/-! ## Starting a stream -/

theorem startStream_of_has (rendererUrl : String) (s : State) (c : Channel) (d : String)
    (h : s.activeStreams.has c.id = true) :
    startStream rendererUrl s c d =
      (.error ("Stream already running for channel " ++ c.id), s) := by
  unfold startStream
  simp [h]

theorem startStream_of_no_scenario (rendererUrl : String) (s : State) (c : Channel) (d : String)
    (h : s.activeStreams.has c.id = false) (hsc : c.activeScenario = none) :
    startStream rendererUrl s c d =
      (.error ("No active scenario found for channel " ++ c.id), s) := by
  unfold startStream
  simp [h, hsc]

theorem startStream_of_scenario (rendererUrl : String) (s : State) (c : Channel) (d : String)
    (sc : Scenario) (h : s.activeStreams.has c.id = false) (hsc : c.activeScenario = some sc) :
    startStream rendererUrl s c d =
      (.ok { channelId := c.id, status := "RUNNING", destination := d ++ "/" ++ c.streamKey },
       { s with
         commands := s.commands ++
           [{ channelId := c.id
              input := rendererUrl ++ "/render/" ++ sc.id
              inputFormat := "mjpeg"
              videoCodec := "libx264"
              audioCodec := "aac"
              outputOptions := ["-preset veryfast", "-tune zerolatency", "-f flv"]
              output := d ++ "/" ++ c.streamKey }]
         activeStreams := s.activeStreams.set c.id s.commands.length }) := by
  unfold startStream
  simp [h, hsc]

/-- A call that returns a result found no entry and an active scenario. -/
theorem startStream_ok_inv (rendererUrl : String) (s : State) (c : Channel) (d : String)
    (r : StreamStarted) (h : (startStream rendererUrl s c d).1 = .ok r) :
    s.activeStreams.has c.id = false ∧ ∃ sc, c.activeScenario = some sc := by
  cases hh : s.activeStreams.has c.id with
  | true => rw [startStream_of_has rendererUrl s c d hh] at h; cases h
  | false =>
    refine ⟨rfl, ?_⟩
    cases hsc : c.activeScenario with
    | none => rw [startStream_of_no_scenario rendererUrl s c d hh hsc] at h; cases h
    | some sc => exact ⟨sc, rfl⟩

theorem activeScenario_eq_none (c : Channel) (h : ∀ sc ∈ c.scenarios, sc.isActive = false) :
    c.activeScenario = none := by
  unfold Channel.activeScenario
  rw [List.find?_eq_none]
  intro sc hsc
  simp [h sc hsc]

theorem activeScenario_isSome (c : Channel) (h : ∃ sc ∈ c.scenarios, sc.isActive = true) :
    ∃ sc, c.activeScenario = some sc := by
  obtain ⟨sc, hmem, hact⟩ := h
  cases hf : c.activeScenario with
  | some sc' => exact ⟨sc', rfl⟩
  | none =>
    unfold Channel.activeScenario at hf
    rw [List.find?_eq_none] at hf
    exact absurd hact (hf sc hmem)

/-- C1: when `activeStreams` already has an entry for `channel.id`, `startStream`
throws the "Stream already running" error and leaves the whole state as it was
(no process spawned, nothing published, the entry not replaced); hence after a
successful `startStream` a second call for the same id fails in that way and
exactly one entry is stored for the id. -/
theorem startStream_conflict (rendererUrl : String) :
    (∀ (s : State) (c : Channel) (d : String), s.activeStreams.has c.id = true →
      startStream rendererUrl s c d =
        (.error ("Stream already running for channel " ++ c.id), s)) ∧
    (∀ (s : State) (c c' : Channel) (d d' : String) (r : StreamStarted), c'.id = c.id →
      (startStream rendererUrl s c d).1 = .ok r →
      startStream rendererUrl (startStream rendererUrl s c d).2 c' d' =
        (.error ("Stream already running for channel " ++ c.id),
          (startStream rendererUrl s c d).2) ∧
      (startStream rendererUrl s c d).2.activeStreams.count c.id = 1) := by
  refine ⟨fun s c d h => startStream_of_has rendererUrl s c d h, ?_⟩
  intro s c c' d d' r hid hok
  obtain ⟨hno, sc, hsc⟩ := startStream_ok_inv rendererUrl s c d r hok
  rw [startStream_of_scenario rendererUrl s c d sc hno hsc]
  constructor
  · have := startStream_of_has rendererUrl
      { s with
         commands := s.commands ++
           [{ channelId := c.id
              input := rendererUrl ++ "/render/" ++ sc.id
              inputFormat := "mjpeg"
              videoCodec := "libx264"
              audioCodec := "aac"
              outputOptions := ["-preset veryfast", "-tune zerolatency", "-f flv"]
              output := d ++ "/" ++ c.streamKey }]
         activeStreams := s.activeStreams.set c.id s.commands.length } c' d'
      (by rw [hid]; exact JsMap.has_set_self _ _ _)
    rw [hid] at this
    exact this
  · exact JsMap.count_set_of_has_false _ _ _ hno

theorem startStream_conflict_witness :
    (demoRunning.activeStreams.has demoChannel.id = true ∧
      startStream "http://localhost:5000" demoRunning demoChannel "rtmp://other/live" =
        (.error "Stream already running for channel c1", demoRunning)) ∧
    (startStream "http://localhost:5000" demoRunning demoChannel "rtmp://localhost/live" =
        (.error "Stream already running for channel c1", demoRunning) ∧
      demoRunning.activeStreams.count "c1" = 1) :=
  ⟨⟨rfl, (startStream_conflict "http://localhost:5000").1 demoRunning demoChannel
      "rtmp://other/live" rfl⟩,
   (startStream_conflict "http://localhost:5000").2 State.new demoChannel demoChannel
    "rtmp://localhost/live" "rtmp://localhost/live"
    { channelId := "c1", status := "RUNNING", destination := "rtmp://localhost/live/key" }
    rfl rfl⟩

/-! ## Stopping a stream -/

theorem stopStream_of_get_some (s : State) (id : String) (handle : Nat)
    (h : s.activeStreams.get id = some handle) :
    stopStream s id =
      (.stopped id,
       { s with kills := s.kills ++ [(handle, "SIGTERM")]
                activeStreams := s.activeStreams.delete id }) := by
  unfold stopStream
  simp [h]

theorem stopStream_of_has_false (s : State) (id : String)
    (h : s.activeStreams.has id = false) :
    stopStream s id = (.notFound "No active stream found", s) := by
  unfold stopStream
  simp [JsMap.get_eq_none_of_has_false _ _ h]

theorem has_after_stopStream (s : State) (id : String) :
    (stopStream s id).2.activeStreams.has id = false := by
  cases h : s.activeStreams.get id with
  | none =>
    have hh := JsMap.has_false_of_get_eq_none _ _ h
    rw [stopStream_of_has_false s id hh]
    exact hh
  | some handle =>
    rw [stopStream_of_get_some s id handle h]
    exact JsMap.has_delete_self _ _

theorem getStreamInfo_of_has_false (s : State) (id : String)
    (h : s.activeStreams.has id = false) : getStreamInfo s id = none := by
  unfold getStreamInfo
  simp [h]

theorem getStreamInfo_of_has (s : State) (id : String)
    (h : s.activeStreams.has id = true) :
    getStreamInfo s id = some { channelId := id, status := "RUNNING" } := by
  unfold getStreamInfo
  simp [h]

/-- C3: for a channel with an active scenario and no entry in `activeStreams`,
`startStream` returns the channel id, status RUNNING and the destination
`d + '/' + streamKey`; `getStreamInfo` then reports RUNNING; the following
`stopStream` returns success; after it `getStreamInfo` is `null`, which
`ChannelController.getStatus` sends as status IDLE. -/
theorem start_status_stop_status (rendererUrl : String) (s : State) (c : Channel) (d : String)
    (hsc : ∃ sc ∈ c.scenarios, sc.isActive = true)
    (hno : s.activeStreams.has c.id = false) :
    (startStream rendererUrl s c d).1 =
        .ok { channelId := c.id, status := "RUNNING", destination := d ++ "/" ++ c.streamKey } ∧
    getStreamInfo (startStream rendererUrl s c d).2 c.id =
        some { channelId := c.id, status := "RUNNING" } ∧
    (stopStream (startStream rendererUrl s c d).2 c.id).1 = .stopped c.id ∧
    (stopStream (startStream rendererUrl s c d).2 c.id).1.success = true ∧
    getStreamInfo (stopStream (startStream rendererUrl s c d).2 c.id).2 c.id = none ∧
    getStatus (stopStream (startStream rendererUrl s c d).2 c.id).2 c.id =
        { channelId := none, status := "IDLE" } := by
  obtain ⟨sc, hact⟩ := activeScenario_isSome c hsc
  have hstart := startStream_of_scenario rendererUrl s c d sc hno hact
  have hget : (startStream rendererUrl s c d).2.activeStreams.get c.id =
      some s.commands.length := by
    rw [hstart]
    exact JsMap.get_set_of_has_false _ _ _ hno
  have hstop := stopStream_of_get_some _ _ _ hget
  have hafter := has_after_stopStream (startStream rendererUrl s c d).2 c.id
  refine ⟨by rw [hstart], ?_, by rw [hstop], by rw [hstop]; rfl, ?_, ?_⟩
  · exact getStreamInfo_of_has _ _ (JsMap.has_true_of_get_eq_some _ _ _ hget)
  · exact getStreamInfo_of_has_false _ _ hafter
  · unfold getStatus getChannelStreamStatus
    rw [getStreamInfo_of_has_false _ _ hafter]

theorem start_status_stop_status_witness :
    (startStream "http://localhost:5000" State.new demoChannel "rtmp://localhost/live").1 =
        .ok { channelId := "c1", status := "RUNNING",
              destination := "rtmp://localhost/live" ++ "/" ++ "key" } ∧
    getStreamInfo demoRunning "c1" = some { channelId := "c1", status := "RUNNING" } ∧
    (stopStream demoRunning "c1").1 = .stopped "c1" ∧
    (stopStream demoRunning "c1").1.success = true ∧
    getStreamInfo (stopStream demoRunning "c1").2 "c1" = none ∧
    getStatus (stopStream demoRunning "c1").2 "c1" = { channelId := none, status := "IDLE" } :=
  start_status_stop_status "http://localhost:5000" State.new demoChannel "rtmp://localhost/live"
    ⟨{ id := "s1", isActive := true }, by simp [demoChannel], rfl⟩ rfl

/-- C4: for a channel with no entry in `activeStreams` whose scenarios are all
inactive, `activeScenario` is null and `startStream` throws the "No active
scenario found" error, leaving the whole state as it was (no process spawned,
nothing published, `activeStreams` unchanged). -/
theorem startStream_no_active_scenario (rendererUrl : String) (s : State) (c : Channel)
    (d : String) (hno : s.activeStreams.has c.id = false)
    (hsc : ∀ sc ∈ c.scenarios, sc.isActive = false) :
    c.activeScenario = none ∧
    startStream rendererUrl s c d =
      (.error ("No active scenario found for channel " ++ c.id), s) :=
  ⟨activeScenario_eq_none c hsc,
   startStream_of_no_scenario rendererUrl s c d hno (activeScenario_eq_none c hsc)⟩

theorem startStream_no_active_scenario_witness :
    idleChannel.activeScenario = none ∧
    startStream "http://localhost:5000" demoRunning idleChannel "rtmp://localhost/live" =
      (.error ("No active scenario found for channel " ++ "c2"), demoRunning) :=
  startStream_no_active_scenario "http://localhost:5000" demoRunning idleChannel
    "rtmp://localhost/live" rfl (by simp [idleChannel])

/-! ## Observers -/

theorem deliver_of_command (s : State) (handle : Nat) (command : Command) (cb : Callback)
    (h : s.commands.get? handle = some command) :
    deliver s handle cb =
      match cb with
      | .start _ => startObserver command.channelId s
      | .progress p => progressObserver command.channelId s p
      | .error err => errorObserver command.channelId s err
      | .end_ => endObserver command.channelId s := by
  unfold deliver
  rw [h]

/-- C5: when the process stored for a channel id reports an error, the error
observer publishes exactly one message, on the topic `channel:<id>`, of type
STREAM_ERROR with that channel id and the message of the error; afterwards
`activeStreams` has no entry for the id, the entries of the other channels are
as before, and no process was spawned or signalled. -/
theorem error_callback_effect (s : State) (id : String) (handle : Nat) (command : Command)
    (err : JsError)
    (hentry : s.activeStreams.get id = some handle)
    (hcmd : s.commands.get? handle = some command)
    (hid : command.channelId = id) :
    (deliver s handle (.error err)).published =
        s.published ++ [("channel:" ++ id, .streamError id err.message)] ∧
    (Message.streamError id err.message).type = "STREAM_ERROR" ∧
    s.activeStreams.has id = true ∧
    (deliver s handle (.error err)).activeStreams.has id = false ∧
    (deliver s handle (.error err)).activeStreams.get id = none ∧
    (deliver s handle (.error err)).activeStreams.entries =
        s.activeStreams.entries.filter (fun e => !decide (e.1 = id)) ∧
    (∀ k, k ≠ id →
      (deliver s handle (.error err)).activeStreams.get k = s.activeStreams.get k) ∧
    (deliver s handle (.error err)).commands = s.commands ∧
    (deliver s handle (.error err)).kills = s.kills := by
  rw [deliver_of_command s handle command _ hcmd, hid]
  refine ⟨rfl, rfl, JsMap.has_true_of_get_eq_some _ _ _ hentry, ?_, ?_, rfl, ?_, rfl, rfl⟩
  · exact JsMap.has_delete_self _ _
  · exact JsMap.get_delete_self _ _
  · intro k hk
    exact JsMap.get_delete_ne _ _ _ hk

theorem error_callback_effect_witness :
    (deliver demoRunning 0 (.error ⟨"ffmpeg exited with code 1"⟩)).published =
        demoRunning.published ++
          [("channel:" ++ "c1", .streamError "c1" "ffmpeg exited with code 1")] ∧
    (deliver demoRunning 0 (.error ⟨"ffmpeg exited with code 1"⟩)).activeStreams.has "c1" =
        false :=
  have h := error_callback_effect demoRunning "c1" 0
    { channelId := "c1"
      input := "http://localhost:5000/render/s1"
      inputFormat := "mjpeg"
      videoCodec := "libx264"
      audioCodec := "aac"
      outputOptions := ["-preset veryfast", "-tune zerolatency", "-f flv"]
      output := "rtmp://localhost/live/key" }
    ⟨"ffmpeg exited with code 1"⟩ rfl rfl rfl
  ⟨h.1, h.2.2.2.1⟩

/-- C8: when `activeStreams` has an entry for the id, `stopStream` sends SIGTERM
once, to the process of that entry, removes the entry for the id in the same
call (no callback is awaited), returns success with the channel id, and leaves
the entries of the other ids, the spawned commands and the bus untouched. -/
theorem stopStream_running (s : State) (id : String) (handle : Nat)
    (h : s.activeStreams.get id = some handle) :
    (stopStream s id).1 = .stopped id ∧
    (stopStream s id).1.success = true ∧
    (stopStream s id).2.kills = s.kills ++ [(handle, "SIGTERM")] ∧
    (stopStream s id).2.activeStreams.entries =
        s.activeStreams.entries.filter (fun e => !decide (e.1 = id)) ∧
    (stopStream s id).2.activeStreams.has id = false ∧
    (∀ k, k ≠ id → (stopStream s id).2.activeStreams.get k = s.activeStreams.get k) ∧
    (stopStream s id).2.commands = s.commands ∧
    (stopStream s id).2.published = s.published ∧
    (stopStream s id).2.activePreviews = s.activePreviews := by
  rw [stopStream_of_get_some s id handle h]
  refine ⟨rfl, rfl, rfl, rfl, JsMap.has_delete_self _ _, ?_, rfl, rfl, rfl⟩
  intro k hk
  exact JsMap.get_delete_ne _ _ _ hk

theorem stopStream_running_witness :
    (stopStream demoRunning "c1").1 = .stopped "c1" ∧
    (stopStream demoRunning "c1").2.kills = demoRunning.kills ++ [(0, "SIGTERM")] ∧
    (stopStream demoRunning "c1").2.activeStreams.has "c1" = false :=
  have h := stopStream_running demoRunning "c1" 0 rfl
  ⟨h.1, h.2.2.1, h.2.2.2.2.1⟩

/-- C9: when `activeStreams` has no entry for the id, `stopStream` does not throw,
returns success false with the message "No active stream found", and leaves
the whole state as it was (no signal sent); and from any state a second
`stopStream` for the same id ends in the state the first one left. -/
theorem stopStream_not_running (s : State) (id : String)
    (h : s.activeStreams.has id = false) :
    stopStream s id = (.notFound "No active stream found", s) ∧
    (stopStream s id).1.success = false ∧
    (∀ s0 : State, (stopStream (stopStream s0 id).2 id).2 = (stopStream s0 id).2) := by
  have h1 := stopStream_of_has_false s id h
  refine ⟨h1, by rw [h1]; rfl, ?_⟩
  intro s0
  rw [stopStream_of_has_false _ id (has_after_stopStream s0 id)]

theorem stopStream_not_running_witness :
    stopStream State.new "c1" = (.notFound "No active stream found", State.new) ∧
    (stopStream (stopStream demoRunning "c1").2 "c1").2 = (stopStream demoRunning "c1").2 :=
  have h := stopStream_not_running State.new "c1" rfl
  ⟨h.1, h.2.2 demoRunning⟩

/-! ## Terminal events -/

theorem deliver_commands (s : State) (handle : Nat) (cb : Callback) :
    (deliver s handle cb).commands = s.commands := by
  unfold deliver
  cases s.commands.get? handle with
  | none => rfl
  | some command => cases cb <;> rfl

theorem terminalEvents_deliver (s : State) (handle : Nat) (command : Command) (cb : Callback)
    (hcmd : s.commands.get? handle = some command) :
    terminalEvents (deliver s handle cb) command.channelId =
      terminalEvents s command.channelId ++
        (terminalMessage command.channelId cb).toList := by
  rw [deliver_of_command s handle command cb hcmd]
  cases cb <;>
    simp [terminalEvents, terminalMessage, startObserver, progressObserver, errorObserver,
      endObserver, State.publish, List.filter_append, Message.type]

theorem channelTopic_injective (a b : String) (h : "channel:" ++ a = "channel:" ++ b) :
    a = b := by
  have hd := congrArg String.data h
  rw [String.data_append, String.data_append] at hd
  exact String.ext (List.append_cancel_left hd)

theorem terminalEvents_deliver_on (s : State) (handle : Nat) (command : Command)
    (cb : Callback) (id : String) (hcmd : s.commands.get? handle = some command) :
    terminalEvents (deliver s handle cb) id =
      terminalEvents s id ++
        (if command.channelId = id then (terminalMessage id cb).toList else []) := by
  by_cases hid : command.channelId = id
  · subst hid
    rw [if_pos rfl]
    exact terminalEvents_deliver s handle command cb hcmd
  · rw [if_neg hid, List.append_nil, deliver_of_command s handle command cb hcmd]
    have hne : ¬ "channel:" ++ command.channelId = "channel:" ++ id :=
      fun hh => hid (channelTopic_injective _ _ hh)
    cases cb <;>
      simp [terminalEvents, startObserver, progressObserver, errorObserver, endObserver,
        State.publish, List.filter_append, channelTopic, hne]

theorem startStream_published (rendererUrl : String) (s : State) (c : Channel) (d : String) :
    (startStream rendererUrl s c d).2.published = s.published := by
  unfold startStream
  split
  · rfl
  · split <;> rfl

theorem startStream_commands_get? (rendererUrl : String) (s : State) (c : Channel) (d : String)
    (handle : Nat) (command : Command) (h : s.commands.get? handle = some command) :
    (startStream rendererUrl s c d).2.commands.get? handle = some command := by
  unfold startStream
  split
  · exact h
  · split
    · exact h
    · have hlt : handle < s.commands.length := by
        rw [List.get?_eq_some] at h
        exact h.1
      show (s.commands ++ _).get? handle = some command
      rw [List.get?_eq_getElem?, List.getElem?_append_left hlt, ← List.get?_eq_getElem?]
      exact h

theorem stopStream_published (s : State) (id : String) :
    (stopStream s id).2.published = s.published := by
  unfold stopStream
  split <;> rfl

theorem stopStream_commands (s : State) (id : String) :
    (stopStream s id).2.commands = s.commands := by
  unfold stopStream
  split <;> rfl

theorem World.step_commands_get? (rendererUrl : String) (w : World) (a : Action)
    (handle : Nat) (command : Command) (h : w.service.commands.get? handle = some command) :
    (w.step rendererUrl a).service.commands.get? handle = some command := by
  cases a with
  | startStream c d => exact startStream_commands_get? rendererUrl w.service c d handle command h
  | stopStream id =>
    show (stopStream w.service id).2.commands.get? handle = _
    rw [stopStream_commands]
    exact h
  | callback h' cb =>
    show (deliver w.service h' cb).commands.get? handle = _
    rw [deliver_commands]
    exact h

theorem World.run_commands_get? (rendererUrl : String) (trace : List Action) :
    ∀ (w0 w : World), World.run rendererUrl w0 trace = some w →
      ∀ (handle : Nat) (command : Command), w0.service.commands.get? handle = some command →
        w.service.commands.get? handle = some command := by
  induction trace with
  | nil =>
    intro w0 w hrun handle command h
    simp only [World.run, Option.some.injEq] at hrun
    rw [← hrun]
    exact h
  | cons a rest ih =>
    intro w0 w hrun handle command h
    simp only [World.run] at hrun
    split at hrun
    · exact ih _ w hrun handle command (World.step_commands_get? rendererUrl w0 a handle command h)
    · cases hrun

/-- Along a run, the terminal events on the topic of a channel grow by the
events that the observers of its commands publish, and by nothing else. -/
theorem World.run_terminalEvents (rendererUrl : String) (id : String) (trace : List Action) :
    ∀ (w0 w : World), World.run rendererUrl w0 trace = some w →
      terminalEvents w.service id = terminalEvents w0.service id ++ w.exitEventsOn id trace := by
  induction trace with
  | nil =>
    intro w0 w hrun
    simp only [World.run, Option.some.injEq] at hrun
    rw [← hrun]
    simp [World.exitEventsOn]
  | cons a rest ih =>
    intro w0 w hrun
    simp only [World.run] at hrun
    split at hrun
    · rename_i hen
      rw [ih _ w hrun]
      cases a with
      | startStream c d =>
        have h1 : terminalEvents (w0.step rendererUrl (.startStream c d)).service id =
            terminalEvents w0.service id := by
          show terminalEvents (startStream rendererUrl w0.service c d).2 id = _
          unfold terminalEvents
          rw [startStream_published]
        rw [h1]
        simp [World.exitEventsOn]
      | stopStream cid =>
        have h1 : terminalEvents (w0.step rendererUrl (.stopStream cid)).service id =
            terminalEvents w0.service id := by
          show terminalEvents (stopStream w0.service cid).2 id = _
          unfold terminalEvents
          rw [stopStream_published]
        rw [h1]
        simp [World.exitEventsOn]
      | callback h cb =>
        simp only [World.enabled, Bool.and_eq_true, decide_eq_true_eq] at hen
        obtain ⟨command, hcmd⟩ : ∃ command, w0.service.commands.get? h = some command :=
          ⟨_, List.get?_eq_get hen.1⟩
        have hfinal : w.service.commands.get? h = some command :=
          World.run_commands_get? rendererUrl rest _ w hrun h command
            (World.step_commands_get? rendererUrl w0 _ h command hcmd)
        have h1 : terminalEvents (w0.step rendererUrl (.callback h cb)).service id =
            terminalEvents w0.service id ++
              (if command.channelId = id then (terminalMessage id cb).toList else []) :=
          terminalEvents_deliver_on w0.service h command cb id hcmd
        rw [h1, List.append_assoc]
        congr 1
        simp only [World.exitEventsOn, List.filterMap_cons, hfinal]
        by_cases hid : command.channelId = id
        · simp only [hid, if_true]
          cases terminalMessage id cb <;> rfl
        · simp only [hid, if_false]
          rfl
    · cases hrun

/-- Along a run a command delivers at most one of `error` and `end`, and it has
delivered one exactly when it is among the commands that reported their exit. -/
theorem World.run_exitEvents (rendererUrl : String) (id : String) (handle : Nat)
    (trace : List Action) :
    ∀ (w0 w : World), World.run rendererUrl w0 trace = some w →
      (handle ∈ w0.reported → exitEvents id handle trace = []) ∧
      (exitEvents id handle trace).length ≤ 1 ∧
      (handle ∈ w.reported ↔
        handle ∈ w0.reported ∨ (exitEvents id handle trace).length = 1) := by
  induction trace with
  | nil =>
    intro w0 w hrun
    simp only [World.run, Option.some.injEq] at hrun
    rw [← hrun]
    simp [exitEvents]
  | cons a rest ih =>
    intro w0 w hrun
    simp only [World.run] at hrun
    split at hrun
    · rename_i hen
      obtain ⟨i1, i2, i3⟩ := ih _ w hrun
      cases a with
      | startStream c d =>
        have he : exitEvents id handle (.startStream c d :: rest) = exitEvents id handle rest := by
          simp [exitEvents]
        rw [he]
        exact ⟨i1, i2, i3⟩
      | stopStream cid =>
        have he : exitEvents id handle (.stopStream cid :: rest) = exitEvents id handle rest := by
          simp [exitEvents]
        rw [he]
        exact ⟨i1, i2, i3⟩
      | callback h cb =>
        simp only [World.enabled, Bool.and_eq_true, decide_eq_true_eq, Bool.not_eq_true',
          List.contains_eq_any_beq, List.any_eq_false, beq_iff_eq] at hen
        have hnot : h ∉ w0.reported := fun hm => hen.2 h hm rfl
        by_cases hh : h = handle
        · subst hh
          cases hcb : cb.terminal with
          | false =>
            have hmsg : terminalMessage id cb = none := by
              cases cb <;> first | rfl | cases hcb
            have he : exitEvents id h (.callback h cb :: rest) = exitEvents id h rest := by
              simp [exitEvents, hmsg]
            have hrep : (w0.step rendererUrl (.callback h cb)).reported = w0.reported := by
              simp [World.step, hcb]
            rw [he]
            rw [hrep] at i1 i3
            exact ⟨i1, i2, i3⟩
          | true =>
            obtain ⟨msg, hmsg⟩ : ∃ msg, terminalMessage id cb = some msg := by
              cases cb <;> first | exact ⟨_, rfl⟩ | cases hcb
            have he : exitEvents id h (.callback h cb :: rest) = msg :: exitEvents id h rest := by
              simp [exitEvents, hmsg]
            have hrep : (w0.step rendererUrl (.callback h cb)).reported = w0.reported ++ [h] := by
              simp [World.step, hcb]
            have hin : h ∈ (w0.step rendererUrl (.callback h cb)).reported := by
              rw [hrep]
              simp
            have hrest := i1 hin
            rw [he, hrest]
            refine ⟨fun hm => absurd hm hnot, by simp, ?_⟩
            constructor
            · intro _
              right
              rfl
            · intro _
              exact i3.mpr (Or.inl hin)
        · have he : exitEvents id handle (.callback h cb :: rest) = exitEvents id handle rest := by
            simp [exitEvents, hh]
          have hrep : handle ∈ (w0.step rendererUrl (.callback h cb)).reported ↔
              handle ∈ w0.reported := by
            simp only [World.step]
            split
            · rw [List.mem_append, List.mem_singleton]
              constructor
              · rintro (hm | hm)
                · exact hm
                · exact absurd hm.symm hh
              · exact Or.inl
            · exact Iff.rfl
          rw [he]
          rw [hrep] at i1 i3
          exact ⟨i1, i2, i3⟩
    · cases hrun

/-- C7: the wrapper reports the exit of a process once, through `error` or
through `end`.  In every run from server start, the observers of a process
started by `startStream` publish at most one terminal event, so never both a
STREAM_ERROR and a STREAM_ENDED and never one of them twice, and exactly one
once the process has reported its exit; the terminal events published on the
topic of a channel are those events of its processes and no others. -/
theorem terminal_event_once (rendererUrl : String) (trace : List Action) (w : World)
    (hrun : World.run rendererUrl World.init trace = some w) :
    (∀ (handle : Nat) (command : Command),
      w.service.commands.get? handle = some command →
      (exitEvents command.channelId handle trace).length ≤ 1 ∧
      ((exitEvents command.channelId handle trace).length = 1 ↔ handle ∈ w.reported)) ∧
    (∀ id : String, terminalEvents w.service id = w.exitEventsOn id trace) := by
  constructor
  · intro handle command _
    obtain ⟨_, h2, h3⟩ := World.run_exitEvents rendererUrl command.channelId handle trace _ w hrun
    refine ⟨h2, ?_⟩
    rw [h3]
    constructor
    · exact Or.inr
    · rintro (hm | hm)
      · cases hm
      · exact hm
  · intro id
    rw [World.run_terminalEvents rendererUrl id trace _ w hrun]
    rfl

theorem terminal_event_once_witness :
    (exitEvents "c1" 0 operatorStopTrace).length ≤ 1 ∧
    (exitEvents "c1" 0 operatorStopTrace).length = 1 :=
  have h := terminal_event_once "http://localhost:5000" operatorStopTrace
    { service :=
        { activeStreams := ⟨[]⟩, activePreviews := ⟨[]⟩,
          commands :=
            [{ channelId := "c1"
               input := "http://localhost:5000/render/s1"
               inputFormat := "mjpeg"
               videoCodec := "libx264"
               audioCodec := "aac"
               outputOptions := ["-preset veryfast", "-tune zerolatency", "-f flv"]
               output := "rtmp://localhost/live/key" }],
          kills := [(0, "SIGTERM")],
          published :=
            [("channel:c1", .streamError "c1" "ffmpeg was killed with signal SIGTERM")],
          previewCommands := [], previewKills := [], emitters := [] },
      reported := [0] } rfl
  ⟨(h.1 0 _ rfl).1, ((h.1 0 _ rfl).2).mpr (by decide)⟩

/-! ## Traces on which the supervisor misbehaves -/

/-- C2 fails on the code: a channel is stopped and restarted, and the process
killed by the stop reports its exit after the restart.  Its error observer
deletes the entry of the running successor, so the next stop finds nothing to
signal and the next start spawns a further process: the channel then has two
live encoder processes (handles 1 and 2), of which only the last is stored. -/
theorem stale_exit_two_live_encoders :
    (World.run "http://localhost:5000" World.init staleExitTrace).map
        (fun w => (w.live "c1", w.service.activeStreams.entries, w.service.kills)) =
      some ([1, 2], [("c1", 2)], [(0, "SIGTERM")]) := by
  rfl

/-- C6 fails on the code: after `stopStream` sent SIGTERM, the wrapper reports
the kill through the `error` callback, and the error observer publishes a
STREAM_ERROR and no STREAM_ENDED. -/
theorem operator_stop_published_as_error :
    (World.run "http://localhost:5000" World.init operatorStopTrace).map
        (fun w => (w.service.kills, w.service.published)) =
      some ([(0, "SIGTERM")],
        [("channel:c1", .streamError "c1" "ffmpeg was killed with signal SIGTERM")]) := by
  rfl

/-- C10 fails on the code: when both calls pass the `has` check before either
is resumed from its `await`, both are fulfilled, two processes are spawned and
the handle of the first is overwritten; when the first call runs to its end
before the second starts, the second is rejected and one process is spawned. -/
theorem concurrent_start_spawns_twice :
    (FfmpegService.demoRace.run [false, true, false, true]).first = .resolved ∧
    (FfmpegService.demoRace.run [false, true, false, true]).second = .resolved ∧
    (FfmpegService.demoRace.run [false, true, false, true]).service.commands.length = 2 ∧
    (FfmpegService.demoRace.run [false, true, false, true]).service.processes.entries =
      [(1, 1)] ∧
    (FfmpegService.demoRace.run [false, false, true, true]).second =
      .rejected "Stream already running for this channel" ∧
    (FfmpegService.demoRace.run [false, false, true, true]).service.commands.length = 1 := by
  refine ⟨rfl, rfl, rfl, rfl, rfl, rfl⟩

/-! ## Telemetry -/

theorem JsValue.read_toJson (v : JsValue) :
    v.toJson.read = if v.nonFinite then JsValue.null else v := by
  cases v <;> rfl

theorem JsValue.toJson_absent (v : JsValue) : v.toJson = .absent ↔ v = .undefined := by
  cases v <;> simp [JsValue.toJson]

/-- C11, as the code has it: for every progress report of an encoder process
the progress observer publishes exactly one message, on the topic
`channel:<id>`: a STREAM_PROGRESS whose metrics are what `JSON.stringify`
writes for the five fields of the report, `fps` from `currentFps` and `kbps`
from `currentKbps`.  A subscriber reads back a finite number, a string or
`null` as it was in the report, `null` for a value that is NaN or infinite, and
no field for a value that is `undefined`.  A report that follows another is
published the same way, so no value depends on an earlier report;
`activeStreams` and the spawned commands stay as they were. -/
theorem progress_callback_effect (s : State) (handle : Nat) (command : Command)
    (p0 p : Progress) (hcmd : s.commands.get? handle = some command) :
    (deliver s handle (.progress p)).published =
      s.published ++
        [("channel:" ++ command.channelId,
          .streamProgress command.channelId
            { frames := p.frames.toJson, fps := p.currentFps.toJson,
              kbps := p.currentKbps.toJson, targetSize := p.targetSize.toJson,
              timemark := p.timemark.toJson })] ∧
    (deliver (deliver s handle (.progress p0)) handle (.progress p)).published =
      (deliver s handle (.progress p0)).published ++
        [("channel:" ++ command.channelId,
          .streamProgress command.channelId
            { frames := p.frames.toJson, fps := p.currentFps.toJson,
              kbps := p.currentKbps.toJson, targetSize := p.targetSize.toJson,
              timemark := p.timemark.toJson })] ∧
    (∀ v : JsValue, v.nonFinite = false → v.toJson.read = v) ∧
    (∀ v : JsValue, v.nonFinite = true → v.toJson = .null) ∧
    (∀ v : JsValue, v.toJson = .absent ↔ v = .undefined) ∧
    (deliver s handle (.progress p)).activeStreams = s.activeStreams ∧
    (deliver s handle (.progress p)).commands = s.commands ∧
    (deliver s handle (.progress p)).kills = s.kills := by
  have hcmd0 : (deliver s handle (.progress p0)).commands.get? handle = some command := by
    rw [deliver_commands]; exact hcmd
  rw [deliver_of_command _ handle command _ hcmd0, deliver_of_command s handle command _ hcmd]
  refine ⟨rfl, rfl, ?_, ?_, JsValue.toJson_absent, rfl, rfl, rfl⟩
  · intro v hv
    rw [JsValue.read_toJson, hv]
    rfl
  · intro v hv
    cases v <;> first | rfl | cases hv

theorem progress_callback_effect_witness :
    (deliver demoRunning 0 (.progress demoProgress)).published =
      demoRunning.published ++
        [("channel:" ++ "c1",
          .streamProgress "c1"
            { frames := .number 120, fps := .number 30, kbps := .null,
              targetSize := .number 512, timemark := .string "00:00:04.00" })] :=
  (progress_callback_effect demoRunning 0
    { channelId := "c1"
      input := "http://localhost:5000/render/s1"
      inputFormat := "mjpeg"
      videoCodec := "libx264"
      audioCodec := "aac"
      outputOptions := ["-preset veryfast", "-tune zerolatency", "-f flv"]
      output := "rtmp://localhost/live/key" }
    demoProgress demoProgress rfl).1

/-- C11, as stated, fails: the report `demoProgress` has `currentKbps` NaN (the
wrapper parses the bitrate text `N/A` so); the published metrics hold `null`
under `kbps`, which is not the value of the report. -/
theorem progress_nan_published_as_null :
    demoProgress.currentKbps = .nan ∧
    (deliver demoRunning 0 (.progress demoProgress)).published =
      [("channel:c1",
        .streamProgress "c1"
          { frames := .number 120, fps := .number 30, kbps := .null,
            targetSize := .number 512, timemark := .string "00:00:04.00" })] ∧
    JsonValue.read .null ≠ demoProgress.currentKbps := by
  refine ⟨rfl, rfl, ?_⟩
  decide

/-! ## Preview sessions -/

theorem startStream_chain :
    FluentCommand.chain "ffmpeg(...)"
        ["input", "inputFormat", "videoCodec", "audioCodec", "outputOptions", "output"] =
      .ok () := by
  rfl

theorem previewChain_throws :
    FluentCommand.chain "ffmpeg(...)"
        ["input", "inputFormat", "outputOptions", "format", "vcodec"] =
      .error vcodecError := by
  rfl

theorem createPreviewProcess_of_none (rendererUrl : String) (s : State) (sid : String)
    (h : s.activePreviews.get sid = none) :
    createPreviewProcess rendererUrl s sid =
      (.error vcodecError,
       { s with emitters := s.emitters ++ [{ dataListeners := [], errorListeners := 0 }] }) := by
  unfold createPreviewProcess
  rw [h]
  simp only [previewChain_throws]

theorem createPreviewProcess_of_some (rendererUrl : String) (s : State) (sid : String)
    (preview : PreviewSession) (h : s.activePreviews.get sid = some preview) :
    createPreviewProcess rendererUrl s sid =
      (.ok preview.emitter,
       { s with activePreviews :=
          s.activePreviews.set sid { preview with clientCount := preview.clientCount + 1 } }) := by
  unfold createPreviewProcess
  rw [h]

theorem stopPreviewProcess_of_none (s : State) (sid : String) (emitter : Option Nat)
    (h : s.activePreviews.get sid = none) : stopPreviewProcess s sid emitter = s := by
  unfold stopPreviewProcess
  rw [h]

theorem stopPreviewProcess_last (s : State) (sid : String) (emitter : Option Nat)
    (preview : PreviewSession) (h : s.activePreviews.get sid = some preview)
    (hc : preview.clientCount ≤ 1) :
    stopPreviewProcess s sid emitter =
      { s with previewKills := s.previewKills ++ [(preview.command, "SIGTERM")]
               activePreviews := s.activePreviews.delete sid } := by
  unfold stopPreviewProcess
  rw [h]
  have : preview.clientCount - 1 ≤ 0 := by omega
  simp [this]

theorem stopPreviewProcess_more (s : State) (sid : String) (emitter : Option Nat)
    (preview : PreviewSession) (h : s.activePreviews.get sid = some preview)
    (hc : 1 < preview.clientCount) :
    stopPreviewProcess s sid emitter =
      { s with activePreviews :=
          s.activePreviews.set sid { preview with clientCount := preview.clientCount - 1 } } := by
  unfold stopPreviewProcess
  rw [h]
  have : ¬ preview.clientCount - 1 ≤ 0 := by omega
  simp [this]

theorem NoPreview.at_new : NoPreview State.new := ⟨rfl, rfl, rfl⟩

theorem NoPreview.get_none (s : State) (h : NoPreview s) (sid : String) :
    s.activePreviews.get sid = none := by
  unfold JsMap.get
  rw [h.sessions]
  rfl

theorem NoPreview.after_create (rendererUrl : String) (s : State) (sid : String) (h : NoPreview s) :
    (createPreviewProcess rendererUrl s sid).1 = .error vcodecError ∧
    NoPreview (createPreviewProcess rendererUrl s sid).2 := by
  rw [createPreviewProcess_of_none rendererUrl s sid (h.get_none s sid)]
  exact ⟨rfl, h.sessions, h.commands, h.kills⟩

theorem NoPreview.stop_noop (s : State) (sid : String) (emitter : Option Nat) (h : NoPreview s) :
    stopPreviewProcess s sid emitter = s :=
  stopPreviewProcess_of_none s sid emitter (h.get_none s sid)

theorem NoPreview.keeps_previewStep (rendererUrl : String) (s : State) (a : PreviewAction)
    (h : NoPreview s) : NoPreview (previewStep rendererUrl s a) := by
  cases a with
  | create sid => exact (NoPreview.after_create rendererUrl s sid h).2
  | stop sid emitter =>
    show NoPreview (stopPreviewProcess s sid emitter)
    rw [NoPreview.stop_noop s sid emitter h]
    exact h
  | processError handle err =>
    simp only [previewStep, h.commands]
    exact h
  | processEnd handle =>
    simp only [previewStep, h.commands]
    exact h
  | onData emitter socket => exact ⟨h.sessions, h.commands, h.kills⟩
  | removeData emitter socket => exact ⟨h.sessions, h.commands, h.kills⟩
  | onError emitter => exact ⟨h.sessions, h.commands, h.kills⟩

theorem NoPreview.keeps_previewRun (rendererUrl : String) (actions : List PreviewAction) :
    ∀ s : State, NoPreview s → NoPreview (previewRun rendererUrl s actions) := by
  induction actions with
  | nil => intro s h; exact h
  | cons a rest ih =>
    intro s h
    exact ih _ (NoPreview.keeps_previewStep rendererUrl s a h)

/-- C12 fails on the code: the command of a preview is built by a chain of
calls that ends in `vcodec`, which is no method of the wrapper (the chain of
`startStream`, which calls `videoCodec`, goes through).  On the fresh service
`createPreviewProcess` throws the `TypeError` before `pipe()` and before the
session is stored: no process is spawned, no session is stored, and a second
call for the same scenario throws again instead of joining a session. -/
theorem createPreviewProcess_vcodec_throws :
    FluentCommand.chain "ffmpeg(...)"
        ["input", "inputFormat", "videoCodec", "audioCodec", "outputOptions", "output"] =
      .ok () ∧
    (createPreviewProcess "http://localhost:5000" State.new "s1").1 =
      .error
        { message :=
            "ffmpeg(...).input(...).inputFormat(...).outputOptions(...).format(...).vcodec" ++
              " is not a function" } ∧
    (createPreviewProcess "http://localhost:5000" State.new "s1").2.previewCommands = [] ∧
    (createPreviewProcess "http://localhost:5000" State.new "s1").2.activePreviews.entries = [] ∧
    (createPreviewProcess "http://localhost:5000" demoPreview "s1").1 =
      (createPreviewProcess "http://localhost:5000" State.new "s1").1 ∧
    (createPreviewProcess "http://localhost:5000" demoPreview "s1").2.previewCommands = [] ∧
    (createPreviewProcess "http://localhost:5000" demoPreview "s1").2.activePreviews.entries =
      [] := by
  refine ⟨rfl, rfl, rfl, rfl, rfl, rfl, rfl⟩

/-- C17: with no entry for the scenario in `activePreviews`, `stopPreviewProcess`
returns, whatever its emitter argument, with the whole state as it was: no
signal sent, `activePreviews` unchanged. -/
theorem stopPreviewProcess_absent (s : State) (sid : String) (emitter : Option Nat)
    (h : s.activePreviews.has sid = false) :
    stopPreviewProcess s sid emitter = s ∧
    (stopPreviewProcess s sid emitter).previewKills = s.previewKills ∧
    (stopPreviewProcess s sid emitter).activePreviews = s.activePreviews := by
  have hs := stopPreviewProcess_of_none s sid emitter (JsMap.get_eq_none_of_has_false _ _ h)
  rw [hs]
  exact ⟨rfl, rfl, rfl⟩

theorem stopPreviewProcess_absent_witness :
    stopPreviewProcess demoPreview "s2" (some 0) = demoPreview :=
  (stopPreviewProcess_absent demoPreview "s2" (some 0) rfl).1

/-! ## Attaching and detaching in a row -/

theorem attachN_noPreview (rendererUrl sid : String) (n : Nat) :
    ∀ s : State, NoPreview s → NoPreview (attachN rendererUrl sid n s) := by
  induction n with
  | zero => intro s h; exact h
  | succ n ih =>
    intro s h
    exact ih _ (NoPreview.after_create rendererUrl s sid h).2

theorem detachN_noPreview (sid : String) (n : Nat) :
    ∀ s : State, NoPreview s → detachN sid n s = s := by
  induction n with
  | zero => intro s _; rfl
  | succ n ih =>
    intro s h
    show detachN sid n (stopPreviewProcess s sid none) = s
    rw [NoPreview.stop_noop s sid none h]
    exact ih s h

/-- C13 fails on the code: every one of the N calls of `createPreviewProcess`
throws at `vcodec`, so after N attaches and N detaches on the fresh service no
process has been spawned and none has been sent a signal, for every N; only
the absence of an entry for the scenario is as the claim says. -/
theorem attach_detach_spawns_nothing (rendererUrl sid : String) (N : Nat) :
    (createPreviewProcess rendererUrl (attachN rendererUrl sid N State.new) sid).1 =
      .error vcodecError ∧
    (attachN rendererUrl sid N State.new).previewCommands = [] ∧
    (attachN rendererUrl sid N State.new).activePreviews.entries = [] ∧
    (detachN sid N (attachN rendererUrl sid N State.new)).previewCommands = [] ∧
    (detachN sid N (attachN rendererUrl sid N State.new)).previewKills = [] ∧
    (detachN sid N (attachN rendererUrl sid N State.new)).activePreviews.has sid = false := by
  have h := attachN_noPreview rendererUrl sid N State.new NoPreview.at_new
  rw [detachN_noPreview sid N _ h]
  refine ⟨(NoPreview.after_create rendererUrl _ sid h).1, h.commands, h.sessions, h.commands, h.kills,
    ?_⟩
  unfold JsMap.has
  rw [h.sessions]
  rfl

/-! ## The invariant of the preview bookkeeping -/

theorem PreviewInv.new : PreviewInv State.new where
  count_pos := by intro e he; cases he
  command_owner := by intro e he; cases he
  not_killed := by intro e he; cases he
  kills_nodup := List.nodup_nil
  kills_spawned := by intro h hh; cases hh

theorem PreviewInv.delete (s : State) (k : String) (h : PreviewInv s) :
    PreviewInv { s with activePreviews := s.activePreviews.delete k } where
  count_pos := fun e he => h.count_pos e (JsMap.mem_delete _ _ _ he).1
  command_owner := fun e he => h.command_owner e (JsMap.mem_delete _ _ _ he).1
  not_killed := fun e he => h.not_killed e (JsMap.mem_delete _ _ _ he).1
  kills_nodup := h.kills_nodup
  kills_spawned := h.kills_spawned

theorem PreviewInv.recount (s : State) (k : String) (preview : PreviewSession) (count : Int)
    (h : PreviewInv s) (hget : s.activePreviews.get k = some preview) (hcount : 1 ≤ count) :
    PreviewInv { s with activePreviews :=
      s.activePreviews.set k { preview with clientCount := count } } := by
  have hmem := JsMap.mem_of_get_eq_some _ _ _ hget
  constructor
  · intro e he
    rcases JsMap.mem_set _ _ _ _ he with rfl | ⟨he', _⟩
    · exact hcount
    · exact h.count_pos e he'
  · intro e he
    rcases JsMap.mem_set _ _ _ _ he with rfl | ⟨he', _⟩
    · exact h.command_owner (k, preview) hmem
    · exact h.command_owner e he'
  · intro e he
    rcases JsMap.mem_set _ _ _ _ he with rfl | ⟨he', _⟩
    · exact h.not_killed (k, preview) hmem
    · exact h.not_killed e he'
  · exact h.kills_nodup
  · exact h.kills_spawned

theorem PreviewInv.create (rendererUrl : String) (s : State) (sid : String)
    (h : PreviewInv s) : PreviewInv (createPreviewProcess rendererUrl s sid).2 := by
  cases hget : s.activePreviews.get sid with
  | some preview =>
    rw [createPreviewProcess_of_some rendererUrl s sid preview hget]
    have hpos := h.count_pos _ (JsMap.mem_of_get_eq_some _ _ _ hget)
    exact PreviewInv.recount s sid preview _ h hget (by simp only at hpos; omega)
  | none =>
    rw [createPreviewProcess_of_none rendererUrl s sid hget]
    exact ⟨h.count_pos, h.command_owner, h.not_killed, h.kills_nodup, h.kills_spawned⟩

theorem PreviewInv.stop (s : State) (sid : String) (emitter : Option Nat)
    (h : PreviewInv s) : PreviewInv (stopPreviewProcess s sid emitter) := by
  cases hget : s.activePreviews.get sid with
  | none => rw [stopPreviewProcess_of_none s sid emitter hget]; exact h
  | some preview =>
    have hmem := JsMap.mem_of_get_eq_some _ _ _ hget
    by_cases hc : preview.clientCount ≤ 1
    · rw [stopPreviewProcess_last s sid emitter preview hget hc]
      obtain ⟨c, hcmd, hid⟩ := h.command_owner _ hmem
      constructor
      · exact fun e he => h.count_pos e (JsMap.mem_delete _ _ _ he).1
      · exact fun e he => h.command_owner e (JsMap.mem_delete _ _ _ he).1
      · intro e he
        obtain ⟨he', hne⟩ := JsMap.mem_delete _ _ _ he
        show e.2.command ∉ List.map Prod.fst (s.previewKills ++ _)
        rw [List.map_append, List.mem_append]
        rintro (hk | hk)
        · exact h.not_killed e he' hk
        · simp only [List.map_cons, List.map_nil, List.mem_singleton] at hk
          obtain ⟨c', hcmd', hid'⟩ := h.command_owner e he'
          rw [hk, hcmd] at hcmd'
          cases hcmd'
          exact hne (hid'.symm.trans hid)
      · show (List.map Prod.fst (s.previewKills ++ _)).Nodup
        rw [List.map_append, List.nodup_append]
        refine ⟨h.kills_nodup, List.nodup_singleton _, ?_⟩
        intro x hx hx'
        simp only [List.map_cons, List.map_nil, List.mem_singleton] at hx'
        rw [hx'] at hx
        exact h.not_killed _ hmem hx
      · intro x hx
        change x ∈ List.map Prod.fst (s.previewKills ++ _) at hx
        rw [List.map_append, List.mem_append] at hx
        rcases hx with hx | hx
        · exact h.kills_spawned x hx
        · simp only [List.map_cons, List.map_nil, List.mem_singleton] at hx
          rw [hx]
          rw [List.get?_eq_some] at hcmd
          exact hcmd.1
    · rw [stopPreviewProcess_more s sid emitter preview hget (by omega)]
      exact PreviewInv.recount s sid preview _ h hget (by omega)

theorem PreviewInv.of_previewStep (rendererUrl : String) (s : State) (a : PreviewAction)
    (h : PreviewInv s) : PreviewInv (previewStep rendererUrl s a) := by
  cases a with
  | create sid => exact PreviewInv.create rendererUrl s sid h
  | stop sid emitter => exact PreviewInv.stop s sid emitter h
  | processError handle err =>
    simp only [previewStep]
    split
    · exact h
    · unfold previewErrorObserver
      split
      · exact h
      · exact PreviewInv.delete s _ h
  | processEnd handle =>
    simp only [previewStep]
    split
    · exact h
    · exact PreviewInv.delete s _ h
  | onData emitter socket =>
    exact ⟨h.count_pos, h.command_owner, h.not_killed, h.kills_nodup, h.kills_spawned⟩
  | removeData emitter socket =>
    exact ⟨h.count_pos, h.command_owner, h.not_killed, h.kills_nodup, h.kills_spawned⟩
  | onError emitter =>
    exact ⟨h.count_pos, h.command_owner, h.not_killed, h.kills_nodup, h.kills_spawned⟩

theorem PreviewInv.of_previewRun (rendererUrl : String) (actions : List PreviewAction) :
    ∀ s : State, PreviewInv s → PreviewInv (previewRun rendererUrl s actions) := by
  induction actions with
  | nil => intro s h; exact h
  | cons a rest ih =>
    intro s h
    exact ih _ (PreviewInv.of_previewStep rendererUrl s a h)

/-- C14: in every state reached from the fresh service by calls of
`createPreviewProcess` and `stopPreviewProcess`, listener registrations and
preview-process `error` and `end` callbacks, every stored session has
`clientCount` at least 1; `stopPreviewProcess` sends SIGTERM, to the process of
the stored session, exactly when the stored `clientCount` is 1, and sends
nothing otherwise; and no preview process has been sent a signal more than
once, before or after such a call.  In the states the service reaches no
session is stored and no signal has been sent, because every
`createPreviewProcess` throws at `vcodec`. -/
theorem preview_refcount_invariant (rendererUrl : String) (actions : List PreviewAction) :
    (∀ e ∈ (previewRun rendererUrl State.new actions).activePreviews.entries,
      1 ≤ e.2.clientCount) ∧
    (∀ (sid : String) (emitter : Option Nat),
      (stopPreviewProcess (previewRun rendererUrl State.new actions) sid emitter).previewKills =
        match (previewRun rendererUrl State.new actions).activePreviews.get sid with
        | some preview =>
          if preview.clientCount = 1 then
            (previewRun rendererUrl State.new actions).previewKills ++
              [(preview.command, "SIGTERM")]
          else (previewRun rendererUrl State.new actions).previewKills
        | none => (previewRun rendererUrl State.new actions).previewKills) ∧
    ((previewRun rendererUrl State.new actions).previewKills.map Prod.fst).Nodup ∧
    (∀ (sid : String) (emitter : Option Nat),
      ((stopPreviewProcess (previewRun rendererUrl State.new actions) sid
        emitter).previewKills.map Prod.fst).Nodup) ∧
    (previewRun rendererUrl State.new actions).activePreviews.entries = [] ∧
    (previewRun rendererUrl State.new actions).previewKills = [] := by
  have hinv := PreviewInv.of_previewRun rendererUrl actions State.new PreviewInv.new
  have hno := NoPreview.keeps_previewRun rendererUrl actions State.new NoPreview.at_new
  refine ⟨hinv.count_pos, ?_, hinv.kills_nodup, ?_, hno.sessions, hno.kills⟩
  · intro sid emitter
    cases hget : (previewRun rendererUrl State.new actions).activePreviews.get sid with
    | none => rw [stopPreviewProcess_of_none _ sid emitter hget]
    | some preview =>
      have hpos := hinv.count_pos _ (JsMap.mem_of_get_eq_some _ _ _ hget)
      simp only at hpos
      by_cases hc : preview.clientCount = 1
      · rw [stopPreviewProcess_last _ sid emitter preview hget (by omega)]
        simp [hc]
      · rw [stopPreviewProcess_more _ sid emitter preview hget (by omega)]
        simp [hc]
  · intro sid emitter
    exact (PreviewInv.stop _ sid emitter hinv).kills_nodup

theorem preview_refcount_invariant_witness :
    (stopPreviewProcess
        (previewRun "http://localhost:5000" State.new [.create "s1", .create "s1", .stop "s1" none])
        "s1" none).previewKills =
      match (previewRun "http://localhost:5000" State.new
          [.create "s1", .create "s1", .stop "s1" none]).activePreviews.get "s1" with
      | some preview =>
        if preview.clientCount = 1 then
          (previewRun "http://localhost:5000" State.new
            [.create "s1", .create "s1", .stop "s1" none]).previewKills ++
            [(preview.command, "SIGTERM")]
        else
          (previewRun "http://localhost:5000" State.new
            [.create "s1", .create "s1", .stop "s1" none]).previewKills
      | none =>
        (previewRun "http://localhost:5000" State.new
          [.create "s1", .create "s1", .stop "s1" none]).previewKills :=
  (preview_refcount_invariant "http://localhost:5000"
    [.create "s1", .create "s1", .stop "s1" none]).2.1 "s1" none

/-! ## Fan-out -/

/-- Modifying a list at pairwise distinct positions changes each of them once. -/
theorem get?_foldl_modify {α : Type} (f : α → α) (L : List Nat) (hL : L.Nodup) :
    ∀ (l : List α) (i : Nat),
      (L.foldl (fun acc j => List.modify f j acc) l).get? i =
        (l.get? i).map (fun a => if i ∈ L then f a else a) := by
  induction L with
  | nil =>
    intro l i
    simp
  | cons j L ih =>
    intro l i
    rw [List.nodup_cons] at hL
    rw [List.foldl_cons, ih hL.2, List.get?_eq_getElem?, List.get?_eq_getElem?,
      List.getElem?_modify]
    cases l[i]? with
    | none => rfl
    | some a =>
      by_cases hji : j = i
      · subst hji
        simp [hL.1]
      · have hij : ¬ i = j := fun h => hji h.symm
        simp [hji, hij]

theorem jsSplit_of_not_mem (sep : Char) (cs : List Char) (h : sep ∉ cs) :
    jsSplit sep cs = [cs] := by
  induction cs with
  | nil => rfl
  | cons c cs ih =>
    have hc : ¬ c = sep := fun hc => h (by simp [hc])
    have hcs : sep ∉ cs := fun hcs => h (by simp [hcs])
    simp [jsSplit, hc, ih hcs]

/-- The fan-out handler reads back the channel id of a topic `channel:<id>`
when the id holds no colon. -/
theorem topicChannelId_of_no_colon (channelId : String) (h : ':' ∉ channelId.data) :
    topicChannelId ("channel:" ++ channelId) = some channelId := by
  unfold topicChannelId
  have hdata : ("channel:" ++ channelId).data =
      'c' :: 'h' :: 'a' :: 'n' :: 'n' :: 'e' :: 'l' :: ':' :: channelId.data := rfl
  have hpre : "channel:".data = ['c', 'h', 'a', 'n', 'n', 'e', 'l', ':'] := rfl
  rw [hdata, hpre]
  simp [jsSplit, jsSplit_of_not_mem ':' channelId.data h, List.isPrefixOf]

theorem onBusMessage_of_set (r : Registry) (channel message channelId : String)
    (sockets : JsSet Nat) (htopic : topicChannelId channel = some channelId)
    (hset : r.channelSockets.get channelId = some sockets) :
    onBusMessage r channel message =
      { r with sockets :=
          sockets.elems.foldl (fun all socket => sendIfOpen all socket message) r.sockets } := by
  unfold onBusMessage
  rw [htopic]
  simp only [hset]

/-- When the fan-out handler finds a set of sockets under the channel id that
it reads from the topic, every socket of the set whose `readyState` is 1
is sent the message once, as it is, and every socket of the set whose
`readyState` is not 1 is sent nothing, wherever it sits in the set; the
sockets outside the set, the registry and the bus are untouched. -/
theorem fanout_skips_closed (r : Registry) (channel message channelId : String)
    (sockets : JsSet Nat) (htopic : topicChannelId channel = some channelId)
    (hset : r.channelSockets.get channelId = some sockets) (hnodup : sockets.elems.Nodup) :
    (∀ (i : Nat) (k : WsSocket), r.sockets.get? i = some k →
      (onBusMessage r channel message).sockets.get? i =
        some (if i ∈ sockets.elems ∧ k.readyState = 1 then
                { k with sent := k.sent ++ [message] }
              else k)) ∧
    (onBusMessage r channel message).sockets.length = r.sockets.length ∧
    (onBusMessage r channel message).channelSockets = r.channelSockets ∧
    (onBusMessage r channel message).bus = r.bus := by
  rw [onBusMessage_of_set r channel message channelId sockets htopic hset]
  refine ⟨?_, ?_, rfl, rfl⟩
  · intro i k hk
    show (List.foldl _ r.sockets sockets.elems).get? i = _
    have h := get?_foldl_modify
      (fun k : WsSocket => if k.readyState = 1 then { k with sent := k.sent ++ [message] } else k)
      sockets.elems hnodup r.sockets i
    unfold sendIfOpen
    rw [h, hk]
    by_cases hi : i ∈ sockets.elems
    · by_cases ho : k.readyState = 1
      · simp [hi, ho]
      · simp [hi, ho]
    · simp [hi]
  · have hlen : ∀ (L : List Nat) (l : List WsSocket),
        (L.foldl (fun all socket => sendIfOpen all socket message) l).length = l.length := by
      intro L
      induction L with
      | nil => intro l; rfl
      | cons j L ih =>
        intro l
        rw [List.foldl_cons, ih]
        unfold sendIfOpen
        rw [List.length_modify]
    exact hlen _ _

theorem fanout_skips_closed_witness :
    (onBusMessage mixedRegistry "channel:c1" "hello").sockets.get? 1 =
        some (if 1 ∈ ([0, 1, 2] : List Nat) ∧ (2 : Nat) = 1 then
                { readyState := 2, sent := [] ++ ["hello"], closes := [] }
              else { readyState := 2, sent := [], closes := [] }) ∧
    (onBusMessage mixedRegistry "channel:c1" "hello").sockets.get? 2 =
        some (if 2 ∈ ([0, 1, 2] : List Nat) ∧ (1 : Nat) = 1 then
                { readyState := 1, sent := [] ++ ["hello"], closes := [] }
              else { readyState := 1, sent := [], closes := [] }) :=
  have h := fanout_skips_closed mixedRegistry "channel:c1" "hello" "c1" ⟨[0, 1, 2]⟩ rfl rfl
    (by decide)
  ⟨h.1 1 { readyState := 2, sent := [], closes := [] } rfl,
   h.1 2 { readyState := 1, sent := [], closes := [] } rfl⟩

/-- C19 fails on the code: the handler takes the channel id of a topic to be
the text between the first and the second colon.  With socket 0 registered
under `a:b` and socket 1 under `a`, a message on `channel:a:b` is read as one
for `a`: socket 0 is sent nothing and socket 1 is sent the message. -/
theorem fanout_colon_id_misrouted :
    colonRegistry.channelSockets.entries = [("a:b", ⟨[0]⟩), ("a", ⟨[1]⟩)] ∧
    topicChannelId ("channel:" ++ "a:b") = some "a" ∧
    (onBusMessage colonRegistry ("channel:" ++ "a:b") "hello").sockets =
      [{ readyState := 1, sent := [], closes := [] },
       { readyState := 1, sent := ["hello"], closes := [] }] := by
  refine ⟨rfl, rfl, rfl⟩

/-- C20 fails on the code for a channel id that holds a colon: the OPEN socket 0
and the CLOSING socket 1 are registered under `a:b`, for which the topic
`channel:a:b` is subscribed.  For a message on that topic the handler looks up
`a`, finds no set, and the OPEN socket is sent nothing. -/
theorem fanout_colon_id_open_socket_unsent :
    colonMixedRegistry.channelSockets.entries = [("a:b", ⟨[0, 1]⟩)] ∧
    colonMixedRegistry.bus = [.subscribe "channel:a:b"] ∧
    colonMixedRegistry.sockets.map (fun k => (k.readyState, k.sent)) = [(1, []), (2, [])] ∧
    topicChannelId "channel:a:b" = some "a" ∧
    colonMixedRegistry.channelSockets.get "a" = none ∧
    (onBusMessage colonMixedRegistry "channel:a:b" "hello").sockets.map
        (fun k => (k.readyState, k.sent)) = [(1, []), (2, [])] := by
  refine ⟨rfl, rfl, rfl, rfl, rfl, rfl⟩

/-! ## Listeners of a feed -/

theorem removeLast_nodup (l : List Nat) (x : Nat) (h : l.Nodup) : (removeLast l x).Nodup := by
  unfold removeLast
  rw [List.nodup_reverse]
  exact (List.nodup_reverse.mpr h).erase x

theorem mem_removeLast (l : List Nat) (x j : Nat) (h : j ∈ removeLast l x) : j ∈ l := by
  unfold removeLast at h
  rw [List.mem_reverse] at h
  exact List.mem_reverse.mp (List.mem_of_mem_erase h)

theorem not_mem_removeLast (l : List Nat) (x : Nat) (h : l.Nodup) : x ∉ removeLast l x := by
  unfold removeLast
  rw [List.mem_reverse]
  exact (List.nodup_reverse.mpr h).not_mem_erase

theorem dataListeners_createPreviewProcess (rendererUrl : String) (s : State) (sid : String)
    (e : Nat) :
    (createPreviewProcess rendererUrl s sid).2.dataListeners e = s.dataListeners e := by
  cases hget : s.activePreviews.get sid with
  | some preview => rw [createPreviewProcess_of_some rendererUrl s sid preview hget]; rfl
  | none =>
    rw [createPreviewProcess_of_none rendererUrl s sid hget]
    unfold State.dataListeners
    show (match (s.emitters ++ [_]).get? e with
      | some e => e.dataListeners
      | none => []) = _
    rw [List.get?_eq_getElem?, List.get?_eq_getElem?]
    rcases Nat.lt_trichotomy e s.emitters.length with hlt | heq | hgt
    · rw [List.getElem?_append_left hlt]
    · subst heq
      simp
    · rw [List.getElem?_eq_none (by simp; omega), List.getElem?_eq_none (by omega)]

theorem dataListeners_stopPreviewProcess (s : State) (sid : String) (emitter : Option Nat)
    (e : Nat) : (stopPreviewProcess s sid emitter).dataListeners e = s.dataListeners e := by
  unfold stopPreviewProcess
  split
  · rfl
  · split <;> rfl

theorem dataListeners_removeDataListener (s : State) (e i e' : Nat) :
    (s.removeDataListener e i).dataListeners e' =
      if e' = e then removeLast (s.dataListeners e') i else s.dataListeners e' := by
  unfold State.removeDataListener State.dataListeners
  simp only [List.get?_eq_getElem?, List.getElem?_modify]
  by_cases h : e' = e
  · subst h
    cases s.emitters[e']? with
    | none => simp [removeLast]
    | some em => simp
  · have h' : ¬ e = e' := fun hh => h hh.symm
    cases s.emitters[e']? with
    | none => simp [h]
    | some em => simp [h, h']

theorem dataListeners_onData (s : State) (e i e' : Nat) :
    (s.onData e i).dataListeners e' =
      if e' = e ∧ e < s.emitters.length then s.dataListeners e' ++ [i]
      else s.dataListeners e' := by
  unfold State.onData State.dataListeners
  simp only [List.get?_eq_getElem?, List.getElem?_modify]
  by_cases h : e' = e
  · subst h
    by_cases hlt : e' < s.emitters.length
    · rw [List.getElem?_eq_getElem hlt]
      simp [hlt]
    · rw [List.getElem?_eq_none (by omega)]
      simp [hlt]
  · have h' : ¬ e = e' := fun hh => h hh.symm
    cases s.emitters[e']? with
    | none => simp [h]
    | some em => simp [h, h']

/-! ## The invariant of the monitor endpoint -/

theorem MonitorInv.init : MonitorInv Monitor.init where
  listeners_nodup := by
    intro e
    show (State.dataListeners State.new e).Nodup
    simp [State.dataListeners, State.new]
  listeners_attached := by
    intro e i hi
    have : State.dataListeners State.new e = [] := by simp [State.dataListeners, State.new]
    change i ∈ State.dataListeners State.new e at hi
    rw [this] at hi
    cases hi

/-- The invariant carries over to a state with the same listeners whose
sockets kept what the handlers captured and whether they are disconnected. -/
theorem MonitorInv.transfer (m m' : Monitor) (h : MonitorInv m)
    (hl : ∀ e, m'.service.dataListeners e = m.service.dataListeners e)
    (hs : ∀ i k, m.sockets.get? i = some k →
      ∃ k', m'.sockets.get? i = some k' ∧ k'.attached = k.attached ∧
        k'.disconnected = k.disconnected) :
    MonitorInv m' where
  listeners_nodup := by
    intro e
    rw [hl]
    exact h.listeners_nodup e
  listeners_attached := by
    intro e i hi
    rw [hl] at hi
    obtain ⟨k, hk, ⟨sid, hatt⟩, hdis⟩ := h.listeners_attached e i hi
    obtain ⟨k', hk', hatt', hdis'⟩ := hs i k hk
    exact ⟨k', hk', ⟨sid, by rw [hatt', hatt]⟩, by rw [hdis', hdis]⟩

theorem previewData_sockets (m : Monitor) (h : MonitorInv m) (handle : Nat)
    (command : PreviewCommand) (chunk : Chunk)
    (hcmd : m.service.previewCommands.get? handle = some command) (i : Nat) (k : MonitorSocket)
    (hk : m.sockets.get? i = some k) :
    (previewData m handle chunk).sockets.get? i =
      some (if i ∈ m.service.dataListeners command.emitter ∧ k.readyState = 1 then
              { k with sent := k.sent ++ [chunk] }
            else k) := by
  unfold previewData
  rw [hcmd]
  show (List.foldl _ m.sockets (m.service.dataListeners command.emitter)).get? i = _
  have hf := get?_foldl_modify
    (fun k : MonitorSocket => if k.readyState = 1 then { k with sent := k.sent ++ [chunk] } else k)
    (m.service.dataListeners command.emitter) (h.listeners_nodup command.emitter) m.sockets i
  unfold onFrame
  rw [hf, hk]
  by_cases hi : i ∈ m.service.dataListeners command.emitter
  · by_cases ho : k.readyState = 1
    · simp [hi, ho]
    · simp [hi, ho]
  · simp [hi]

theorem previewData_service (m : Monitor) (handle : Nat) (chunk : Chunk) :
    (previewData m handle chunk).service = m.service := by
  unfold previewData
  split <;> rfl

theorem MonitorInv.chunk (m : Monitor) (h : MonitorInv m) (handle : Nat) (chunk : Chunk) :
    MonitorInv (previewData m handle chunk) := by
  cases hcmd : m.service.previewCommands.get? handle with
  | none =>
    unfold previewData
    rw [hcmd]
    exact h
  | some command =>
    refine MonitorInv.transfer m _ h (fun e => by rw [previewData_service]) ?_
    intro i k hk
    refine ⟨_, previewData_sockets m h handle command chunk hcmd i k hk, ?_, ?_⟩
    · split <;> rfl
    · split <;> rfl

theorem MonitorInv.close (m : Monitor) (h : MonitorInv m) (socket code : Nat)
    (reason : String) : MonitorInv (m.close socket code reason) := by
  refine MonitorInv.transfer m _ h (fun e => rfl) ?_
  intro i k hk
  unfold Monitor.close
  simp only [List.get?_eq_getElem?, List.getElem?_modify]
  rw [List.get?_eq_getElem?] at hk
  rw [hk]
  by_cases hi : socket = i
  · exact ⟨{ k with closes := k.closes ++ [(code, reason)] }, by simp [hi], rfl, rfl⟩
  · exact ⟨k, by simp [hi], rfl, rfl⟩

theorem MonitorInv.attach (m : Monitor) (h : MonitorInv m) (n e : Nat) (sid : String)
    (knew : MonitorSocket) (hnew : m.sockets.get? n = some knew) (hatt : knew.attached = none)
    (hdis : knew.disconnected = false) :
    MonitorInv
      { service := m.service.onData e n
        sockets := List.modify (fun k => { k with attached := some (sid, e) }) n m.sockets } := by
  have hfresh : ∀ e', n ∉ m.service.dataListeners e' := by
    intro e' hn
    obtain ⟨k, hk, ⟨sid', hatt'⟩, _⟩ := h.listeners_attached e' n hn
    rw [hnew] at hk
    cases hk
    rw [hatt] at hatt'
    cases hatt'
  constructor
  · intro e'
    show (State.dataListeners (m.service.onData e n) e').Nodup
    rw [dataListeners_onData]
    split
    · rw [List.nodup_append]
      refine ⟨h.listeners_nodup e', List.nodup_singleton _, ?_⟩
      intro x hx hx'
      simp only [List.mem_singleton] at hx'
      rw [hx'] at hx
      exact hfresh e' hx
    · exact h.listeners_nodup e'
  · intro e' i hi
    change i ∈ State.dataListeners (m.service.onData e n) e' at hi
    rw [dataListeners_onData] at hi
    show ∃ k, (List.modify _ n m.sockets).get? i = some k ∧ _
    have hold : i ∈ m.service.dataListeners e' →
        ∃ k, (List.modify (fun k : MonitorSocket => { k with attached := some (sid, e) }) n
          m.sockets).get? i = some k ∧ (∃ sid, k.attached = some (sid, e')) ∧
          k.disconnected = false := by
      intro hi'
      obtain ⟨k, hk, hatt', hdis'⟩ := h.listeners_attached e' i hi'
      have hne : n ≠ i := fun hh => hfresh e' (hh ▸ hi')
      refine ⟨k, ?_, hatt', hdis'⟩
      rw [List.get?_eq_getElem?, List.getElem?_modify_ne _ _ hne, ← List.get?_eq_getElem?]
      exact hk
    split at hi
    · rename_i hcond
      rw [List.mem_append, List.mem_singleton] at hi
      rcases hi with hi | hi
      · exact hold hi
      · subst hi
        refine ⟨{ knew with attached := some (sid, e) }, ?_, ⟨sid, by rw [hcond.1]⟩, hdis⟩
        rw [List.get?_eq_getElem?, List.getElem?_modify_eq, ← List.get?_eq_getElem?, hnew]
        rfl
    · exact hold hi

theorem MonitorInv.connect (rendererUrl : String) (m : Monitor) (h : MonitorInv m)
    (channelId : Option String) (lookup : Except String (Option String)) :
    MonitorInv (Monitor.step rendererUrl m (.connect channelId lookup)) := by
  have h0 : MonitorInv
      { m with sockets := m.sockets ++
          [{ readyState := 1, sent := [], closes := [], attached := none,
             disconnected := false }] } := by
    refine MonitorInv.transfer m _ h (fun e => rfl) ?_
    intro i k hk
    refine ⟨k, ?_, rfl, rfl⟩
    show (m.sockets ++ _).get? i = some k
    have hlt : i < m.sockets.length := by
      rw [List.get?_eq_some] at hk
      exact hk.1
    rw [List.get?_eq_getElem?, List.getElem?_append_left hlt, ← List.get?_eq_getElem?]
    exact hk
  show MonitorInv (monitorHandler rendererUrl _ m.sockets.length channelId lookup)
  unfold monitorHandler
  split
  · exact MonitorInv.close _ h0 _ _ _
  · split
    · exact MonitorInv.close _ h0 _ _ _
    · exact MonitorInv.close _ h0 _ _ _
    · rename_i scenarioId
      cases hget : m.service.activePreviews.get scenarioId with
      | none =>
        have hc := createPreviewProcess_of_none rendererUrl m.service scenarioId hget
        simp only [hc]
        refine MonitorInv.close _ ?_ _ _ _
        refine MonitorInv.transfer _ _ h0 (fun e => ?_) (fun i k hk => ⟨k, hk, rfl, rfl⟩)
        have hl := dataListeners_createPreviewProcess rendererUrl m.service scenarioId e
        rw [hc] at hl
        exact hl
      | some preview =>
        have hc := createPreviewProcess_of_some rendererUrl m.service scenarioId preview hget
        have h1 : MonitorInv
            { service := (createPreviewProcess rendererUrl m.service scenarioId).2
              sockets := m.sockets ++
                [{ readyState := 1, sent := [], closes := [], attached := none,
                   disconnected := false }] } := by
          refine MonitorInv.transfer _ _ h0
            (fun e => dataListeners_createPreviewProcess rendererUrl m.service scenarioId e) ?_
          intro i k hk
          exact ⟨k, hk, rfl, rfl⟩
        rw [hc] at h1
        simp only [hc]
        exact MonitorInv.attach _ h1 m.sockets.length _ scenarioId
          { readyState := 1, sent := [], closes := [], attached := none, disconnected := false }
          (by show (m.sockets ++ _).get? m.sockets.length = _; simp) rfl rfl

theorem mark_sockets_ne (m : Monitor) (i j : Nat) (ev : TransportEvent) (hne : i ≠ j) :
    (m.mark i ev).sockets.get? j = m.sockets.get? j := by
  unfold Monitor.mark
  show (List.modify _ i m.sockets).get? j = _
  rw [List.get?_eq_getElem?, List.getElem?_modify_ne _ _ hne, ← List.get?_eq_getElem?]

theorem mark_attachedOf (m : Monitor) (i : Nat) (ev : TransportEvent) :
    (m.mark i ev).attachedOf i = m.attachedOf i := by
  unfold Monitor.attachedOf Monitor.mark
  show ((List.modify _ i m.sockets).get? i).bind _ = _
  rw [List.get?_eq_getElem?, List.getElem?_modify_eq, List.get?_eq_getElem?]
  cases m.sockets[i]? <;> rfl

theorem attachedOf_of_get? (m : Monitor) (i : Nat) (k : MonitorSocket)
    (hk : m.sockets.get? i = some k) : m.attachedOf i = k.attached := by
  unfold Monitor.attachedOf
  rw [hk]
  rfl

theorem MonitorInv.detach (m : Monitor) (h : MonitorInv m) (i : Nat) (ev : TransportEvent) :
    MonitorInv (monitorOnClose (m.mark i ev) i) := by
  unfold monitorOnClose
  rw [mark_attachedOf]
  cases hatt : m.attachedOf i with
  | none =>
    show MonitorInv (m.mark i ev)
    constructor
    · exact h.listeners_nodup
    · intro e' j hj
      obtain ⟨k, hk, hatt', hdis'⟩ := h.listeners_attached e' j hj
      have hne : i ≠ j := by
        rintro rfl
        obtain ⟨sid', hs⟩ := hatt'
        rw [attachedOf_of_get? m i k hk, hs] at hatt
        cases hatt
      exact ⟨k, by rw [mark_sockets_ne m i j ev hne]; exact hk, hatt', hdis'⟩
  | some a =>
    obtain ⟨sid, e⟩ := a
    show MonitorInv
      { m.mark i ev with service :=
          stopPreviewProcess ((m.mark i ev).service.removeDataListener e i) sid (some e) }
    have hl : ∀ e', State.dataListeners
        (stopPreviewProcess ((m.mark i ev).service.removeDataListener e i) sid (some e)) e' =
        if e' = e then removeLast (m.service.dataListeners e') i
        else m.service.dataListeners e' := by
      intro e'
      rw [dataListeners_stopPreviewProcess, dataListeners_removeDataListener]
      rfl
    constructor
    · intro e'
      show (State.dataListeners _ e').Nodup
      rw [hl]
      split
      · exact removeLast_nodup _ _ (h.listeners_nodup e')
      · exact h.listeners_nodup e'
    · intro e' j hj
      change j ∈ State.dataListeners _ e' at hj
      rw [hl] at hj
      have hj' : j ∈ m.service.dataListeners e' := by
        split at hj
        · exact mem_removeLast _ _ _ hj
        · exact hj
      obtain ⟨k, hk, hatt', hdis'⟩ := h.listeners_attached e' j hj'
      have hne : i ≠ j := by
        rintro rfl
        obtain ⟨sid', hs⟩ := hatt'
        rw [attachedOf_of_get? m i k hk, hs] at hatt
        cases hatt
        rw [if_pos rfl] at hj
        exact not_mem_removeLast _ _ (h.listeners_nodup _) hj
      exact ⟨k, by show (m.mark i ev).sockets.get? j = _; rw [mark_sockets_ne m i j ev hne]; exact hk,
        hatt', hdis'⟩

theorem MonitorInv.of_step (rendererUrl : String) (m : Monitor) (a : MonitorAction)
    (h : MonitorInv m) : MonitorInv (Monitor.step rendererUrl m a) := by
  cases a with
  | connect channelId lookup => exact MonitorInv.connect rendererUrl m h channelId lookup
  | transport socket event =>
    cases event with
    | error => exact MonitorInv.detach m h socket .error
    | close => exact MonitorInv.detach m h socket .close
  | chunk handle data => exact MonitorInv.chunk m h handle data
  | processError handle err =>
    simp only [Monitor.step]
    split
    · exact h
    · refine MonitorInv.transfer m _ h ?_ (fun i k hk => ⟨k, hk, rfl, rfl⟩)
      intro e
      show State.dataListeners (previewErrorObserver _ _ m.service err).2 e = _
      unfold previewErrorObserver
      split <;> rfl
  | processEnd handle =>
    simp only [Monitor.step]
    split
    · exact h
    · exact MonitorInv.transfer m _ h (fun e => rfl) (fun i k hk => ⟨k, hk, rfl, rfl⟩)

theorem MonitorInv.of_run (rendererUrl : String) (actions : List MonitorAction) :
    ∀ m : Monitor, MonitorInv m → MonitorInv (Monitor.run rendererUrl m actions) := by
  induction actions with
  | nil => intro m h; exact h
  | cons a rest ih =>
    intro m h
    exact ih _ (MonitorInv.of_step rendererUrl m a h)

/-! ## Broadcast of preview chunks -/

theorem previewDataAll_sockets (handle : Nat) (command : PreviewCommand)
    (chunks : List Chunk) :
    ∀ (m : Monitor), MonitorInv m →
      m.service.previewCommands.get? handle = some command →
      ∀ (i : Nat) (k : MonitorSocket), m.sockets.get? i = some k →
        (previewDataAll m handle chunks).sockets.get? i =
          some (if i ∈ m.service.dataListeners command.emitter ∧ k.readyState = 1 then
                  { k with sent := k.sent ++ chunks }
                else k) := by
  induction chunks with
  | nil =>
    intro m _ _ i k hk
    show m.sockets.get? i = _
    rw [hk]
    split <;> simp
  | cons c cs ih =>
    intro m h hcmd i k hk
    have hstep : previewDataAll m handle (c :: cs) =
        previewDataAll (previewData m handle c) handle cs := rfl
    have hsvc := previewData_service m handle c
    have hk' := previewData_sockets m h handle command c hcmd i k hk
    rw [hstep, ih (previewData m handle c) (MonitorInv.chunk m h handle c)
      (by rw [hsvc]; exact hcmd) i _ hk', hsvc]
    by_cases hcond : i ∈ m.service.dataListeners command.emitter ∧ k.readyState = 1
    · simp [hcond]
    · simp only [hcond, if_false]

theorem previewDataAll_service (handle : Nat) (chunks : List Chunk) :
    ∀ m : Monitor, (previewDataAll m handle chunks).service = m.service := by
  induction chunks with
  | nil => intro m; rfl
  | cons c cs ih =>
    intro m
    show (previewDataAll (previewData m handle c) handle cs).service = _
    rw [ih, previewData_service]

theorem previewDataAll_of_none (handle : Nat) (chunks : List Chunk) :
    ∀ m : Monitor, m.service.previewCommands.get? handle = none →
      previewDataAll m handle chunks = m := by
  induction chunks with
  | nil => intro m _; rfl
  | cons c cs ih =>
    intro m h
    have hstep : previewData m handle c = m := by
      unfold previewData
      rw [h]
    show previewDataAll (previewData m handle c) handle cs = m
    rw [hstep]
    exact ih m h

/-! ## What the monitor endpoint reaches -/

theorem attached_modify (f : MonitorSocket → MonitorSocket)
    (hf : ∀ k, (f k).attached = k.attached ∧ (f k).sent = k.sent) (i : Nat)
    (l : List MonitorSocket) (h : ∀ k ∈ l, k.attached = none ∧ k.sent = []) :
    ∀ k ∈ List.modify f i l, k.attached = none ∧ k.sent = [] := by
  intro k hk
  obtain ⟨j, hj⟩ := List.mem_iff_getElem?.mp hk
  rw [List.getElem?_modify] at hj
  cases hl : l[j]? with
  | none => rw [hl] at hj; cases hj
  | some k0 =>
    rw [hl] at hj
    have hk0 := h k0 (List.mem_iff_getElem?.mpr ⟨j, hl⟩)
    simp only [Option.map_eq_map, Option.map_some', Option.some.injEq] at hj
    rw [← hj]
    split
    · rw [(hf k0).1, (hf k0).2]; exact hk0
    · exact hk0

theorem Unattached.at_init : Unattached Monitor.init where
  service := NoPreview.at_new
  sockets := by intro k hk; cases hk
  listeners := by
    intro e
    show State.dataListeners State.new e = []
    simp [State.dataListeners, State.new]

theorem Unattached.after_close (m : Monitor) (h : Unattached m) (socket code : Nat)
    (reason : String) : Unattached (m.close socket code reason) where
  service := h.service
  sockets := by
    show ∀ k ∈ List.modify _ socket m.sockets, _
    exact attached_modify _ (by intro _; exact ⟨rfl, rfl⟩) _ _ h.sockets
  listeners := h.listeners

theorem Unattached.mark (m : Monitor) (h : Unattached m) (socket : Nat)
    (event : TransportEvent) : Unattached (m.mark socket event) where
  service := h.service
  sockets := by
    show ∀ k ∈ List.modify _ socket m.sockets, _
    exact attached_modify _ (by intro _; exact ⟨rfl, rfl⟩) _ _ h.sockets
  listeners := h.listeners

theorem Unattached.attachedOf (m : Monitor) (h : Unattached m) (socket : Nat) :
    m.attachedOf socket = none := by
  unfold Monitor.attachedOf
  cases hk : m.sockets.get? socket with
  | none => rfl
  | some k => exact (h.sockets k (List.get?_mem hk)).1

theorem Unattached.transport (m : Monitor) (h : Unattached m) (socket : Nat)
    (event : TransportEvent) :
    Monitor.step "" m (.transport socket event) = m.mark socket event := by
  have hm := Unattached.attachedOf _ (Unattached.mark m h socket event) socket
  cases event with
  | error =>
    show monitorOnError (m.mark socket .error) socket = _
    unfold monitorOnError
    rw [hm]
  | close =>
    show monitorOnClose (m.mark socket .close) socket = _
    unfold monitorOnClose
    rw [hm]

theorem Unattached.after_connect (rendererUrl : String) (m : Monitor) (h : Unattached m)
    (channelId : Option String) (lookup : Except String (Option String)) :
    Unattached (Monitor.step rendererUrl m (.connect channelId lookup)) := by
  have h0 : Unattached
      { m with sockets := m.sockets ++
          [{ readyState := 1, sent := [], closes := [], attached := none,
             disconnected := false }] } := by
    refine ⟨h.service, ?_, h.listeners⟩
    intro k hk
    rcases List.mem_append.mp hk with hk | hk
    · exact h.sockets k hk
    · rw [List.mem_singleton] at hk
      rw [hk]
      exact ⟨rfl, rfl⟩
  show Unattached (monitorHandler rendererUrl _ m.sockets.length channelId lookup)
  unfold monitorHandler
  split
  · exact Unattached.after_close _ h0 _ _ _
  · split
    · exact Unattached.after_close _ h0 _ _ _
    · exact Unattached.after_close _ h0 _ _ _
    · rename_i scenarioId
      have hc := createPreviewProcess_of_none rendererUrl m.service scenarioId
        (h.service.get_none m.service scenarioId)
      have h1 : Unattached
          { service := (createPreviewProcess rendererUrl m.service scenarioId).2
            sockets := m.sockets ++
              [{ readyState := 1, sent := [], closes := [], attached := none,
                 disconnected := false }] } :=
        ⟨(NoPreview.after_create rendererUrl m.service scenarioId h.service).2, h0.sockets,
          fun e => (dataListeners_createPreviewProcess rendererUrl m.service scenarioId e).trans
            (h.listeners e)⟩
      rw [hc] at h1
      simp only [hc]
      exact Unattached.after_close _ h1 _ _ _

theorem Unattached.keeps_step (rendererUrl : String) (m : Monitor) (a : MonitorAction)
    (h : Unattached m) : Unattached (Monitor.step rendererUrl m a) := by
  cases a with
  | connect channelId lookup => exact Unattached.after_connect rendererUrl m h channelId lookup
  | transport socket event =>
    have ht : Monitor.step rendererUrl m (.transport socket event) =
        Monitor.step "" m (.transport socket event) := by
      cases event <;> rfl
    rw [ht, Unattached.transport m h socket event]
    exact Unattached.mark m h socket event
  | chunk handle data =>
    show Unattached (previewData m handle data)
    unfold previewData
    rw [h.service.commands]
    exact h
  | processError handle err =>
    simp only [Monitor.step, h.service.commands]
    exact h
  | processEnd handle =>
    simp only [Monitor.step, h.service.commands]
    exact h

theorem Unattached.keeps_run (rendererUrl : String) (actions : List MonitorAction) :
    ∀ m : Monitor, Unattached m → Unattached (Monitor.run rendererUrl m actions) := by
  induction actions with
  | nil => intro m h; exact h
  | cons a rest ih =>
    intro m h
    exact ih _ (Unattached.keeps_step rendererUrl m a h)

theorem Unattached.attachedTo (m : Monitor) (h : Unattached m) (emitter : Nat) :
    m.attachedTo emitter = 0 := by
  unfold Monitor.attachedTo
  rw [List.length_eq_zero, List.filter_eq_nil_iff]
  intro k hk
  rw [(h.sockets k hk).1]
  simp

/-- C15: in every state reached through `/ws/monitor` (connections, `error`
and `close` events of the transport in any order, chunks and exit callbacks of
preview processes), the `clientCount` of every stored session equals the number
of monitor sockets attached to its feed that have not disconnected, and an
`error` or `close` of a socket, late or repeated, leaves the service as it was.
It holds because nothing is ever counted: `createPreviewProcess` throws at
`vcodec`, the handler closes the socket with 1011 and registers no listener, so
no session is stored and no socket is attached. -/
theorem monitor_count_matches_attached (rendererUrl : String) (actions : List MonitorAction) :
    (∀ e ∈ (Monitor.run rendererUrl Monitor.init actions).service.activePreviews.entries,
      e.2.clientCount = (Monitor.run rendererUrl Monitor.init actions).attachedTo e.2.emitter) ∧
    (∀ sid : String,
      (Monitor.run rendererUrl Monitor.init actions).service.clientCount sid = none) ∧
    (∀ emitter : Nat, (Monitor.run rendererUrl Monitor.init actions).attachedTo emitter = 0) ∧
    (∀ k ∈ (Monitor.run rendererUrl Monitor.init actions).sockets, k.attached = none) ∧
    (∀ (socket : Nat) (event : TransportEvent),
      (Monitor.step rendererUrl (Monitor.run rendererUrl Monitor.init actions)
        (.transport socket event)).service =
        (Monitor.run rendererUrl Monitor.init actions).service) := by
  have h := Unattached.keeps_run rendererUrl actions Monitor.init Unattached.at_init
  refine ⟨?_, ?_, Unattached.attachedTo _ h, fun k hk => (h.sockets k hk).1, ?_⟩
  · intro e he
    rw [h.service.sessions] at he
    cases he
  · intro sid
    unfold State.clientCount
    rw [h.service.get_none _ sid]
    rfl
  · intro socket event
    have ht : Monitor.step rendererUrl (Monitor.run rendererUrl Monitor.init actions)
        (.transport socket event) =
        Monitor.step "" (Monitor.run rendererUrl Monitor.init actions)
          (.transport socket event) := by
      cases event <;> rfl
    rw [ht, Unattached.transport _ h socket event]
    rfl

theorem monitor_count_matches_attached_witness :
    (Monitor.run "http://localhost:5000" Monitor.init doubleDetachTrace).service.clientCount
        "s1" = none ∧
    (Monitor.run "http://localhost:5000" Monitor.init doubleDetachTrace).attachedTo 0 = 0 :=
  ⟨(monitor_count_matches_attached "http://localhost:5000" doubleDetachTrace).2.1 "s1",
   (monitor_count_matches_attached "http://localhost:5000" doubleDetachTrace).2.2.1 0⟩

/-- C18: in every state the monitor endpoint reaches, when a preview process
outputs chunks, each socket whose `data` listener is registered on the feed of
that process and whose `readyState` is 1 is sent every chunk once, in the order
produced; every other socket is sent nothing, whatever the state of the sockets
before it in the listener list; and a socket on which `close` or `error` has
been delivered has no `data` listener left on any feed, so it is sent no
chunk.  The service itself is not changed by the chunks.  In the states the
endpoint reaches no preview process exists (`createPreviewProcess` throws at
`vcodec`), so no chunk is produced there and no socket is sent one. -/
theorem preview_broadcast (rendererUrl : String) (actions : List MonitorAction) (handle : Nat)
    (chunks : List Chunk) (i : Nat) (k : MonitorSocket)
    (hk : (Monitor.run rendererUrl Monitor.init actions).sockets.get? i = some k) :
    (previewDataAll (Monitor.run rendererUrl Monitor.init actions) handle chunks).sockets.get? i =
      some
        (match (Monitor.run rendererUrl Monitor.init actions).service.previewCommands.get?
            handle with
         | some command =>
           if i ∈ (Monitor.run rendererUrl Monitor.init actions).service.dataListeners
                 command.emitter ∧ k.readyState = 1 then
             { k with sent := k.sent ++ chunks }
           else k
         | none => k) ∧
    (k.disconnected = true →
      (∀ e, i ∉ (Monitor.run rendererUrl Monitor.init actions).service.dataListeners e) ∧
      (previewDataAll (Monitor.run rendererUrl Monitor.init actions) handle chunks).sockets.get?
        i = some k) ∧
    (previewDataAll (Monitor.run rendererUrl Monitor.init actions) handle chunks).service =
      (Monitor.run rendererUrl Monitor.init actions).service ∧
    (Monitor.run rendererUrl Monitor.init actions).service.previewCommands = [] ∧
    k.sent = [] := by
  have hinv := MonitorInv.of_run rendererUrl actions Monitor.init MonitorInv.init
  have hun := Unattached.keeps_run rendererUrl actions Monitor.init Unattached.at_init
  have hnot : k.disconnected = true →
      ∀ e, i ∉ (Monitor.run rendererUrl Monitor.init actions).service.dataListeners e := by
    intro hdis e hi
    obtain ⟨k', hk', _, hdis'⟩ := hinv.listeners_attached e i hi
    rw [hk] at hk'
    cases hk'
    rw [hdis] at hdis'
    cases hdis'
  have hall : (previewDataAll (Monitor.run rendererUrl Monitor.init actions) handle
      chunks).sockets.get? i =
      some
        (match (Monitor.run rendererUrl Monitor.init actions).service.previewCommands.get?
            handle with
         | some command =>
           if i ∈ (Monitor.run rendererUrl Monitor.init actions).service.dataListeners
                 command.emitter ∧ k.readyState = 1 then
             { k with sent := k.sent ++ chunks }
           else k
         | none => k) := by
    cases hcmd : (Monitor.run rendererUrl Monitor.init actions).service.previewCommands.get?
        handle with
    | none =>
      rw [previewDataAll_of_none handle chunks _ hcmd]
      exact hk
    | some command => exact previewDataAll_sockets handle command chunks _ hinv hcmd i k hk
  refine ⟨hall, ?_, previewDataAll_service handle chunks _, hun.service.commands, ?_⟩
  · intro hdis
    refine ⟨hnot hdis, ?_⟩
    rw [hall]
    cases hcmd : (Monitor.run rendererUrl Monitor.init actions).service.previewCommands.get?
        handle with
    | none => rfl
    | some command =>
      show some (if _ then _ else k) = some k
      rw [if_neg (fun hc => hnot hdis _ hc.1)]
  · exact (hun.sockets k (List.get?_mem hk)).2

theorem preview_broadcast_witness :
    (previewDataAll (Monitor.run "http://localhost:5000" Monitor.init broadcastTrace) 0
        [[255, 216], [255, 217]]).sockets.get? 1 =
      some { readyState := 1, sent := [], closes := [(1011, vcodecError.message)],
             attached := none, disconnected := false } :=
  (preview_broadcast "http://localhost:5000" broadcastTrace 0 [[255, 216], [255, 217]] 1
    { readyState := 1, sent := [], closes := [(1011, vcodecError.message)], attached := none,
      disconnected := false } rfl).1

/-! ## The life cycle of a channel -/

/-- C30: `start()` throws exactly when the status is neither IDLE nor STOPPED and
`stop()` exactly when it is not RUNNING; a call that throws leaves the object
as it was; a successful `start()` sets the status to RUNNING and a successful
`stop()` to STOPPED, with every other field kept; `canStart()` and `canStop()`
are never both true. -/
theorem channel_start_stop (c : Channel) :
    ((c.status ≠ "IDLE" ∧ c.status ≠ "STOPPED") →
      c.start = (.error ("Cannot start channel in " ++ c.status ++ " state"), c)) ∧
    ((c.status = "IDLE" ∨ c.status = "STOPPED") →
      c.start = (.ok (), { c with status := "RUNNING" })) ∧
    ((∃ message, c.start.1 = .error message) ↔ (c.status ≠ "IDLE" ∧ c.status ≠ "STOPPED")) ∧
    (c.status ≠ "RUNNING" →
      c.stop = (.error ("Cannot stop channel in " ++ c.status ++ " state"), c)) ∧
    (c.status = "RUNNING" → c.stop = (.ok (), { c with status := "STOPPED" })) ∧
    ((∃ message, c.stop.1 = .error message) ↔ c.status ≠ "RUNNING") ∧
    ¬ (c.canStart = true ∧ c.canStop = true) := by
  have hstart_bad : (c.status ≠ "IDLE" ∧ c.status ≠ "STOPPED") →
      c.start = (.error ("Cannot start channel in " ++ c.status ++ " state"), c) := by
    intro h
    unfold Channel.start Channel.canStart
    simp [h.1, h.2]
  have hstart_ok : (c.status = "IDLE" ∨ c.status = "STOPPED") →
      c.start = (.ok (), { c with status := "RUNNING" }) := by
    intro h
    unfold Channel.start Channel.canStart
    rcases h with h | h <;> simp [h]
  have hstop_bad : c.status ≠ "RUNNING" →
      c.stop = (.error ("Cannot stop channel in " ++ c.status ++ " state"), c) := by
    intro h
    unfold Channel.stop Channel.canStop
    simp [h]
  have hstop_ok : c.status = "RUNNING" → c.stop = (.ok (), { c with status := "STOPPED" }) := by
    intro h
    unfold Channel.stop Channel.canStop
    simp [h]
  refine ⟨hstart_bad, hstart_ok, ⟨?_, fun h => ⟨_, by rw [hstart_bad h]⟩⟩, hstop_bad, hstop_ok,
    ⟨?_, fun h => ⟨_, by rw [hstop_bad h]⟩⟩, ?_⟩
  · rintro ⟨message, hm⟩
    by_contra hn
    have hok : c.status = "IDLE" ∨ c.status = "STOPPED" := by
      by_cases h1 : c.status = "IDLE"
      · exact Or.inl h1
      · by_cases h2 : c.status = "STOPPED"
        · exact Or.inr h2
        · exact absurd ⟨h1, h2⟩ hn
    rw [hstart_ok hok] at hm
    cases hm
  · rintro ⟨message, hm⟩ hrun
    rw [hstop_ok hrun] at hm
    cases hm
  · rintro ⟨h1, h2⟩
    unfold Channel.canStop at h2
    unfold Channel.canStart at h1
    have hrun : c.status = "RUNNING" := by simpa using h2
    rw [hrun] at h1
    revert h1
    decide

theorem channel_start_stop_witness :
    demoChannel.start = (.ok (), { demoChannel with status := "RUNNING" }) ∧
    demoChannel.stop = (.error ("Cannot stop channel in " ++ "IDLE" ++ " state"), demoChannel) :=
  ⟨(channel_start_stop demoChannel).2.1 (Or.inl rfl),
   (channel_start_stop demoChannel).2.2.2.1 (by decide)⟩

/-! ## Late exit callbacks -/

/-- C28 fails on the code: after a stop and a new successful start of the same
channel, the late `error` (or `end`) callback of the first process deletes the
entry of the second: `getStreamInfo` is `null` and a further `startStream`
succeeds and spawns a third process. -/
theorem late_exit_removes_successor :
    ((World.run "http://localhost:5000" World.init
        ((lateExitTrace (.error killedBySigterm)).take 3)).map
      (fun w => w.service.activeStreams.entries)) = some [("c1", 1)] ∧
    ((World.run "http://localhost:5000" World.init (lateExitTrace (.error killedBySigterm))).map
      (fun w => (w.service.activeStreams.entries, getStreamInfo w.service "c1",
        (startStream "http://localhost:5000" w.service demoChannel "rtmp://localhost/live").2.commands.length))) =
      some ([], none, 3) ∧
    ((World.run "http://localhost:5000" World.init (lateExitTrace .end_)).map
      (fun w => (w.service.activeStreams.entries, getStreamInfo w.service "c1"))) =
      some ([], none) := by
  refine ⟨rfl, rfl, rfl⟩

theorem PreviewWorld.run_noPreview (rendererUrl : String) (actions : List PreviewAction) :
    ∀ (w0 w : PreviewWorld), PreviewWorld.run rendererUrl w0 actions = some w →
      NoPreview w0.service → NoPreview w.service := by
  induction actions with
  | nil =>
    intro w0 w hrun h
    simp only [PreviewWorld.run, Option.some.injEq] at hrun
    rw [← hrun]
    exact h
  | cons a rest ih =>
    intro w0 w hrun h
    simp only [PreviewWorld.run] at hrun
    split at hrun
    · exact ih _ w hrun (NoPreview.keeps_previewStep rendererUrl w0.service a h)
    · cases hrun

/-- C29: in every state reached from server start by calls of
`createPreviewProcess` and `stopPreviewProcess`, listener registrations and
exit callbacks of preview processes, every live preview process (spawned, not
signalled, exit not reported) is the command of the session stored under its
scenario id.  It holds because no preview process is ever spawned: every
`createPreviewProcess` throws at `vcodec`, so no scenario has a live process
or a session. -/
theorem live_preview_has_session (rendererUrl : String) (actions : List PreviewAction)
    (w : PreviewWorld)
    (hrun : PreviewWorld.run rendererUrl PreviewWorld.init actions = some w) (sid : String) :
    (∀ handle ∈ w.live sid, w.service.sessionCommand sid = some handle) ∧
    w.live sid = [] ∧
    w.service.sessionCommand sid = none ∧
    w.service.previewCommands = [] := by
  have h := PreviewWorld.run_noPreview rendererUrl actions _ w hrun NoPreview.at_new
  have hlive : w.live sid = [] := by
    unfold PreviewWorld.live
    rw [h.commands]
    rfl
  refine ⟨?_, hlive, ?_, h.commands⟩
  · intro handle hh
    rw [hlive] at hh
    cases hh
  · unfold State.sessionCommand
    rw [h.get_none w.service sid]
    rfl

theorem live_preview_has_session_witness :
    PreviewWorld.live
        { service :=
            { State.new with
              emitters :=
                [{ dataListeners := [], errorListeners := 0 },
                 { dataListeners := [], errorListeners := 0 }] }
          reported := [] } "s1" = [] :=
  (live_preview_has_session "http://localhost:5000" reattachTrace
    { service :=
        { State.new with
          emitters :=
            [{ dataListeners := [], errorListeners := 0 },
             { dataListeners := [], errorListeners := 0 }] }
      reported := [] } rfl "s1").2.1

/-! ## Configuration -/

theorem nodeEnv_production_iff (env : Env) :
    (Config.ofEnv env).nodeEnv = "production" ↔ env.NODE_ENV = some "production" := by
  show orDefault env.NODE_ENV "development" = "production" ↔ _
  unfold orDefault
  cases env.NODE_ENV with
  | none => simp
  | some v =>
    by_cases hv : v = ""
    · subst hv; simp
    · simp [hv]

theorem validate_of_complete (env : Env) (h : env.complete) :
    (Config.ofEnv env).validate = .ok () := by
  obtain ⟨hdb, hprod⟩ := h
  have hmissing : (Config.ofEnv env).missing = [] := by
    unfold Config.missing
    have : (Config.ofEnv env).databaseUrl = env.DATABASE_URL := rfl
    simp [this, hdb]
  unfold Config.validate
  rw [hmissing]
  by_cases hp : (Config.ofEnv env).nodeEnv = "production"
  · obtain ⟨h1, h2⟩ := hprod ((nodeEnv_production_iff env).mp hp)
    simp [hp, h1, h2]
  · simp [hp]

theorem validate_of_not_complete (env : Env) (h : ¬ env.complete) :
    ∃ message, (Config.ofEnv env).validate = .error message := by
  unfold Config.validate
  by_cases hdb : env.DATABASE_URL.getD "" = ""
  · have hmissing : (Config.ofEnv env).missing = ["databaseUrl"] := by
      unfold Config.missing
      have : (Config.ofEnv env).databaseUrl = env.DATABASE_URL := rfl
      simp [this, hdb]
    rw [hmissing]
    exact ⟨"Missing required environment variables: " ++ ", ".intercalate ["databaseUrl"],
      by simp⟩
  · have hmissing : (Config.ofEnv env).missing = [] := by
      unfold Config.missing
      have : (Config.ofEnv env).databaseUrl = env.DATABASE_URL := rfl
      simp [this, hdb]
    rw [hmissing]
    have hprod : env.NODE_ENV = some "production" ∧
        ¬ ((Config.ofEnv env).jwtSecret ≠ "change-this-in-production" ∧
          (Config.ofEnv env).cookieSecret ≠ "change-this-in-production") := by
      by_contra hc
      apply h
      refine ⟨hdb, fun hp => ?_⟩
      by_contra hc'
      exact hc ⟨hp, hc'⟩
    have hp := (nodeEnv_production_iff env).mpr hprod.1
    by_cases hj : (Config.ofEnv env).jwtSecret = "change-this-in-production"
    · exact ⟨"JWT_SECRET must be set in production", by simp [hp, hj]⟩
    · by_cases hk : (Config.ofEnv env).cookieSecret = "change-this-in-production"
      · exact ⟨"COOKIE_SECRET must be set in production", by simp [hp, hj, hk]⟩
      · exact absurd ⟨hj, hk⟩ hprod.2

/-- C25: in every environment where DATABASE_URL is set and non-empty and, when
NODE_ENV is production, `jwtSecret` and `cookieSecret` both differ from the
placeholder, loading the configuration succeeds and the port is the PORT
variable when that is set and non-empty and 3000 otherwise, so it is defined;
in every other environment `validate()` throws, and it throws in no
environment of the first kind. -/
theorem config_load (env : Env) :
    (env.complete →
      loadConfig env = .ok (Config.ofEnv env) ∧
      (Config.ofEnv env).port =
        (if env.PORT.getD "" = "" then JsValue.number 3000
         else JsValue.string (env.PORT.getD "")) ∧
      (Config.ofEnv env).port ≠ JsValue.undefined) ∧
    (¬ env.complete →
      ∃ message, (Config.ofEnv env).validate = .error message ∧
        loadConfig env = .error message) ∧
    ((∃ message, (Config.ofEnv env).validate = .error message) ↔ ¬ env.complete) := by
  have hport : (Config.ofEnv env).port =
      (if env.PORT.getD "" = "" then JsValue.number 3000
       else JsValue.string (env.PORT.getD "")) := by
    show (match env.PORT with
      | none => JsValue.number 3000
      | some v => if v = "" then JsValue.number 3000 else JsValue.string v) = _
    cases env.PORT with
    | none => simp
    | some v => by_cases hv : v = "" <;> simp [hv]
  refine ⟨fun h => ⟨?_, hport, ?_⟩, fun h => ?_, ⟨fun ⟨message, hm⟩ hc => ?_, fun h => ?_⟩⟩
  · unfold loadConfig
    rw [validate_of_complete env h]
  · rw [hport]
    split <;> simp
  · obtain ⟨message, hm⟩ := validate_of_not_complete env h
    refine ⟨message, hm, ?_⟩
    unfold loadConfig
    rw [hm]
  · rw [validate_of_complete env hc] at hm
    cases hm
  · exact validate_of_not_complete env h

theorem config_load_witness :
    loadConfig devEnv = .ok (Config.ofEnv devEnv) ∧
    (∃ message, (Config.ofEnv prodEnvNoSecrets).validate = .error message ∧
      loadConfig prodEnvNoSecrets = .error message) :=
  ⟨((config_load devEnv).1 ⟨by decide, by decide⟩).1,
   (config_load prodEnvNoSecrets).2.1 (fun h => absurd rfl (h.2 rfl).1)⟩

/-! ## Use cases -/

/-- C26 fails on the code: `startChannelStream` persists the status RUNNING
before it calls `startStream`.  For the idle channel `c2`, which has no active
scenario, the call fails with "No active scenario found", yet the persisted
status has changed from IDLE to RUNNING while the supervisor holds no job for
the channel; a second call is then refused because of that status. -/
theorem failed_start_persists_running :
    demoApp.db.channelStatus "c2" = some "IDLE" ∧
    (startChannelStream "http://localhost:5000" demoApp "c2" "rtmp://localhost/live").1 =
      .error "No active scenario found for channel c2" ∧
    (startChannelStream "http://localhost:5000" demoApp "c2"
      "rtmp://localhost/live").2.db.channelStatus "c2" = some "RUNNING" ∧
    getStreamInfo (startChannelStream "http://localhost:5000" demoApp "c2"
      "rtmp://localhost/live").2.service "c2" = none ∧
    (startChannelStream "http://localhost:5000"
      (startChannelStream "http://localhost:5000" demoApp "c2" "rtmp://localhost/live").2
      "c2" "rtmp://localhost/live").1 =
      .error "Channel cannot be started in RUNNING state" := by
  refine ⟨rfl, rfl, rfl, rfl, rfl⟩

theorem find_map_scenarios (f : ScenarioRecord → ScenarioRecord)
    (hid : ∀ s, (f s).id = s.id) (l : List ScenarioRecord) (id : String) :
    (l.map f).find? (fun s => decide (s.id = id)) =
      (l.find? (fun s => decide (s.id = id))).map f := by
  induction l with
  | nil => rfl
  | cons s rest ih =>
    by_cases hs : s.id = id
    · have hs' : (f s).id = id := by rw [hid, hs]
      rw [List.map_cons, List.find?_cons_of_pos _ (by simpa using hs'),
        List.find?_cons_of_pos _ (by simpa using hs)]
      rfl
    · have hs' : ¬ (f s).id = id := by rw [hid]; exact hs
      rw [List.map_cons, List.find?_cons_of_neg _ (by simpa using hs'),
        List.find?_cons_of_neg _ (by simpa using hs)]
      exact ih

theorem findScenarioById_after_activate (db : Database) (channelId id id' : String) :
    ((db.deactivateAllByChannel channelId).updateScenarioActive id true).findScenarioById id' =
      (db.findScenarioById id').map (fun s =>
        if s.id = id then { s with isActive := true }
        else if s.channelId = channelId then { s with isActive := false }
        else s) := by
  unfold Database.findScenarioById Database.updateScenarioActive Database.deactivateAllByChannel
  simp only
  rw [find_map_scenarios _ (fun s => by split <;> rfl),
    find_map_scenarios _ (fun s => by split <;> rfl)]
  cases List.find? (fun s => decide (s.id = id')) db.scenarios with
  | none => rfl
  | some s =>
    simp only [Option.map_some']
    congr 1
    by_cases h1 : s.channelId = channelId
    · by_cases h2 : s.id = id <;> simp [h1, h2]
    · by_cases h2 : s.id = id <;> simp [h1, h2]

/-- C27: when the scenario exists, `activateScenario(id)` completes, after it
the scenario found under `id` is active, every other scenario of the same
channel is found inactive, and every scenario of another channel is found as
it was before; no scenario changes its channel. -/
theorem activateScenario_effect (db : Database) (id : String) (scenario : ScenarioRecord)
    (hfind : db.findScenarioById id = some scenario) :
    (activateScenario db id).1 = .ok { scenario with isActive := true } ∧
    (activateScenario db id).2.findScenarioById id = some { scenario with isActive := true } ∧
    (∀ (id' : String) (other : ScenarioRecord), id' ≠ id →
      db.findScenarioById id' = some other → other.channelId = scenario.channelId →
      (activateScenario db id).2.findScenarioById id' = some { other with isActive := false }) ∧
    (∀ (id' : String) (other : ScenarioRecord),
      db.findScenarioById id' = some other → other.channelId ≠ scenario.channelId →
      (activateScenario db id).2.findScenarioById id' = some other) ∧
    (∀ id' : String, db.findScenarioById id' = none →
      (activateScenario db id).2.findScenarioById id' = none) ∧
    (activateScenario db id).2.channels = db.channels := by
  have hsid : scenario.id = id := by
    unfold Database.findScenarioById at hfind
    simpa using List.find?_some hfind
  have hafter := findScenarioById_after_activate db scenario.channelId id
  have hself : ((db.deactivateAllByChannel scenario.channelId).updateScenarioActive id
      true).findScenarioById id = some { scenario with isActive := true } := by
    rw [hafter id, hfind]
    simp [hsid]
  have hact : activateScenario db id =
      (.ok { scenario with isActive := true },
        (db.deactivateAllByChannel scenario.channelId).updateScenarioActive id true) := by
    unfold activateScenario
    rw [hfind]
    simp only
    rw [hself]
  rw [hact]
  refine ⟨rfl, hself, ?_, ?_, ?_, rfl⟩
  · intro id' other hne hother hch
    have hoid : other.id = id' := by
      unfold Database.findScenarioById at hother
      simpa using List.find?_some hother
    have hne' : ¬ other.id = id := by rw [hoid]; exact hne
    show Database.findScenarioById _ id' = _
    rw [hafter id', hother]
    simp [hne', hch]
  · intro id' other hother hch
    have hoid : other.id = id' := by
      unfold Database.findScenarioById at hother
      simpa using List.find?_some hother
    have hne' : ¬ other.id = id := by
      intro h
      have : id' = id := hoid.symm.trans h
      subst this
      rw [hfind] at hother
      cases hother
      exact hch rfl
    show Database.findScenarioById _ id' = _
    rw [hafter id', hother]
    simp [hne', hch]
  · intro id' hnone
    show Database.findScenarioById _ id' = _
    rw [hafter id', hnone]
    rfl

theorem activateScenario_effect_witness :
    (activateScenario demoApp.db "s3").2.findScenarioById "s3" =
      some { id := "s3", channelId := "c1", isActive := true } ∧
    (activateScenario demoApp.db "s3").2.findScenarioById "s1" =
      some { id := "s1", channelId := "c1", isActive := false } :=
  have h := activateScenario_effect demoApp.db "s3"
    { id := "s3", channelId := "c1", isActive := false } rfl
  ⟨h.2.1, h.2.2.1 "s1" { id := "s1", channelId := "c1", isActive := true } (by decide) rfl rfl⟩

/-! ## The handler of `/ws` -/

theorem JsSet.mem_add (s : JsSet Nat) (n i : Nat) :
    i ∈ (s.add n).elems ↔ i ∈ s.elems ∨ i = n := by
  unfold JsSet.add JsSet.has
  by_cases h : s.elems.contains n = true
  · rw [if_pos h]
    have hn : n ∈ s.elems := by simpa using h
    constructor
    · exact fun hi => Or.inl hi
    · rintro (hi | rfl)
      · exact hi
      · exact hn
  · rw [if_neg h]
    simp

theorem JsSet.mem_delete_elems (s : JsSet Nat) (n i : Nat) :
    i ∈ (s.delete n).elems ↔ i ∈ s.elems ∧ i ≠ n := by
  unfold JsSet.delete
  simp

theorem JsMap.get_ne_none_of_has {V : Type} (m : JsMap String V) (k : String)
    (h : m.has k = true) : ∃ v, m.get k = some v := by
  cases hg : m.get k with
  | some v => exact ⟨v, rfl⟩
  | none =>
    rw [JsMap.has_false_of_get_eq_none m k hg] at h
    cases h

theorem registerSocket_of_has (r : Registry) (channelId : String) (socket : Nat)
    (sockets : JsSet Nat) (hv : r.channelSockets.get channelId = some sockets) :
    registerSocket r channelId socket =
      { r with channelSockets := r.channelSockets.set channelId (sockets.add socket) } := by
  have h := JsMap.has_true_of_get_eq_some _ _ _ hv
  unfold registerSocket
  simp only [h, if_true, hv]

theorem registerSocket_of_not_has (r : Registry) (channelId : String) (socket : Nat)
    (hf : r.channelSockets.has channelId = false) :
    registerSocket r channelId socket =
      { r with
        channelSockets :=
          (r.channelSockets.set channelId JsSet.empty).set channelId
            ((JsSet.empty : JsSet Nat).add socket)
        bus := r.bus ++ [.subscribe ("channel:" ++ channelId)] } := by
  have hg := JsMap.get_set_self r.channelSockets channelId (JsSet.empty : JsSet Nat)
  unfold registerSocket
  simp only [hf, Bool.false_eq_true, if_false, hg]

theorem registerSocket_get_self (r : Registry) (channelId : String) (socket : Nat) :
    (registerSocket r channelId socket).channelSockets.get channelId =
      some (((r.channelSockets.get channelId).getD JsSet.empty).add socket) := by
  cases hv : r.channelSockets.get channelId with
  | some sockets =>
    rw [registerSocket_of_has r channelId socket sockets hv]
    exact JsMap.get_set_self _ _ _
  | none =>
    rw [registerSocket_of_not_has r channelId socket (JsMap.has_false_of_get_eq_none _ _ hv)]
    exact JsMap.get_set_self _ _ _

theorem registerSocket_get_ne (r : Registry) (channelId other : String) (socket : Nat)
    (hne : other ≠ channelId) :
    (registerSocket r channelId socket).channelSockets.get other =
      r.channelSockets.get other := by
  cases hv : r.channelSockets.get channelId with
  | some sockets =>
    rw [registerSocket_of_has r channelId socket sockets hv]
    exact JsMap.get_set_ne _ _ _ _ hne
  | none =>
    rw [registerSocket_of_not_has r channelId socket (JsMap.has_false_of_get_eq_none _ _ hv)]
    show (JsMap.set _ channelId _).get other = _
    rw [JsMap.get_set_ne _ _ _ _ hne, JsMap.get_set_ne _ _ _ _ hne]

theorem registerSocket_bus (r : Registry) (channelId : String) (socket : Nat) :
    (registerSocket r channelId socket).bus =
      if r.channelSockets.has channelId then r.bus
      else r.bus ++ [.subscribe ("channel:" ++ channelId)] := by
  cases hv : r.channelSockets.get channelId with
  | some sockets =>
    rw [registerSocket_of_has r channelId socket sockets hv,
      JsMap.has_true_of_get_eq_some _ _ _ hv]
    rfl
  | none =>
    have hf := JsMap.has_false_of_get_eq_none _ _ hv
    rw [registerSocket_of_not_has r channelId socket hf, hf]
    rfl

theorem registerSocket_sockets (r : Registry) (channelId : String) (socket : Nat) :
    (registerSocket r channelId socket).sockets = r.sockets := by
  cases hv : r.channelSockets.get channelId with
  | some sockets => rw [registerSocket_of_has r channelId socket sockets hv]
  | none =>
    rw [registerSocket_of_not_has r channelId socket (JsMap.has_false_of_get_eq_none _ _ hv)]

theorem mem_socketsOf_registerSocket (r : Registry) (channelId other : String)
    (socket i : Nat) :
    i ∈ (registerSocket r channelId socket).socketsOf other ↔
      (other = channelId ∧ (i ∈ r.socketsOf channelId ∨ i = socket)) ∨
      (other ≠ channelId ∧ i ∈ r.socketsOf other) := by
  unfold Registry.socketsOf
  by_cases hne : other = channelId
  · subst hne
    rw [registerSocket_get_self, JsSet.mem_add]
    cases r.channelSockets.get other <;> simp [JsSet.empty]
  · rw [registerSocket_get_ne r channelId other socket hne]
    simp [hne]

theorem resolveChannelId_of_neither (query : WsQuery)
    (lookup : Except String (Option String)) (hc : query.channelId.getD "" = "")
    (hs : query.scenarioId.getD "" = "") : resolveChannelId query lookup = .channel "" := by
  unfold resolveChannelId
  simp [hc, hs]

/-- C24, as the code has it: when `nodeEnv` is not `development`, a `/ws`
connection that gives neither a channel id nor a scenario id is closed with
code 1008 and `Missing channelId or scenarioId`; it is put in no set, no bus
call is made, no listener is registered and no upstream socket is opened.
When `nodeEnv` is `development` the handler opens the upstream socket to the
Vite server for it instead. -/
theorem ws_reject_missing_ids (nodeEnv : String) (r : Registry) (socket : Nat)
    (query : WsQuery) (lookup : Except String (Option String))
    (hc : query.channelId.getD "" = "") (hs : query.scenarioId.getD "" = "") :
    (nodeEnv ≠ "development" →
      wsHandler nodeEnv r socket query lookup =
        r.closeSocket socket 1008 "Missing channelId or scenarioId" ∧
      (wsHandler nodeEnv r socket query lookup).channelSockets = r.channelSockets ∧
      (wsHandler nodeEnv r socket query lookup).bus = r.bus ∧
      (∀ k, r.sockets.get? socket = some k →
        (wsHandler nodeEnv r socket query lookup).sockets.get? socket =
          some { k with closes := k.closes ++ [(1008, "Missing channelId or scenarioId")] })) ∧
    (nodeEnv = "development" →
      wsHandler nodeEnv r socket query lookup = r.proxy socket) := by
  constructor
  · intro henv
    have h : wsHandler nodeEnv r socket query lookup =
        r.closeSocket socket 1008 "Missing channelId or scenarioId" := by
      unfold wsHandler
      rw [resolveChannelId_of_neither query lookup hc hs]
      simp [henv]
    rw [h]
    refine ⟨rfl, rfl, rfl, ?_⟩
    intro k hk
    unfold Registry.closeSocket
    show (List.modify _ socket r.sockets).get? socket = _
    rw [List.get?_eq_getElem?, List.getElem?_modify_eq, ← List.get?_eq_getElem?, hk]
    rfl
  · intro henv
    unfold wsHandler
    rw [resolveChannelId_of_neither query lookup hc hs]
    simp [henv]

theorem ws_reject_missing_ids_witness :
    wsHandler "production" oneSocket 0 { channelId := none, scenarioId := none } (.ok none) =
      oneSocket.closeSocket 0 1008 "Missing channelId or scenarioId" :=
  ((ws_reject_missing_ids "production" oneSocket 0 { channelId := none, scenarioId := none }
    (.ok none) rfl rfl).1 (by decide)).1

/-- C24, as stated, fails: with `nodeEnv` equal to `development` a connection
that gives neither id is not closed; the handler opens an upstream socket to
the Vite server for it. -/
theorem ws_missing_ids_proxied_in_development :
    (wsHandler "development" oneSocket 0 { channelId := none, scenarioId := none }
      (.ok none)).sockets =
      [{ readyState := 1, sent := [], closes := [], listening := none, proxied := true,
         closed := false }] := by
  rfl

/-- C22 fails on the code for a channel id that holds a colon: socket 0,
registered under `a:b`, sends a message that parses; it is published once, on
`channel:a:b`; when the bus delivers it, the fan-out handler looks up `a`:
socket 2, registered under `a:b`, is sent nothing and socket 1, registered
only under `a`, is sent the message.  A message that does not parse leaves the
registry as it was. -/
theorem ws_message_colon_id_misrouted :
    colonClients.channelSockets.entries = [("a:b", ⟨[0, 2]⟩), ("a", ⟨[1]⟩)] ∧
    (wsOnMessage Json.braces colonClients 0 eventMessage).bus =
      colonClients.bus ++ [.publish "channel:a:b" eventMessage] ∧
    (onBusMessage (wsOnMessage Json.braces colonClients 0 eventMessage)
      "channel:a:b" eventMessage).sockets.map (fun k => k.sent) =
      [[], [eventMessage], []] ∧
    wsOnMessage Json.braces colonClients 0 "EVENT_1" = colonClients := by
  refine ⟨rfl, rfl, rfl, rfl⟩

theorem wsHandler_of_channel (nodeEnv : String) (r : Registry) (socket : Nat)
    (query : WsQuery) (lookup : Except String (Option String)) (channelId : String)
    (hres : resolveChannelId query lookup = .channel channelId) (hne : channelId ≠ "") :
    wsHandler nodeEnv r socket query lookup =
      (registerSocket r channelId socket).listen socket channelId := by
  unfold wsHandler
  rw [hres]
  simp [hne]

theorem wsHandler_of_rejected (nodeEnv : String) (r : Registry) (socket : Nat)
    (query : WsQuery) (lookup : Except String (Option String)) (code : Nat) (reason : String)
    (hres : resolveChannelId query lookup = .rejected code reason) :
    wsHandler nodeEnv r socket query lookup = r.closeSocket socket code reason := by
  unfold wsHandler
  rw [hres]

theorem listeningOf_listen (r : Registry) (socket : Nat) (channelId : String) (k : WsSocket)
    (hk : r.sockets.get? socket = some k) :
    (r.listen socket channelId).listeningOf socket = some channelId := by
  unfold Registry.listeningOf Registry.listen
  show ((List.modify _ socket r.sockets).get? socket).bind _ = _
  rw [List.get?_eq_getElem?, List.getElem?_modify_eq, ← List.get?_eq_getElem?, hk]
  rfl

/-- The message listener of a socket registered under a channel id publishes a
message that parses once, on the topic of that id, and drops any other. -/
theorem wsOnMessage_effect (json : Json) (r : Registry) (socket : Nat) (channelId : String)
    (message : String) (hl : r.listeningOf socket = some channelId) (hne : channelId ≠ "") :
    (∀ data, json.parse message = some data →
      wsOnMessage json r socket message =
        { r with bus := r.bus ++ [.publish ("channel:" ++ channelId) (json.stringify data)] }) ∧
    (json.parse message = none → wsOnMessage json r socket message = r) := by
  constructor
  · intro data hd
    unfold wsOnMessage
    rw [hl]
    simp only [hd]
    simp [hne]
  · intro hd
    unfold wsOnMessage
    rw [hl]
    simp only [hd]

theorem not_mem_socketsOf_wsOnClose (r : Registry) (socket : Nat) (channelId : String)
    (hl : r.listeningOf socket = some channelId) (hne : channelId ≠ "") :
    socket ∉ (wsOnClose r socket).socketsOf channelId := by
  unfold wsOnClose
  rw [hl]
  simp only
  cases hg : r.channelSockets.get channelId with
  | none =>
    have hf := JsMap.has_false_of_get_eq_none _ _ hg
    simp only [hf, Bool.false_eq_true, and_false, if_false]
    unfold Registry.socketsOf
    rw [hg]
    simp
  | some sockets =>
    have ht := JsMap.has_true_of_get_eq_some _ _ _ hg
    simp only [ht, and_true, ne_eq, hne, not_false_eq_true, if_true]
    split
    · unfold Registry.socketsOf
      show socket ∉ (match (r.channelSockets.delete channelId).get channelId with
        | none => []
        | some sockets => sockets.elems)
      rw [JsMap.get_delete_self]
      simp
    · unfold Registry.socketsOf
      show socket ∉ (match (r.channelSockets.set channelId _).get channelId with
        | none => []
        | some sockets => sockets.elems)
      rw [JsMap.get_set_self]
      show socket ∉ (sockets.delete socket).elems
      rw [JsSet.mem_delete_elems]
      exact fun h => h.2 rfl

/-- C23: for a `/ws` connection that gives a scenario id and no channel id,
when the lookup finds the scenario the socket is put in the set of the
scenario's channel id and in no other, the bus subscription for that topic is
issued if the id had no entry, and the listeners capture that id: later
messages of the socket are published on its topic and its `close` removes it
from that set; when the lookup finds no scenario the socket is closed with
code 1008, and the sets and the bus stay as they were. -/
theorem ws_register_by_scenario (nodeEnv : String) (r : Registry) (socket : Nat)
    (k : WsSocket) (query : WsQuery) (hc : query.channelId.getD "" = "")
    (hs : query.scenarioId.getD "" ≠ "") (hk : r.sockets.get? socket = some k) :
    (∀ channelId : String, channelId ≠ "" →
      socket ∈ (wsHandler nodeEnv r socket query (.ok (some channelId))).socketsOf channelId ∧
      (∀ other, other ≠ channelId →
        (wsHandler nodeEnv r socket query (.ok (some channelId))).socketsOf other =
          r.socketsOf other) ∧
      (wsHandler nodeEnv r socket query (.ok (some channelId))).listeningOf socket =
        some channelId ∧
      (wsHandler nodeEnv r socket query (.ok (some channelId))).bus =
        (if r.channelSockets.has channelId then r.bus
         else r.bus ++ [.subscribe ("channel:" ++ channelId)]) ∧
      (∀ (json : Json) (message : String) (data : json.Value),
        json.parse message = some data →
        (wsOnMessage json (wsHandler nodeEnv r socket query (.ok (some channelId))) socket
          message).bus =
          (wsHandler nodeEnv r socket query (.ok (some channelId))).bus ++
            [.publish ("channel:" ++ channelId) (json.stringify data)]) ∧
      socket ∉ (wsOnClose (wsHandler nodeEnv r socket query (.ok (some channelId)))
        socket).socketsOf channelId) ∧
    (wsHandler nodeEnv r socket query (.ok none) =
        r.closeSocket socket 1008 "Scenario not found" ∧
      (wsHandler nodeEnv r socket query (.ok none)).channelSockets = r.channelSockets ∧
      (wsHandler nodeEnv r socket query (.ok none)).bus = r.bus ∧
      (wsHandler nodeEnv r socket query (.ok none)).sockets.get? socket =
        some { k with closes := k.closes ++ [(1008, "Scenario not found")] }) := by
  constructor
  · intro channelId hne
    have hres : resolveChannelId query (.ok (some channelId)) = .channel channelId := by
      unfold resolveChannelId
      simp [hc, hs]
    have hh := wsHandler_of_channel nodeEnv r socket query (.ok (some channelId)) channelId
      hres hne
    have hk' : (registerSocket r channelId socket).sockets.get? socket = some k := by
      rw [registerSocket_sockets]; exact hk
    have hl := listeningOf_listen (registerSocket r channelId socket) socket channelId k hk'
    rw [hh]
    refine ⟨?_, ?_, hl, ?_, ?_, ?_⟩
    · show socket ∈ (registerSocket r channelId socket).socketsOf channelId
      rw [mem_socketsOf_registerSocket]
      exact Or.inl ⟨rfl, Or.inr rfl⟩
    · intro other ho
      show (registerSocket r channelId socket).socketsOf other = _
      unfold Registry.socketsOf
      rw [registerSocket_get_ne r channelId other socket ho]
    · show (registerSocket r channelId socket).bus = _
      exact registerSocket_bus r channelId socket
    · intro json message data hd
      rw [(wsOnMessage_effect json _ socket channelId message hl hne).1 data hd]
    · exact not_mem_socketsOf_wsOnClose _ socket channelId hl hne
  · have hres : resolveChannelId query (.ok none) = .rejected 1008 "Scenario not found" := by
      unfold resolveChannelId
      simp [hc, hs]
    rw [wsHandler_of_rejected nodeEnv r socket query (.ok none) _ _ hres]
    refine ⟨rfl, rfl, rfl, ?_⟩
    unfold Registry.closeSocket
    show (List.modify _ socket r.sockets).get? socket = _
    rw [List.get?_eq_getElem?, List.getElem?_modify_eq, ← List.get?_eq_getElem?, hk]
    rfl

theorem ws_register_by_scenario_witness :
    (0 ∈ (wsHandler "production" oneSocket 0 { channelId := none, scenarioId := some "s1" }
        (.ok (some "c1"))).socketsOf "c1" ∧
      (wsHandler "production" oneSocket 0 { channelId := none, scenarioId := some "s1" }
        (.ok (some "c1"))).listeningOf 0 = some "c1") ∧
    wsHandler "production" oneSocket 0 { channelId := none, scenarioId := some "s1" } (.ok none) =
      oneSocket.closeSocket 0 1008 "Scenario not found" :=
  have h := ws_register_by_scenario "production" oneSocket 0 WsSocket.fresh
    { channelId := none, scenarioId := some "s1" } rfl (by decide) rfl
  ⟨⟨(h.1 "c1" (by decide)).1, (h.1 "c1" (by decide)).2.2.1⟩, h.2.1⟩

/-! ## The invariant of the registry -/

theorem subscribes_bus_append (r : Registry) (c : BusCall) (channelId : String) :
    Registry.subscribes { r with bus := r.bus ++ [c] } channelId =
      r.subscribes channelId + (if c = .subscribe ("channel:" ++ channelId) then 1 else 0) := by
  unfold Registry.subscribes
  by_cases h : c = .subscribe ("channel:" ++ channelId)
  · simp [List.filter_append, h]
  · simp [List.filter_append, h]

theorem unsubscribes_bus_append (r : Registry) (c : BusCall) (channelId : String) :
    Registry.unsubscribes { r with bus := r.bus ++ [c] } channelId =
      r.unsubscribes channelId +
        (if c = .unsubscribe ("channel:" ++ channelId) then 1 else 0) := by
  unfold Registry.unsubscribes
  by_cases h : c = .unsubscribe ("channel:" ++ channelId)
  · simp [List.filter_append, h]
  · simp [List.filter_append, h]

theorem has_iff_socketsOf (r : Registry) (h : ∀ e ∈ r.channelSockets.entries, e.2.elems ≠ [])
    (channelId : String) :
    r.channelSockets.has channelId = true ↔ ∃ socket, socket ∈ r.socketsOf channelId := by
  unfold Registry.socketsOf
  constructor
  · intro hh
    obtain ⟨v, hv⟩ := JsMap.get_ne_none_of_has _ _ hh
    rw [hv]
    have hne := h _ (JsMap.mem_of_get_eq_some _ _ _ hv)
    cases hl : v.elems with
    | nil => exact absurd hl hne
    | cons a rest => exact ⟨a, by simp [hl]⟩
  · rintro ⟨socket, hs⟩
    cases hg : r.channelSockets.get channelId with
    | none => rw [hg] at hs; cases hs
    | some v => exact JsMap.has_true_of_get_eq_some _ _ _ hg

theorem RegistryInv.at_start : RegistryInv (Registry.init []) where
  sets_nonempty := by intro e he; cases he
  balance := by intro channelId; rfl
  members := by
    intro channelId socket
    constructor
    · intro h; cases h
    · rintro ⟨k, hk, _⟩; cases hk
  listening_nonempty := by
    intro socket h
    cases h

/-- The invariant carries over to a registry with the same sets and bus calls
whose sockets kept their listeners and whether they are closed. -/
theorem RegistryInv.carry (r r' : Registry) (h : RegistryInv r)
    (hc : r'.channelSockets = r.channelSockets) (hb : r'.bus = r.bus)
    (hs : ∀ i, (r'.sockets.get? i).map (fun k => (k.listening, k.closed)) =
      (r.sockets.get? i).map (fun k => (k.listening, k.closed))) :
    RegistryInv r' := by
  have hreg : ∀ channelId socket, r'.registered channelId socket ↔
      r.registered channelId socket := by
    intro channelId socket
    have hsi := hs socket
    unfold Registry.registered
    constructor
    · rintro ⟨k, hk, hl, hcl⟩
      rw [hk] at hsi
      cases hk0 : r.sockets.get? socket with
      | none => rw [hk0] at hsi; cases hsi
      | some k0 =>
        rw [hk0] at hsi
        simp only [Option.map_some', Option.some.injEq, Prod.mk.injEq] at hsi
        exact ⟨k0, rfl, by rw [← hsi.1]; exact hl, by rw [← hsi.2]; exact hcl⟩
    · rintro ⟨k, hk, hl, hcl⟩
      rw [hk] at hsi
      cases hk0 : r'.sockets.get? socket with
      | none => rw [hk0] at hsi; cases hsi
      | some k0 =>
        rw [hk0] at hsi
        simp only [Option.map_some', Option.some.injEq, Prod.mk.injEq] at hsi
        exact ⟨k0, rfl, by rw [hsi.1]; exact hl, by rw [hsi.2]; exact hcl⟩
  constructor
  · rw [hc]; exact h.sets_nonempty
  · intro channelId
    have := h.balance channelId
    unfold Registry.subscribes Registry.unsubscribes at this ⊢
    rw [hb, hc]
    exact this
  · intro channelId socket
    rw [hreg]
    have := h.members channelId socket
    unfold Registry.socketsOf at this ⊢
    rw [hc]
    exact this
  · intro socket
    have hsi := hs socket
    have := h.listening_nonempty socket
    unfold Registry.listeningOf at this ⊢
    cases hk : r'.sockets.get? socket with
    | none => simp
    | some k =>
      rw [hk] at hsi
      cases hk0 : r.sockets.get? socket with
      | none => rw [hk0] at hsi; cases hsi
      | some k0 =>
        rw [hk0] at hsi this
        simp only [Option.map_some', Option.some.injEq, Prod.mk.injEq] at hsi
        show k.listening ≠ some ""
        rw [hsi.1]
        exact this

theorem JsMap.has_eq_isSome {V : Type} (m : JsMap String V) (k : String) :
    m.has k = (m.get k).isSome := by
  cases hg : m.get k with
  | none => rw [JsMap.has_false_of_get_eq_none m k hg]; rfl
  | some v => rw [JsMap.has_true_of_get_eq_some m k v hg]; rfl

theorem registered_of_sockets_eq (r r' : Registry) (h : r'.sockets = r.sockets)
    (channelId : String) (socket : Nat) :
    r'.registered channelId socket ↔ r.registered channelId socket := by
  unfold Registry.registered
  rw [h]

theorem registered_markClosed (r : Registry) (i : Nat) (channelId : String) (j : Nat) :
    (r.markClosed i).registered channelId j ↔ r.registered channelId j ∧ j ≠ i := by
  unfold Registry.registered Registry.markClosed
  show (∃ k, (List.modify _ i r.sockets).get? j = some k ∧ _) ↔ _
  by_cases hji : j = i
  · subst hji
    rw [List.get?_eq_getElem?, List.getElem?_modify_eq]
    constructor
    · rintro ⟨k, hk, _, hcl⟩
      cases hk0 : r.sockets[j]? with
      | none => rw [hk0] at hk; cases hk
      | some k0 =>
        rw [hk0] at hk
        simp only [Option.map_eq_map, Option.map_some', Option.some.injEq] at hk
        rw [← hk] at hcl
        cases hcl
    · rintro ⟨_, hne⟩
      exact absurd rfl hne
  · have hij : i ≠ j := fun h => hji h.symm
    rw [List.get?_eq_getElem?, List.getElem?_modify_ne _ _ hij, ← List.get?_eq_getElem?]
    simp [hji]

theorem listeningOf_markClosed (r : Registry) (i j : Nat) :
    (r.markClosed i).listeningOf j = r.listeningOf j := by
  unfold Registry.listeningOf Registry.markClosed
  show ((List.modify _ i r.sockets).get? j).bind _ = _
  rw [List.get?_eq_getElem?, List.get?_eq_getElem?, List.getElem?_modify]
  cases r.sockets[j]? with
  | none => rfl
  | some k => by_cases h : i = j <;> simp [h]

theorem registered_listening (r : Registry) (channelId : String) (socket : Nat)
    (h : r.registered channelId socket) : r.listeningOf socket = some channelId := by
  obtain ⟨k, hk, hl, _⟩ := h
  unfold Registry.listeningOf
  rw [hk]
  exact hl

theorem wsOnClose_of_none (r : Registry) (socket : Nat) (h : r.listeningOf socket = none) :
    wsOnClose r socket = r := by
  unfold wsOnClose
  rw [h]

theorem wsOnClose_of_no_entry (r : Registry) (socket : Nat) (channelId : String)
    (h : r.listeningOf socket = some channelId)
    (hg : r.channelSockets.get channelId = none) : wsOnClose r socket = r := by
  unfold wsOnClose
  rw [h]
  simp [JsMap.has_false_of_get_eq_none _ _ hg]

theorem wsOnClose_of_last (r : Registry) (socket : Nat) (channelId : String)
    (sockets : JsSet Nat) (h : r.listeningOf socket = some channelId) (hne : channelId ≠ "")
    (hg : r.channelSockets.get channelId = some sockets)
    (hsize : (sockets.delete socket).size = 0) :
    wsOnClose r socket =
      { r with channelSockets := r.channelSockets.delete channelId
               bus := r.bus ++ [.unsubscribe ("channel:" ++ channelId)] } := by
  unfold wsOnClose
  rw [h]
  simp [JsMap.has_true_of_get_eq_some _ _ _ hg, hne, hg, hsize]

theorem wsOnClose_of_more (r : Registry) (socket : Nat) (channelId : String)
    (sockets : JsSet Nat) (h : r.listeningOf socket = some channelId) (hne : channelId ≠ "")
    (hg : r.channelSockets.get channelId = some sockets)
    (hsize : (sockets.delete socket).size ≠ 0) :
    wsOnClose r socket =
      { r with channelSockets := r.channelSockets.set channelId (sockets.delete socket) } := by
  unfold wsOnClose
  rw [h]
  simp [JsMap.has_true_of_get_eq_some _ _ _ hg, hne, hg, hsize]

theorem RegistryInv.of_close (r : Registry) (h : RegistryInv r) (i : Nat) :
    RegistryInv (wsOnClose (r.markClosed i) i) := by
  have hlis : ∀ j, (r.markClosed i).listeningOf j = r.listeningOf j :=
    listeningOf_markClosed r i
  have hmem : ∀ channelId j, j ∈ (r.markClosed i).socketsOf channelId ↔
      r.registered channelId j := h.members
  cases hL : r.listeningOf i with
  | none =>
    rw [wsOnClose_of_none _ i (by rw [hlis]; exact hL)]
    refine ⟨h.sets_nonempty, h.balance, ?_, fun j => by rw [hlis]; exact h.listening_nonempty j⟩
    intro channelId j
    rw [registered_markClosed, hmem]
    constructor
    · intro hr
      refine ⟨hr, ?_⟩
      rintro rfl
      rw [registered_listening r channelId j hr] at hL
      cases hL
    · exact fun hr => hr.1
  | some X =>
    have hX : X ≠ "" := by
      intro hx
      exact h.listening_nonempty i (by rw [hL, hx])
    have hL1 : (r.markClosed i).listeningOf i = some X := by rw [hlis]; exact hL
    have hother : ∀ channelId, channelId ≠ X → ¬ r.registered channelId i := by
      intro channelId hne hr
      rw [registered_listening r channelId i hr] at hL
      cases hL
      exact hne rfl
    cases hg : r.channelSockets.get X with
    | none =>
      rw [wsOnClose_of_no_entry _ i X hL1 hg]
      refine ⟨h.sets_nonempty, h.balance, ?_,
        fun j => by rw [hlis]; exact h.listening_nonempty j⟩
      intro channelId j
      rw [registered_markClosed, hmem]
      constructor
      · intro hr
        refine ⟨hr, ?_⟩
        rintro rfl
        by_cases hc : channelId = X
        · subst hc
          have := (h.members channelId j).mpr hr
          unfold Registry.socketsOf at this
          rw [hg] at this
          cases this
        · exact hother channelId hc hr
      · exact fun hr => hr.1
    | some S =>
      have hSmem : ∀ j, j ∈ S.elems ↔ r.registered X j := by
        intro j
        have := h.members X j
        unfold Registry.socketsOf at this
        rw [hg] at this
        exact this
      by_cases hsize : (S.delete i).size = 0
      · rw [wsOnClose_of_last _ i X S hL1 hX hg hsize]
        have hempty : (S.delete i).elems = [] := by
          unfold JsSet.size at hsize
          exact List.length_eq_zero.mp hsize
        constructor
        · intro e he
          exact h.sets_nonempty e (JsMap.mem_delete _ _ _ he).1
        · intro channelId
          have hb := h.balance channelId
          show Registry.subscribes { r with bus := r.bus ++ [_] } channelId =
            Registry.unsubscribes { r with bus := r.bus ++ [_] } channelId +
              (if (r.channelSockets.delete X).has channelId then 1 else 0)
          rw [subscribes_bus_append, unsubscribes_bus_append]
          by_cases hc : channelId = X
          · subst hc
            rw [JsMap.has_true_of_get_eq_some _ _ _ hg] at hb
            rw [JsMap.has_delete_self]
            simp at hb ⊢
            omega
          · have hne : ¬ "channel:" ++ X = "channel:" ++ channelId :=
              fun hh => hc (channelTopic_injective _ _ hh).symm
            rw [JsMap.has_eq_isSome, JsMap.get_delete_ne _ _ _ hc, ← JsMap.has_eq_isSome]
            simp [hne]
            exact hb
        · intro channelId j
          show j ∈ (match (r.channelSockets.delete X).get channelId with
            | none => []
            | some sockets => sockets.elems) ↔ (r.markClosed i).registered channelId j
          rw [registered_markClosed]
          by_cases hc : channelId = X
          · subst hc
            rw [JsMap.get_delete_self]
            constructor
            · intro hj; cases hj
            · rintro ⟨hr, hji⟩
              have : j ∈ (S.delete i).elems := (JsSet.mem_delete_elems S i j).mpr
                ⟨(hSmem j).mpr hr, hji⟩
              rw [hempty] at this
              cases this
          · rw [JsMap.get_delete_ne _ _ _ hc]
            have := h.members channelId j
            unfold Registry.socketsOf at this
            rw [this]
            constructor
            · intro hr
              refine ⟨hr, ?_⟩
              rintro rfl
              exact hother channelId hc hr
            · exact fun hr => hr.1
        · intro j
          show (r.markClosed i).listeningOf j ≠ some ""
          rw [hlis]
          exact h.listening_nonempty j
      · rw [wsOnClose_of_more _ i X S hL1 hX hg hsize]
        constructor
        · intro e he
          rcases JsMap.mem_set _ _ _ _ he with rfl | ⟨he', _⟩
          · intro hnil
            apply hsize
            unfold JsSet.size
            rw [hnil]
            rfl
          · exact h.sets_nonempty e he'
        · intro channelId
          have hb := h.balance channelId
          show r.subscribes channelId = r.unsubscribes channelId +
            (if (r.channelSockets.set X (S.delete i)).has channelId then 1 else 0)
          by_cases hc : channelId = X
          · subst hc
            rw [JsMap.has_set_self]
            rw [JsMap.has_true_of_get_eq_some _ _ _ hg] at hb
            exact hb
          · rw [JsMap.has_eq_isSome, JsMap.get_set_ne _ _ _ _ hc, ← JsMap.has_eq_isSome]
            exact hb
        · intro channelId j
          show j ∈ (match (r.channelSockets.set X (S.delete i)).get channelId with
            | none => []
            | some sockets => sockets.elems) ↔ (r.markClosed i).registered channelId j
          rw [registered_markClosed]
          by_cases hc : channelId = X
          · subst hc
            rw [JsMap.get_set_self]
            show j ∈ (S.delete i).elems ↔ _
            rw [JsSet.mem_delete_elems, hSmem]
          · rw [JsMap.get_set_ne _ _ _ _ hc]
            have := h.members channelId j
            unfold Registry.socketsOf at this
            rw [this]
            constructor
            · intro hr
              refine ⟨hr, ?_⟩
              rintro rfl
              exact hother channelId hc hr
            · exact fun hr => hr.1
        · intro j
          show (r.markClosed i).listeningOf j ≠ some ""
          rw [hlis]
          exact h.listening_nonempty j

theorem RegistryInv.transfer_registered (r r' : Registry) (h : RegistryInv r)
    (hc : r'.channelSockets = r.channelSockets) (hb : r'.bus = r.bus)
    (hreg : ∀ channelId socket, r'.registered channelId socket ↔
      r.registered channelId socket)
    (hlis : ∀ socket, r'.listeningOf socket = r.listeningOf socket) :
    RegistryInv r' := by
  constructor
  · rw [hc]; exact h.sets_nonempty
  · intro channelId
    have := h.balance channelId
    unfold Registry.subscribes Registry.unsubscribes at this ⊢
    rw [hb, hc]
    exact this
  · intro channelId socket
    rw [hreg]
    have := h.members channelId socket
    unfold Registry.socketsOf at this ⊢
    rw [hc]
    exact this
  · intro socket
    rw [hlis]
    exact h.listening_nonempty socket

theorem get?_modify_map {α β : Type} (f : α → α) (g : α → β) (hfg : ∀ a, g (f a) = g a)
    (n : Nat) (l : List α) (i : Nat) :
    ((List.modify f n l).get? i).map g = (l.get? i).map g := by
  rw [List.get?_eq_getElem?, List.get?_eq_getElem?, List.getElem?_modify]
  cases l[i]? with
  | none => rfl
  | some a => by_cases h : n = i <;> simp [h, hfg]

theorem subscribes_of_bus_append (r r' : Registry) (c : BusCall) (hb : r'.bus = r.bus ++ [c])
    (channelId : String) :
    r'.subscribes channelId =
      r.subscribes channelId + (if c = .subscribe ("channel:" ++ channelId) then 1 else 0) := by
  rw [← subscribes_bus_append]
  unfold Registry.subscribes
  rw [hb]

theorem unsubscribes_of_bus_append (r r' : Registry) (c : BusCall)
    (hb : r'.bus = r.bus ++ [c]) (channelId : String) :
    r'.unsubscribes channelId =
      r.unsubscribes channelId +
        (if c = .unsubscribe ("channel:" ++ channelId) then 1 else 0) := by
  rw [← unsubscribes_bus_append]
  unfold Registry.unsubscribes
  rw [hb]

theorem subscribes_of_bus_eq (r r' : Registry) (hb : r'.bus = r.bus) (channelId : String) :
    r'.subscribes channelId = r.subscribes channelId ∧
    r'.unsubscribes channelId = r.unsubscribes channelId := by
  unfold Registry.subscribes Registry.unsubscribes
  rw [hb]
  exact ⟨rfl, rfl⟩

theorem registered_listen (r : Registry) (n : Nat) (X Y : String) (j : Nat) :
    (r.listen n X).registered Y j ↔
      (j = n ∧ Y = X ∧ ∃ k, r.sockets.get? n = some k ∧ k.closed = false) ∨
      (j ≠ n ∧ r.registered Y j) := by
  unfold Registry.registered Registry.listen
  show (∃ k, (List.modify _ n r.sockets).get? j = some k ∧ _) ↔ _
  by_cases hjn : j = n
  · subst hjn
    rw [List.get?_eq_getElem?, List.getElem?_modify_eq, List.get?_eq_getElem?]
    cases hk0 : r.sockets[j]? with
    | none => simp
    | some k0 =>
      simp only [Option.map_eq_map, Option.map_some', Option.some.injEq, true_and,
        ne_eq, not_true_eq_false, false_and, or_false]
      constructor
      · rintro ⟨k, rfl, hl, hcl⟩
        simp only [Option.some.injEq] at hl
        exact ⟨hl.symm, k0, rfl, hcl⟩
      · rintro ⟨rfl, k, hk, hcl⟩
        cases hk
        exact ⟨_, rfl, rfl, hcl⟩
  · have hnj : n ≠ j := fun h => hjn h.symm
    rw [List.get?_eq_getElem?, List.getElem?_modify_ne _ _ hnj, ← List.get?_eq_getElem?]
    simp [hjn]

theorem listeningOf_listen_ne (r : Registry) (n : Nat) (X : String) (j : Nat) (hjn : j ≠ n) :
    (r.listen n X).listeningOf j = r.listeningOf j := by
  unfold Registry.listeningOf Registry.listen
  show ((List.modify _ n r.sockets).get? j).bind _ = _
  rw [List.get?_eq_getElem?, List.getElem?_modify_ne _ _ (fun h => hjn h.symm),
    ← List.get?_eq_getElem?]

theorem RegistryInv.register (r : Registry) (h : RegistryInv r) (n : Nat) (k : WsSocket)
    (X : String) (hk : r.sockets.get? n = some k) (hl : k.listening = none)
    (hcl : k.closed = false) (hX : X ≠ "") :
    RegistryInv ((registerSocket r X n).listen n X) := by
  have hfresh : ∀ Y, ¬ r.registered Y n := by
    rintro Y ⟨k', hk', hl', _⟩
    rw [hk] at hk'
    cases hk'
    rw [hl] at hl'
    cases hl'
  have hsock := registerSocket_sockets r X n
  constructor
  · intro e he
    change e ∈ (registerSocket r X n).channelSockets.entries at he
    cases hv : r.channelSockets.get X with
    | some S =>
      rw [registerSocket_of_has r X n S hv] at he
      rcases JsMap.mem_set _ _ _ _ he with rfl | ⟨he', _⟩
      · intro hnil
        have : n ∈ (S.add n).elems := (JsSet.mem_add S n n).mpr (Or.inr rfl)
        rw [hnil] at this
        cases this
      · exact h.sets_nonempty e he'
    | none =>
      rw [registerSocket_of_not_has r X n (JsMap.has_false_of_get_eq_none _ _ hv)] at he
      rcases JsMap.mem_set _ _ _ _ he with rfl | ⟨he', hne⟩
      · intro hnil
        have : n ∈ ((JsSet.empty : JsSet Nat).add n).elems :=
          (JsSet.mem_add _ n n).mpr (Or.inr rfl)
        rw [hnil] at this
        cases this
      · rcases JsMap.mem_set _ _ _ _ he' with rfl | ⟨he'', _⟩
        · exact absurd rfl hne
        · exact h.sets_nonempty e he''
  · intro Y
    have hb := h.balance Y
    have hbus := registerSocket_bus r X n
    show Registry.subscribes ((registerSocket r X n).listen n X) Y =
      Registry.unsubscribes ((registerSocket r X n).listen n X) Y +
        (if (registerSocket r X n).channelSockets.has Y then 1 else 0)
    rw [JsMap.has_eq_isSome] at hb ⊢
    by_cases hc : Y = X
    · subst hc
      rw [registerSocket_get_self]
      cases hh : r.channelSockets.has Y with
      | true =>
        rw [hh] at hbus
        obtain ⟨s1, s2⟩ := subscribes_of_bus_eq r ((registerSocket r Y n).listen n Y) hbus Y
        rw [s1, s2]
        rw [← JsMap.has_eq_isSome, hh] at hb
        simpa using hb
      | false =>
        rw [hh] at hbus
        have hbus' : ((registerSocket r Y n).listen n Y).bus =
            r.bus ++ [.subscribe ("channel:" ++ Y)] := by simpa using hbus
        rw [subscribes_of_bus_append r _ _ hbus' Y, unsubscribes_of_bus_append r _ _ hbus' Y]
        rw [← JsMap.has_eq_isSome, hh] at hb
        simp at hb ⊢
        omega
    · rw [registerSocket_get_ne r X Y n hc]
      have hne : ¬ "channel:" ++ X = "channel:" ++ Y :=
        fun hh => hc (channelTopic_injective _ _ hh).symm
      cases hh : r.channelSockets.has X with
      | true =>
        rw [hh] at hbus
        obtain ⟨s1, s2⟩ := subscribes_of_bus_eq r ((registerSocket r X n).listen n X) hbus Y
        rw [s1, s2]
        exact hb
      | false =>
        rw [hh] at hbus
        have hbus' : ((registerSocket r X n).listen n X).bus =
            r.bus ++ [.subscribe ("channel:" ++ X)] := by simpa using hbus
        rw [subscribes_of_bus_append r _ _ hbus' Y, unsubscribes_of_bus_append r _ _ hbus' Y]
        simp [hne]
        exact hb
  · intro Y j
    show j ∈ (registerSocket r X n).socketsOf Y ↔ _
    rw [mem_socketsOf_registerSocket, registered_listen, hsock,
      registered_of_sockets_eq r (registerSocket r X n) hsock, h.members, h.members]
    constructor
    · rintro (⟨rfl, hr | rfl⟩ | ⟨hne, hr⟩)
      · by_cases hjn : j = n
        · subst hjn
          exact absurd hr (hfresh Y)
        · exact Or.inr ⟨hjn, hr⟩
      · exact Or.inl ⟨rfl, rfl, k, hk, hcl⟩
      · by_cases hjn : j = n
        · subst hjn
          exact absurd hr (hfresh Y)
        · exact Or.inr ⟨hjn, hr⟩
    · rintro (⟨rfl, rfl, _⟩ | ⟨hjn, hr⟩)
      · exact Or.inl ⟨rfl, Or.inr rfl⟩
      · by_cases hc : Y = X
        · subst hc
          exact Or.inl ⟨rfl, Or.inl hr⟩
        · exact Or.inr ⟨hc, hr⟩
  · intro j
    by_cases hjn : j = n
    · subst hjn
      rw [listeningOf_listen (registerSocket r X j) j X k (by rw [hsock]; exact hk)]
      intro hh
      cases hh
      exact hX rfl
    · rw [listeningOf_listen_ne _ n X j hjn]
      have := h.listening_nonempty j
      unfold Registry.listeningOf at this ⊢
      rw [hsock]
      exact this

theorem RegistryInv.of_connect (nodeEnv : String) (r : Registry) (h : RegistryInv r)
    (query : WsQuery) (lookup : Except String (Option String)) :
    RegistryInv (wsStep nodeEnv r (.connect query lookup)) := by
  have hget : ∀ j, j < r.sockets.length →
      (r.sockets ++ [WsSocket.fresh]).get? j = r.sockets.get? j := by
    intro j hj
    rw [List.get?_eq_getElem?, List.getElem?_append_left hj, ← List.get?_eq_getElem?]
  have hnew : (r.sockets ++ [WsSocket.fresh]).get? r.sockets.length = some WsSocket.fresh := by
    simp
  have hold : ∀ j, r.sockets.length ≤ j → r.sockets.get? j = none := by
    intro j hj
    rw [List.get?_eq_getElem?]
    exact List.getElem?_eq_none hj
  have hbig : ∀ j, r.sockets.length < j → (r.sockets ++ [WsSocket.fresh]).get? j = none := by
    intro j hj
    rw [List.get?_eq_getElem?]
    exact List.getElem?_eq_none (by simp; omega)
  have h0 : RegistryInv { r with sockets := r.sockets ++ [WsSocket.fresh] } := by
    refine RegistryInv.transfer_registered r _ h rfl rfl ?_ ?_
    · intro Y j
      unfold Registry.registered
      show (∃ k, (r.sockets ++ [WsSocket.fresh]).get? j = some k ∧ _) ↔ _
      rcases Nat.lt_trichotomy j r.sockets.length with hlt | heq | hgt
      · rw [hget j hlt]
      · subst heq
        rw [hnew, hold _ (le_refl _)]
        constructor
        · rintro ⟨k, hk, hl, _⟩
          cases hk
          cases hl
        · rintro ⟨k, hk, _⟩
          cases hk
      · rw [hbig j hgt, hold j (le_of_lt hgt)]
    · intro j
      unfold Registry.listeningOf
      show ((r.sockets ++ [WsSocket.fresh]).get? j).bind _ = _
      rcases Nat.lt_trichotomy j r.sockets.length with hlt | heq | hgt
      · rw [hget j hlt]
      · subst heq
        rw [hnew, hold _ (le_refl _)]
        rfl
      · rw [hbig j hgt, hold j (le_of_lt hgt)]
  have hsame : ∀ (f : WsSocket → WsSocket),
      (∀ a, ((f a).listening, (f a).closed) = (a.listening, a.closed)) →
      RegistryInv
        { r with sockets := List.modify f r.sockets.length (r.sockets ++ [WsSocket.fresh]) } := by
    intro f hf
    exact RegistryInv.carry _ _ h0 rfl rfl
      (fun i => get?_modify_map f (fun k => (k.listening, k.closed)) hf _ _ i)
  show RegistryInv (wsHandler nodeEnv _ r.sockets.length query lookup)
  unfold wsHandler
  split
  · exact hsame _ (fun a => rfl)
  · rename_i channelId _
    split
    · rename_i hne
      exact RegistryInv.register _ h0 r.sockets.length WsSocket.fresh channelId hnew rfl rfl hne
    · split
      · exact hsame _ (fun a => rfl)
      · exact hsame _ (fun a => rfl)

theorem RegistryInv.of_wsStep (nodeEnv : String) (r : Registry) (a : WsAction)
    (h : RegistryInv r) : RegistryInv (wsStep nodeEnv r a) := by
  cases a with
  | connect query lookup => exact RegistryInv.of_connect nodeEnv r h query lookup
  | close socket => exact RegistryInv.of_close r h socket

theorem RegistryInv.of_wsRun (nodeEnv : String) (actions : List WsAction) :
    ∀ r : Registry, RegistryInv r → RegistryInv (wsRun nodeEnv r actions) := by
  induction actions with
  | nil => intro r h; exact h
  | cons a rest ih =>
    intro r h
    exact ih _ (RegistryInv.of_wsStep nodeEnv r a h)

theorem wsStep_connect_bus (nodeEnv : String) (r : Registry) (X : String)
    (scenarioId : Option String) (lookup : Except String (Option String)) (hX : X ≠ "") :
    (wsStep nodeEnv r (.connect { channelId := some X, scenarioId := scenarioId } lookup)).bus =
      if r.channelSockets.has X then r.bus
      else r.bus ++ [.subscribe ("channel:" ++ X)] := by
  have hres : resolveChannelId { channelId := some X, scenarioId := scenarioId } lookup =
      .channel X := by
    unfold resolveChannelId
    simp [hX]
  show (wsHandler nodeEnv _ r.sockets.length _ lookup).bus = _
  rw [wsHandler_of_channel nodeEnv _ _ _ lookup X hres hX]
  exact registerSocket_bus _ X _

theorem wsStep_close_bus (nodeEnv : String) (r : Registry) (socket : Nat)
    (hne : r.listeningOf socket ≠ some "") :
    (wsStep nodeEnv r (.close socket)).bus =
      match r.listeningOf socket with
      | none => r.bus
      | some X =>
        if r.channelSockets.has X = true ∧
            (r.socketsOf X).filter (fun b => !decide (b = socket)) = [] then
          r.bus ++ [.unsubscribe ("channel:" ++ X)]
        else r.bus := by
  show (wsOnClose (r.markClosed socket) socket).bus = _
  have hlis := listeningOf_markClosed r socket socket
  cases hL : r.listeningOf socket with
  | none =>
    rw [wsOnClose_of_none _ socket (by rw [hlis]; exact hL)]
    rfl
  | some X =>
    have hX : X ≠ "" := by
      intro hx
      exact hne (by rw [hL, hx])
    have hL1 : (r.markClosed socket).listeningOf socket = some X := by rw [hlis]; exact hL
    simp only
    cases hg : r.channelSockets.get X with
    | none =>
      rw [wsOnClose_of_no_entry _ socket X hL1 hg, JsMap.has_false_of_get_eq_none _ _ hg]
      simp
      rfl
    | some S =>
      have hso : r.socketsOf X = S.elems := by
        unfold Registry.socketsOf
        rw [hg]
      rw [JsMap.has_true_of_get_eq_some _ _ _ hg, hso]
      by_cases hsize : (S.delete socket).size = 0
      · rw [wsOnClose_of_last _ socket X S hL1 hX hg hsize]
        have : S.elems.filter (fun b => !decide (b = socket)) = [] :=
          List.length_eq_zero.mp hsize
        simp [this]
        rfl
      · rw [wsOnClose_of_more _ socket X S hL1 hX hg hsize]
        have : ¬ S.elems.filter (fun b => !decide (b = socket)) = [] := by
          intro hnil
          apply hsize
          unfold JsSet.size JsSet.delete
          rw [hnil]
          rfl
        simp only [this, and_false, if_false]
        rfl

/-- C21: in every state reached by `/ws` registrations and socket `close`
events, a registration with channel id X issues the bus subscribe for
`channel:X` exactly when it finds no entry for X, and a `close` issues the
unsubscribe exactly when its socket listens for an X that has an entry and the
set of X is empty once the socket is taken out; `channelSockets` has an entry
for X iff some socket is registered under X iff the subscribes for X outnumber
the unsubscribes by exactly one (they are equal otherwise); and no stored set
is empty. -/
theorem ws_subscription_invariant (nodeEnv : String) (actions : List WsAction) :
    (∀ (X : String) (scenarioId : Option String) (lookup : Except String (Option String)),
      X ≠ "" →
      (wsStep nodeEnv (wsRun nodeEnv (Registry.init []) actions)
        (.connect { channelId := some X, scenarioId := scenarioId } lookup)).bus =
        if (wsRun nodeEnv (Registry.init []) actions).channelSockets.has X then
          (wsRun nodeEnv (Registry.init []) actions).bus
        else
          (wsRun nodeEnv (Registry.init []) actions).bus ++ [.subscribe ("channel:" ++ X)]) ∧
    (∀ socket : Nat,
      (wsStep nodeEnv (wsRun nodeEnv (Registry.init []) actions) (.close socket)).bus =
        match (wsRun nodeEnv (Registry.init []) actions).listeningOf socket with
        | none => (wsRun nodeEnv (Registry.init []) actions).bus
        | some X =>
          if (wsRun nodeEnv (Registry.init []) actions).channelSockets.has X = true ∧
              ((wsRun nodeEnv (Registry.init []) actions).socketsOf X).filter
                (fun b => !decide (b = socket)) = [] then
            (wsRun nodeEnv (Registry.init []) actions).bus ++ [.unsubscribe ("channel:" ++ X)]
          else (wsRun nodeEnv (Registry.init []) actions).bus) ∧
    (∀ X : String,
      (wsRun nodeEnv (Registry.init []) actions).channelSockets.has X = true ↔
        ∃ socket, (wsRun nodeEnv (Registry.init []) actions).registered X socket) ∧
    (∀ X : String,
      (wsRun nodeEnv (Registry.init []) actions).channelSockets.has X = true ↔
        (wsRun nodeEnv (Registry.init []) actions).subscribes X =
          (wsRun nodeEnv (Registry.init []) actions).unsubscribes X + 1) ∧
    (∀ X : String,
      (wsRun nodeEnv (Registry.init []) actions).channelSockets.has X = false ↔
        (wsRun nodeEnv (Registry.init []) actions).subscribes X =
          (wsRun nodeEnv (Registry.init []) actions).unsubscribes X) ∧
    (∀ e ∈ (wsRun nodeEnv (Registry.init []) actions).channelSockets.entries,
      e.2.elems ≠ []) := by
  have hinv := RegistryInv.of_wsRun nodeEnv actions (Registry.init []) RegistryInv.at_start
  refine ⟨fun X scenarioId lookup hX => wsStep_connect_bus nodeEnv _ X scenarioId lookup hX,
    fun socket => wsStep_close_bus nodeEnv _ socket (hinv.listening_nonempty socket),
    ?_, ?_, ?_, hinv.sets_nonempty⟩
  · intro X
    rw [has_iff_socketsOf _ hinv.sets_nonempty X]
    constructor
    · rintro ⟨socket, hs⟩
      exact ⟨socket, (hinv.members X socket).mp hs⟩
    · rintro ⟨socket, hs⟩
      exact ⟨socket, (hinv.members X socket).mpr hs⟩
  · intro X
    have hb := hinv.balance X
    cases hh : (wsRun nodeEnv (Registry.init []) actions).channelSockets.has X with
    | true => rw [hh] at hb; simp at hb ⊢; exact hb
    | false => rw [hh] at hb; simp at hb ⊢; omega
  · intro X
    have hb := hinv.balance X
    cases hh : (wsRun nodeEnv (Registry.init []) actions).channelSockets.has X with
    | true => rw [hh] at hb; simp at hb ⊢; omega
    | false => rw [hh] at hb; simp at hb ⊢; exact hb

theorem ws_subscription_invariant_witness :
    (wsStep "production" (wsRun "production" (Registry.init []) twoClientsTrace)
        (.connect { channelId := some "c2", scenarioId := none } (.ok none))).bus =
      (if (wsRun "production" (Registry.init []) twoClientsTrace).channelSockets.has "c2" then
        (wsRun "production" (Registry.init []) twoClientsTrace).bus
      else
        (wsRun "production" (Registry.init []) twoClientsTrace).bus ++
          [.subscribe ("channel:" ++ "c2")]) ∧
    ((wsRun "production" (Registry.init []) twoClientsTrace).channelSockets.has "c1" = true ↔
      (wsRun "production" (Registry.init []) twoClientsTrace).subscribes "c1" =
        (wsRun "production" (Registry.init []) twoClientsTrace).unsubscribes "c1" + 1) :=
  ⟨(ws_subscription_invariant "production" twoClientsTrace).1 "c2" none (.ok none) (by decide),
   (ws_subscription_invariant "production" twoClientsTrace).2.2.2.1 "c1"⟩

end Leoncast
